import Mathlib

/-!
RPMB storage layer of kernelflinger.

A shallow embedding of `libkernelflinger/rpmb_storage.c`.

* The three file-scope statics (`rpmb_ops`, `rpmb_key`, `rpmb_buffer`) become the
  fields of `State`, threaded explicitly through every operation.
* The eight functions of the eMMC / simulation layer that the file calls
  (`emmc_read_rpmb_data`, `emmc_simulate_write_rpmb_data`, ...) live in other
  translation units.  They are taken as a parameter `hw : Collab D` acting on an
  arbitrary device state `D`, so every theorem holds for every implementation of
  them.
* The functions called by `derive_rpmb_key` (the SHA-256 entry points, the random
  source and the serial-number accessor) are taken as a parameter
  `kc : KeyCollab E C` in the same way.
* Each call of an eMMC or simulation function is recorded in the ghost field `State.trace`,
  which is what "issues a write" refers to.
* Bytes are natural numbers below 256 and byte arrays are functions from the
  byte position to the byte.  `UINT64` values are laid out little-endian, as on
  the x86 targets of kernelflinger.
-/

namespace RpmbStorage

/-! ## Constants -/

/-- Source: `#define RPMB_DEVICE_STATE_BLOCK_COUNT 1` (line 46). -/
def RPMB_DEVICE_STATE_BLOCK_COUNT : Nat := 1

/-- Source: `#define RPMB_DEVICE_STATE_BLOCK_ADDR 2` (line 47). -/
def RPMB_DEVICE_STATE_BLOCK_ADDR : Nat := 2

/-- Source: `#define RPMB_BLOCK_SIZE 256` (line 48). -/
def RPMB_BLOCK_SIZE : Nat := 256

/-- Source: `#define RPMB_ROLLBACK_INDEX_COUNT_PER_BLOCK (RPMB_BLOCK_SIZE/8)` (line 49). -/
def RPMB_ROLLBACK_INDEX_COUNT_PER_BLOCK : Nat := RPMB_BLOCK_SIZE / 8

/-- Source: `#define RPMB_ROLLBACK_INDEX_BLOCK_TOTAL_COUNT 8` (line 50). -/
def RPMB_ROLLBACK_INDEX_BLOCK_TOTAL_COUNT : Nat := 8

/-- Source: `#define RPMB_ROLLBACK_INDEX_BLOCK_ADDR 3` (line 51). -/
def RPMB_ROLLBACK_INDEX_BLOCK_ADDR : Nat := 3

/-- Source: `#define DEVICE_STATE_MAGIC 0xDC` (line 52). -/
def DEVICE_STATE_MAGIC : Nat := 0xDC

/-- The key width `RPMB_KEY_SIZE` of `rpmb.h`: 32 bytes. -/
def RPMB_KEY_SIZE : Nat := 32

/-- The value of `sizeof(UINT64)`. -/
def SIZEOF_UINT64 : Nat := 8

/-! ## UEFI status codes

`EFI_STATUS` is the UEFI `UINTN`; the macros below are those of the UEFI
headers (`efierr.h`), for a 64-bit `UINTN`: an error status has the top bit
set. -/

/-- A UEFI status word. -/
abbrev EFI_STATUS := Nat

/-- UEFI header: `#define EFI_SUCCESS 0`. -/
def EFI_SUCCESS : EFI_STATUS := 0

/-- UEFI header: `#define EFIERR(a) (0x8000000000000000 | a)`, for `a` below `2^63`. -/
def EFIERR (a : Nat) : EFI_STATUS := 2 ^ 63 + a

/-- UEFI header: `#define EFI_INVALID_PARAMETER EFIERR(2)`. -/
def EFI_INVALID_PARAMETER : EFI_STATUS := EFIERR 2

/-- UEFI header: `#define EFI_DEVICE_ERROR EFIERR(7)`. -/
def EFI_DEVICE_ERROR : EFI_STATUS := EFIERR 7

/-- UEFI header: `#define EFI_NOT_FOUND EFIERR(14)`. -/
def EFI_NOT_FOUND : EFI_STATUS := EFIERR 14

/-- UEFI header: `#define EFI_ERROR(a) (((INTN) a) < 0)`: the top bit of the status is set. -/
def EFI_ERROR (a : EFI_STATUS) : Bool := decide (2 ^ 63 ≤ a)

/-- Enumerator `RPMB_RES_OK` of the enumeration `RPMB_RESPONSE_RESULT` (`rpmb.h`). -/
def RPMB_RES_OK : Nat := 0

/-- Enumerator `RPMB_RES_NO_AUTH_KEY_PROGRAM` of `RPMB_RESPONSE_RESULT` (`rpmb.h`). -/
def RPMB_RES_NO_AUTH_KEY_PROGRAM : Nat := 7

/-! ## Byte arrays -/

/-- A byte array seen from its first byte: position to byte value. -/
abbrev Bytes := Nat → Nat

/-- The assignment `buf[i] = v`. -/
def poke (buf : Bytes) (i v : Nat) : Bytes :=
  fun j => if j = i then v else buf j

/-- Byte `i` of the object representation of a `UINT64` (little-endian). -/
def u64_byte (v i : Nat) : Nat := (v / 256 ^ i) % 256

/-- The `UINT64` whose object representation is the 8 bytes of `buf` at `off`. -/
def u64_load (buf : Bytes) (off : Nat) : Nat :=
  (List.range SIZEOF_UINT64).foldr (fun i acc => acc + buf (off + i) * 256 ^ i) 0

/-- The call `memcpy(buf + off, &v, sizeof(UINT64))`. -/
def memcpy_u64 (buf : Bytes) (off v : Nat) : Bytes :=
  fun j => if off ≤ j ∧ j < off + SIZEOF_UINT64 then u64_byte v (j - off) else buf j

/-- The test `!memcmp(&v, buf + off, sizeof(UINT64))`: true when the 8 bytes agree. -/
def memcmp_u64_eq (v : Nat) (buf : Bytes) (off : Nat) : Bool :=
  (List.range SIZEOF_UINT64).all (fun i => u64_byte v i == buf (off + i))

/-- The call `memcpy(dst, src, n)`. -/
def memcpy (dst src : Bytes) (n : Nat) : Bytes :=
  fun j => if j < n then src j else dst j

/-- The call `memset(dst, c, n)`. -/
def memset (dst : Bytes) (c n : Nat) : Bytes :=
  fun j => if j < n then c else dst j

/-! ## The collaborators -/

/-- What `emmc_get_counter` / `emmc_simulate_get_counter` hand back. -/
structure CounterOut (D : Type) where
  status : EFI_STATUS
  write_counter : Nat
  rpmb_result : Nat
  dev : D

/-- What a call without data output hands back (programming the key, a write). -/
structure CallOut (D : Type) where
  status : EFI_STATUS
  rpmb_result : Nat
  dev : D

/-- What a read hands back; `buffer` is the caller's buffer after the call. -/
structure ReadOut (D : Type) where
  status : EFI_STATUS
  rpmb_result : Nat
  buffer : Bytes
  dev : D

/-- The functions of the eMMC and simulation layers called by `rpmb_storage.c`,
over a device state `D`.  Arguments are in the order of the C prototypes, without
the leading `NULL` handle and with the `RPMB_RESPONSE_RESULT *` output moved to
the result.  The simulation entry points have no response result; the field is
ignored for them. -/
structure Collab (D : Type) where
  emmc_get_counter : D → Bytes → CounterOut D
  emmc_program_key : D → Bytes → CallOut D
  emmc_read_rpmb_data : D → Nat → Nat → Bytes → Bytes → ReadOut D
  emmc_write_rpmb_data : D → Nat → Nat → Bytes → Bytes → CallOut D
  emmc_simulate_get_counter : D → Bytes → CounterOut D
  emmc_simulate_program_rpmb_key : D → Bytes → CallOut D
  emmc_simulate_read_rpmb_data : D → Nat → Bytes → Nat → ReadOut D
  emmc_simulate_write_rpmb_data : D → Nat → Bytes → Nat → CallOut D

/-- One call of a collaborator, as recorded in the trace. -/
inductive HwCall where
  | get_counter
  | program_key (key : Bytes)
  | read (blk_count blk_addr : Nat)
  | write (blk_count blk_addr : Nat) (data : Bytes)
  | simulate_get_counter
  | simulate_program_key (key : Bytes)
  | simulate_read (offset size : Nat)
  | simulate_write (offset size : Nat) (data : Bytes)

/-- Whether the call is a block or byte-range write. -/
def HwCall.is_write : HwCall → Bool
  | .write _ _ _ => true
  | .simulate_write _ _ _ => true
  | _ => false

/-- The RPMB block a call of the real backend addresses. -/
def HwCall.block : HwCall → Option Nat
  | .read _ a => some a
  | .write _ a _ => some a
  | _ => none

/-- The byte offset a call of the simulated backend addresses. -/
def HwCall.byte_offset : HwCall → Option Nat
  | .simulate_read o _ => some o
  | .simulate_write o _ _ => some o
  | _ => none

/-- Number of writes in a trace. -/
def write_count (t : List HwCall) : Nat := t.countP HwCall.is_write

/-! ## Module state -/

/-- Which of the two function tables `rpmb_storage_init` stored in `rpmb_ops`. -/
inductive Backend where
  | real
  | simulate
  deriving DecidableEq

/-- The statics of the module, the device behind the collaborators, and the
trace of collaborator calls made so far. -/
structure State (D : Type) where
  rpmb_ops : Option Backend
  rpmb_key : Bytes
  rpmb_buffer : Bytes
  dev : D
  trace : List HwCall

/-- The initialiser of `rpmb_key` (line 55): `"12345ABCDEF1234512345ABCDEF12345"`. -/
def rpmb_key_init : Bytes :=
  fun i => ([49, 50, 51, 52, 53, 65, 66, 67, 68, 69, 70, 49, 50, 51, 52, 53,
             49, 50, 51, 52, 53, 65, 66, 67, 68, 69, 70, 49, 50, 51, 52, 53] : List Nat).getD i 0

/-- The module state at program start over a device `d`. -/
def State.init {D : Type} (d : D) : State D :=
  { rpmb_ops := none, rpmb_key := rpmb_key_init, rpmb_buffer := fun _ => 0, dev := d, trace := [] }

/-- The call `emmc_read_rpmb_data(NULL, n, a, rpmb_buffer, rpmb_key, &rpmb_result)`. -/
def call_read {D : Type} (hw : Collab D) (n a : Nat) (st : State D) : EFI_STATUS × State D :=
  let r := hw.emmc_read_rpmb_data st.dev n a st.rpmb_buffer st.rpmb_key
  (r.status, { st with rpmb_buffer := r.buffer, dev := r.dev,
                       trace := st.trace ++ [HwCall.read n a] })

/-- The call `emmc_write_rpmb_data(NULL, n, a, rpmb_buffer, rpmb_key, &rpmb_result)`. -/
def call_write {D : Type} (hw : Collab D) (n a : Nat) (st : State D) : EFI_STATUS × State D :=
  let w := hw.emmc_write_rpmb_data st.dev n a st.rpmb_buffer st.rpmb_key
  (w.status, { st with dev := w.dev, trace := st.trace ++ [HwCall.write n a st.rpmb_buffer] })

/-- The call `emmc_simulate_read_rpmb_data(offset, rpmb_buffer, size)`. -/
def call_simulate_read {D : Type} (hw : Collab D) (offset size : Nat) (st : State D) :
    EFI_STATUS × State D :=
  let r := hw.emmc_simulate_read_rpmb_data st.dev offset st.rpmb_buffer size
  (r.status, { st with rpmb_buffer := r.buffer, dev := r.dev,
                       trace := st.trace ++ [HwCall.simulate_read offset size] })

/-- The call `emmc_simulate_write_rpmb_data(offset, rpmb_buffer, size)`. -/
def call_simulate_write {D : Type} (hw : Collab D) (offset size : Nat) (st : State D) :
    EFI_STATUS × State D :=
  let w := hw.emmc_simulate_write_rpmb_data st.dev offset st.rpmb_buffer size
  (w.status, { st with dev := w.dev,
                       trace := st.trace ++ [HwCall.simulate_write offset size st.rpmb_buffer] })

/-! ## Key handling (lines 84-92) -/

/-- Function `clear_rpmb_key` (line 84). -/
def clear_rpmb_key {D : Type} (st : State D) : State D :=
  { st with rpmb_key := memset st.rpmb_key 0 RPMB_KEY_SIZE }

/-- Function `set_rpmb_key` (line 89). -/
def set_rpmb_key {D : Type} (key : Bytes) (st : State D) : State D :=
  { st with rpmb_key := memcpy st.rpmb_key key RPMB_KEY_SIZE }

/-! ## Key derivation (lines 59-82) -/

/-- What `generate_random_numbers` hands back; `buffer` is the caller's buffer
after the call. -/
structure RandomOut (E : Type) where
  status : EFI_STATUS
  buffer : Bytes
  env : E

/-- The functions called by `derive_rpmb_key` that live outside the file: the
three SHA-256 entry points of the crypto library over a context type `C`, and
`get_serial_number` and `generate_random_numbers` over an environment `E`.
`SHA256_Init` yields its `int` result with the initialised context;
`SHA256_Update` receives the `len` bytes at `data` as a list; `SHA256_Final`
yields the bytes it stores through `md`; `get_serial_number` yields the
characters of the string before the terminating NUL. -/
structure KeyCollab (E C : Type) where
  SHA256_Init : Int × C
  SHA256_Update : C → List Nat → C
  SHA256_Final : C → List Nat
  get_serial_number : E → List Nat
  generate_random_numbers : E → Bytes → Nat → RandomOut E

/-- Function `derive_rpmb_key` (line 59).  The second component is what is stored
through `out_key`, or `none` when it is left untouched; the module state is
handed back as the function leaves it. -/
def derive_rpmb_key {D E C : Type} (kc : KeyCollab E C) (env : E) (st : State D) :
    EFI_STATUS × Option (List Nat) × E × State D :=
  let random : Bytes := fun _ => 0
  let (r, sha_ctx) := kc.SHA256_Init
  if 1 ≠ r then (EFI_INVALID_PARAMETER, none, env, st)
  else
    let serialno := kc.get_serial_number env
    let g := kc.generate_random_numbers env random RPMB_KEY_SIZE
    if EFI_ERROR g.status then (g.status, none, g.env, st)
    else
      let sha_ctx := kc.SHA256_Update sha_ctx ((List.range RPMB_KEY_SIZE).map g.buffer)
      let sha_ctx := kc.SHA256_Update sha_ctx serialno
      (EFI_SUCCESS, some (kc.SHA256_Final sha_ctx), g.env, st)

/-! ## Real backend (lines 124-245) -/

/-- Function `is_rpmb_programed_real` (line 124). -/
def is_rpmb_programed_real {D : Type} (hw : Collab D) (st : State D) : Bool × State D :=
  let r := hw.emmc_get_counter st.dev st.rpmb_key
  let st1 := { st with dev := r.dev, trace := st.trace ++ [HwCall.get_counter] }
  if EFI_ERROR r.status && r.rpmb_result == RPMB_RES_NO_AUTH_KEY_PROGRAM then (false, st1)
  else (true, st1)

/-- Function `program_rpmb_key_real` (line 139). -/
def program_rpmb_key_real {D : Type} (hw : Collab D) (key : Bytes) (st : State D) :
    EFI_STATUS × State D :=
  let st1 := { st with rpmb_key := memcpy st.rpmb_key key RPMB_KEY_SIZE }
  let r := hw.emmc_program_key st1.dev key
  let st2 := { st1 with dev := r.dev, trace := st1.trace ++ [HwCall.program_key key] }
  if EFI_ERROR r.status then (r.status, st2) else (EFI_SUCCESS, st2)

/-- Function `write_rpmb_device_state_real` (line 154); `state` is a `UINT8`. -/
def write_rpmb_device_state_real {D : Type} (hw : Collab D) (state : Nat) (st : State D) :
    EFI_STATUS × State D :=
  let (ret, st1) := call_read hw RPMB_DEVICE_STATE_BLOCK_COUNT RPMB_DEVICE_STATE_BLOCK_ADDR st
  if EFI_ERROR ret then (ret, st1)
  else
    let st2 := { st1 with rpmb_buffer := poke st1.rpmb_buffer 0 DEVICE_STATE_MAGIC }
    let st3 := { st2 with rpmb_buffer := poke st2.rpmb_buffer 1 (state % 256) }
    let (ret, st4) := call_write hw RPMB_DEVICE_STATE_BLOCK_COUNT RPMB_DEVICE_STATE_BLOCK_ADDR st3
    if EFI_ERROR ret then (ret, st4) else (EFI_SUCCESS, st4)

/-- Function `read_rpmb_device_state_real` (line 176).  The middle component is the value
stored through `state`, or `none` when `*state` is left untouched. -/
def read_rpmb_device_state_real {D : Type} (hw : Collab D) (st : State D) :
    EFI_STATUS × Option Nat × State D :=
  let (ret, st1) := call_read hw RPMB_DEVICE_STATE_BLOCK_COUNT RPMB_DEVICE_STATE_BLOCK_ADDR st
  if EFI_ERROR ret then (ret, none, st1)
  else if st1.rpmb_buffer 0 ≠ DEVICE_STATE_MAGIC then (EFI_NOT_FOUND, none, st1)
  else (EFI_SUCCESS, some (st1.rpmb_buffer 1), st1)

/-- The block address of lines 200-203 and 231-234: `UINT16 blk_addr = 3;
blk_addr += index / RPMB_ROLLBACK_INDEX_COUNT_PER_BLOCK;`, the sum being
converted back to `UINT16`. -/
def rollback_blk_addr (index : Nat) : Nat :=
  (RPMB_ROLLBACK_INDEX_BLOCK_ADDR + index / RPMB_ROLLBACK_INDEX_COUNT_PER_BLOCK) % 2 ^ 16

/-- The offset of lines 204 and 235: `UINT16 blk_offset =
(index % RPMB_ROLLBACK_INDEX_COUNT_PER_BLOCK) * sizeof(UINT64);`. -/
def rollback_blk_offset (index : Nat) : Nat :=
  ((index % RPMB_ROLLBACK_INDEX_COUNT_PER_BLOCK) * SIZEOF_UINT64) % 2 ^ 16

/-- Function `write_rpmb_rollback_index_real` (line 196); `in_rollback_index` is a `UINT64`,
of which `memcmp` and `memcpy` see the 8 bytes of the object representation. -/
def write_rpmb_rollback_index_real {D : Type} (hw : Collab D) (index in_rollback_index : Nat)
    (st : State D) : EFI_STATUS × State D :=
  let v := in_rollback_index
  let blk_addr := rollback_blk_addr index
  let blk_offset := rollback_blk_offset index
  let (ret, st1) := call_read hw 1 blk_addr st
  if EFI_ERROR ret then (ret, st1)
  else if memcmp_u64_eq v st1.rpmb_buffer blk_offset then (EFI_SUCCESS, st1)
  else
    let st2 := { st1 with rpmb_buffer := memcpy_u64 st1.rpmb_buffer blk_offset v }
    let (ret, st3) := call_write hw 1 blk_addr st2
    if EFI_ERROR ret then (ret, st3) else (EFI_SUCCESS, st3)

/-- Function `read_rpmb_rollback_index_real` (line 227).  The middle component is the
value stored through `out_rollback_index`, or `none` when it is left untouched. -/
def read_rpmb_rollback_index_real {D : Type} (hw : Collab D) (index : Nat) (st : State D) :
    EFI_STATUS × Option Nat × State D :=
  let blk_addr := rollback_blk_addr index
  let blk_offset := rollback_blk_offset index
  let (ret, st1) := call_read hw 1 blk_addr st
  if EFI_ERROR ret then (ret, none, st1)
  else (EFI_SUCCESS, some (u64_load st1.rpmb_buffer blk_offset), st1)

/-! ## Simulated backend (lines 247-378) -/

/-- Function `is_rpmb_programed_simulate` (line 247). -/
def is_rpmb_programed_simulate {D : Type} (hw : Collab D) (st : State D) : Bool × State D :=
  let r := hw.emmc_simulate_get_counter st.dev st.rpmb_key
  let st1 := { st with dev := r.dev, trace := st.trace ++ [HwCall.simulate_get_counter] }
  if EFI_ERROR r.status && r.rpmb_result == RPMB_RES_NO_AUTH_KEY_PROGRAM then (false, st1)
  else (true, st1)

/-- Function `program_rpmb_key_simulate` (line 262). -/
def program_rpmb_key_simulate {D : Type} (hw : Collab D) (key : Bytes) (st : State D) :
    EFI_STATUS × State D :=
  let st1 := { st with rpmb_key := memcpy st.rpmb_key key RPMB_KEY_SIZE }
  let r := hw.emmc_simulate_program_rpmb_key st1.dev key
  let st2 := { st1 with dev := r.dev, trace := st1.trace ++ [HwCall.simulate_program_key key] }
  if EFI_ERROR r.status then (r.status, st2) else (EFI_SUCCESS, st2)

/-- The `UINT32 byte_offset` of lines 282 and 309. -/
def device_state_byte_offset : Nat :=
  (RPMB_DEVICE_STATE_BLOCK_ADDR * RPMB_BLOCK_SIZE) % 2 ^ 32

/-- Function `write_rpmb_device_state_simulate` (line 277). -/
def write_rpmb_device_state_simulate {D : Type} (hw : Collab D) (state : Nat) (st : State D) :
    EFI_STATUS × State D :=
  let byte_offset := device_state_byte_offset
  let (ret, st1) := call_simulate_read hw byte_offset RPMB_BLOCK_SIZE st
  if ret = EFI_NOT_FOUND then (EFI_SUCCESS, st1)
  else if EFI_ERROR ret then (ret, st1)
  else
    let st2 := { st1 with rpmb_buffer := poke st1.rpmb_buffer 0 DEVICE_STATE_MAGIC }
    let st3 := { st2 with rpmb_buffer := poke st2.rpmb_buffer 1 (state % 256) }
    let (ret, st4) := call_simulate_write hw byte_offset RPMB_BLOCK_SIZE st3
    if EFI_ERROR ret then (ret, st4) else (EFI_SUCCESS, st4)

/-- Function `read_rpmb_device_state_simulate` (line 304). -/
def read_rpmb_device_state_simulate {D : Type} (hw : Collab D) (st : State D) :
    EFI_STATUS × Option Nat × State D :=
  let byte_offset := device_state_byte_offset
  let (ret, st1) := call_simulate_read hw byte_offset RPMB_BLOCK_SIZE st
  if EFI_ERROR ret then (ret, none, st1)
  else if st1.rpmb_buffer 0 ≠ DEVICE_STATE_MAGIC then (EFI_NOT_FOUND, none, st1)
  else (EFI_SUCCESS, some (st1.rpmb_buffer 1), st1)

/-- The `UINT32 byte_offset` of lines 330 and 363:
`RPMB_ROLLBACK_INDEX_BLOCK_ADDR * RPMB_BLOCK_SIZE + index * sizeof(UINT64)`. -/
def rollback_byte_offset (index : Nat) : Nat :=
  (RPMB_ROLLBACK_INDEX_BLOCK_ADDR * RPMB_BLOCK_SIZE + index * SIZEOF_UINT64) % 2 ^ 32

/-- Function `write_rpmb_rollback_index_simulate` (line 325).  The test of `EFI_ERROR`
comes first, as in the source (lines 334-342). -/
def write_rpmb_rollback_index_simulate {D : Type} (hw : Collab D)
    (index in_rollback_index : Nat) (st : State D) : EFI_STATUS × State D :=
  let v := in_rollback_index
  let byte_offset := rollback_byte_offset index
  let (ret, st1) := call_simulate_read hw byte_offset SIZEOF_UINT64 st
  if EFI_ERROR ret then (ret, st1)
  else if ret = EFI_NOT_FOUND then (EFI_SUCCESS, st1)
  else if memcmp_u64_eq v st1.rpmb_buffer 0 then (EFI_SUCCESS, st1)
  else
    let st2 := { st1 with rpmb_buffer := memcpy_u64 st1.rpmb_buffer 0 v }
    let (ret, st3) := call_simulate_write hw byte_offset SIZEOF_UINT64 st2
    if EFI_ERROR ret then (ret, st3) else (EFI_SUCCESS, st3)

/-- Function `read_rpmb_rollback_index_simulate` (line 358). -/
def read_rpmb_rollback_index_simulate {D : Type} (hw : Collab D) (index : Nat) (st : State D) :
    EFI_STATUS × Option Nat × State D :=
  let byte_offset := rollback_byte_offset index
  let (ret, st1) := call_simulate_read hw byte_offset SIZEOF_UINT64 st
  if ret = EFI_NOT_FOUND then (EFI_SUCCESS, some 0, st1)
  else if EFI_ERROR ret then (ret, none, st1)
  else (EFI_SUCCESS, some (u64_load st1.rpmb_buffer 0), st1)

/-! ## Dispatch (lines 94-122 and 380-397) -/

/-- Function `rpmb_storage_init` (line 380). -/
def rpmb_storage_init {D : Type} (real : Bool) (st : State D) : State D :=
  if real then { st with rpmb_ops := some Backend.real }
  else { st with rpmb_ops := some Backend.simulate }

/-- Function `is_rpmb_programed` (line 94); `none` when `rpmb_ops` was never bound. -/
def is_rpmb_programed {D : Type} (hw : Collab D) (st : State D) : Option (Bool × State D) :=
  match st.rpmb_ops with
  | some Backend.real => some (is_rpmb_programed_real hw st)
  | some Backend.simulate => some (is_rpmb_programed_simulate hw st)
  | none => none

/-- Function `program_rpmb_key` (line 99). -/
def program_rpmb_key {D : Type} (hw : Collab D) (key : Bytes) (st : State D) :
    Option (EFI_STATUS × State D) :=
  match st.rpmb_ops with
  | some Backend.real => some (program_rpmb_key_real hw key st)
  | some Backend.simulate => some (program_rpmb_key_simulate hw key st)
  | none => none

/-- Function `write_rpmb_device_state` (line 104). -/
def write_rpmb_device_state {D : Type} (hw : Collab D) (state : Nat) (st : State D) :
    Option (EFI_STATUS × State D) :=
  match st.rpmb_ops with
  | some Backend.real => some (write_rpmb_device_state_real hw state st)
  | some Backend.simulate => some (write_rpmb_device_state_simulate hw state st)
  | none => none

/-- Function `read_rpmb_device_state` (line 109). -/
def read_rpmb_device_state {D : Type} (hw : Collab D) (st : State D) :
    Option (EFI_STATUS × Option Nat × State D) :=
  match st.rpmb_ops with
  | some Backend.real => some (read_rpmb_device_state_real hw st)
  | some Backend.simulate => some (read_rpmb_device_state_simulate hw st)
  | none => none

/-- Function `write_rpmb_rollback_index` (line 114); `index` is a `size_t`. -/
def write_rpmb_rollback_index {D : Type} (hw : Collab D) (index in_rollback_index : Nat)
    (st : State D) : Option (EFI_STATUS × State D) :=
  match st.rpmb_ops with
  | some Backend.real => some (write_rpmb_rollback_index_real hw index in_rollback_index st)
  | some Backend.simulate => some (write_rpmb_rollback_index_simulate hw index in_rollback_index st)
  | none => none

/-- Function `read_rpmb_rollback_index` (line 119). -/
def read_rpmb_rollback_index {D : Type} (hw : Collab D) (index : Nat) (st : State D) :
    Option (EFI_STATUS × Option Nat × State D) :=
  match st.rpmb_ops with
  | some Backend.real => some (read_rpmb_rollback_index_real hw index st)
  | some Backend.simulate => some (read_rpmb_rollback_index_simulate hw index st)
  | none => none

/-! ## What "behaves as a store" means

The contents of the device are read through an abstraction `mem`, the flat byte
image of the RPMB area: block `a` occupies the bytes `a * 256 .. a * 256 + 255`.
All calls of the module use a block count of 1. -/

/-- The real collaborator behaves as a store with byte image `mem`: reads leave
the image alone and, when they succeed, deliver the block; a successful write
replaces exactly the addressed block; and a block that was read or written
successfully can be read afterwards. -/
structure RealStore {D : Type} (hw : Collab D) (mem : D → Nat → Nat) : Prop where
  read_keeps : ∀ d a buf key, mem (hw.emmc_read_rpmb_data d 1 a buf key).dev = mem d
  read_gives : ∀ d a buf key, EFI_ERROR (hw.emmc_read_rpmb_data d 1 a buf key).status = false →
    ∀ i, i < RPMB_BLOCK_SIZE →
      (hw.emmc_read_rpmb_data d 1 a buf key).buffer i = mem d (a * RPMB_BLOCK_SIZE + i)
  write_puts : ∀ d a buf key, EFI_ERROR (hw.emmc_write_rpmb_data d 1 a buf key).status = false →
    ∀ x, mem (hw.emmc_write_rpmb_data d 1 a buf key).dev x =
      if a * RPMB_BLOCK_SIZE ≤ x ∧ x < a * RPMB_BLOCK_SIZE + RPMB_BLOCK_SIZE
      then buf (x - a * RPMB_BLOCK_SIZE) else mem d x
  read_after_read : ∀ d a buf key, EFI_ERROR (hw.emmc_read_rpmb_data d 1 a buf key).status = false →
    ∀ a1 buf1, EFI_ERROR (hw.emmc_read_rpmb_data d 1 a1 buf1 key).status = false →
      ∀ buf2, EFI_ERROR (hw.emmc_read_rpmb_data
        (hw.emmc_read_rpmb_data d 1 a1 buf1 key).dev 1 a buf2 key).status = false
  read_after_write : ∀ d a buf key, EFI_ERROR (hw.emmc_write_rpmb_data d 1 a buf key).status = false →
    ∀ buf2, EFI_ERROR (hw.emmc_read_rpmb_data
      (hw.emmc_write_rpmb_data d 1 a buf key).dev 1 a buf2 key).status = false
  read_across_write : ∀ d a buf key, EFI_ERROR (hw.emmc_read_rpmb_data d 1 a buf key).status = false →
    ∀ a1 buf1, EFI_ERROR (hw.emmc_write_rpmb_data d 1 a1 buf1 key).status = false →
      ∀ buf2, EFI_ERROR (hw.emmc_read_rpmb_data
        (hw.emmc_write_rpmb_data d 1 a1 buf1 key).dev 1 a buf2 key).status = false

/-- The simulated collaborator behaves as a store with byte image `mem`: the
same laws, on byte ranges `offset .. offset + size - 1`. -/
structure SimStore {D : Type} (hw : Collab D) (mem : D → Nat → Nat) : Prop where
  read_keeps : ∀ d o buf n, mem (hw.emmc_simulate_read_rpmb_data d o buf n).dev = mem d
  read_gives : ∀ d o buf n, EFI_ERROR (hw.emmc_simulate_read_rpmb_data d o buf n).status = false →
    ∀ i, i < n → (hw.emmc_simulate_read_rpmb_data d o buf n).buffer i = mem d (o + i)
  write_puts : ∀ d o buf n, EFI_ERROR (hw.emmc_simulate_write_rpmb_data d o buf n).status = false →
    ∀ x, mem (hw.emmc_simulate_write_rpmb_data d o buf n).dev x =
      if o ≤ x ∧ x < o + n then buf (x - o) else mem d x
  read_after_read : ∀ d o buf n, EFI_ERROR (hw.emmc_simulate_read_rpmb_data d o buf n).status = false →
    ∀ o1 buf1 n1, EFI_ERROR (hw.emmc_simulate_read_rpmb_data d o1 buf1 n1).status = false →
      ∀ buf2, EFI_ERROR (hw.emmc_simulate_read_rpmb_data
        (hw.emmc_simulate_read_rpmb_data d o1 buf1 n1).dev o buf2 n).status = false
  read_after_write : ∀ d o buf n, EFI_ERROR (hw.emmc_simulate_write_rpmb_data d o buf n).status = false →
    ∀ buf2, EFI_ERROR (hw.emmc_simulate_read_rpmb_data
      (hw.emmc_simulate_write_rpmb_data d o buf n).dev o buf2 n).status = false
  read_across_write : ∀ d o buf n, EFI_ERROR (hw.emmc_simulate_read_rpmb_data d o buf n).status = false →
    ∀ o1 buf1 n1, EFI_ERROR (hw.emmc_simulate_write_rpmb_data d o1 buf1 n1).status = false →
      ∀ buf2, EFI_ERROR (hw.emmc_simulate_read_rpmb_data
        (hw.emmc_simulate_write_rpmb_data d o1 buf1 n1).dev o buf2 n).status = false

/-! ## A reference collaborator -/

/-- Modelled from the spec: the device behind the hardware / simulation
collaborator of section 6, whose code is not part of `rpmb_storage.c`.  It is a
flat byte image, the status that every block access reports (`EFI_NOT_FOUND` on
a simulated store that was never provisioned), and the provisioning state of the
authentication key with the write counter. -/
structure FlatDev where
  mem : Nat → Nat
  status : EFI_STATUS
  key_programmed : Bool
  write_counter : Nat

/-- Modelled from the spec: the four collaborator operations of section 6
(get authenticated write counter, program authentication key, authenticated
block read, authenticated block write) over `FlatDev`, the same for the real
and the simulated entry points.  An access takes effect when the reported
status is not an error. -/
def flatHw : Collab FlatDev where
  emmc_get_counter d _ :=
    if d.key_programmed then ⟨EFI_SUCCESS, d.write_counter, RPMB_RES_OK, d⟩
    else ⟨EFI_DEVICE_ERROR, 0, RPMB_RES_NO_AUTH_KEY_PROGRAM, d⟩
  emmc_program_key d _ :=
    if d.key_programmed then ⟨EFI_DEVICE_ERROR, 1, d⟩
    else ⟨EFI_SUCCESS, RPMB_RES_OK, { d with key_programmed := true }⟩
  emmc_read_rpmb_data d n a buf _ :=
    if EFI_ERROR d.status then ⟨d.status, 6, buf, d⟩
    else ⟨d.status, RPMB_RES_OK,
      fun i => if i < n * RPMB_BLOCK_SIZE then d.mem (a * RPMB_BLOCK_SIZE + i) else buf i, d⟩
  emmc_write_rpmb_data d n a buf _ :=
    if EFI_ERROR d.status then ⟨d.status, 5, d⟩
    else ⟨d.status, RPMB_RES_OK,
      { d with
        mem := fun x =>
          if a * RPMB_BLOCK_SIZE ≤ x ∧ x < a * RPMB_BLOCK_SIZE + n * RPMB_BLOCK_SIZE
          then buf (x - a * RPMB_BLOCK_SIZE) else d.mem x
        write_counter := d.write_counter + 1 }⟩
  emmc_simulate_get_counter d _ :=
    if d.key_programmed then ⟨EFI_SUCCESS, d.write_counter, RPMB_RES_OK, d⟩
    else ⟨EFI_DEVICE_ERROR, 0, RPMB_RES_NO_AUTH_KEY_PROGRAM, d⟩
  emmc_simulate_program_rpmb_key d _ :=
    if d.key_programmed then ⟨EFI_DEVICE_ERROR, 1, d⟩
    else ⟨EFI_SUCCESS, RPMB_RES_OK, { d with key_programmed := true }⟩
  emmc_simulate_read_rpmb_data d o buf n :=
    if EFI_ERROR d.status then ⟨d.status, 0, buf, d⟩
    else ⟨d.status, 0, fun i => if i < n then d.mem (o + i) else buf i, d⟩
  emmc_simulate_write_rpmb_data d o buf n :=
    if EFI_ERROR d.status then ⟨d.status, 0, d⟩
    else ⟨d.status, 0,
      { d with mem := fun x => if o ≤ x ∧ x < o + n then buf (x - o) else d.mem x }⟩

/-- A working store whose every byte is zero. -/
def zeroDev : FlatDev :=
  { mem := fun _ => 0, status := EFI_SUCCESS, key_programmed := true, write_counter := 0 }

/-- A simulated store that was never provisioned: every access reports
`EFI_NOT_FOUND`. -/
def freshDev : FlatDev :=
  { mem := fun _ => 0, status := EFI_NOT_FOUND, key_programmed := false, write_counter := 0 }

/-- A working store in which every byte is `0xDC`. -/
def filledDev : FlatDev :=
  { mem := fun _ => 0xDC, status := EFI_SUCCESS, key_programmed := true, write_counter := 0 }

/-- UEFI header: `#define EFI_WRITE_PROTECTED EFIERR(8)`. -/
def EFI_WRITE_PROTECTED : EFI_STATUS := EFIERR 8

/-- Modelled from the spec: the collaborator of section 6 over a store that can
be read but not written: reads are those of `flatHw`, every write reports
`EFI_WRITE_PROTECTED` and changes nothing. -/
def readOnlyHw : Collab FlatDev :=
  { flatHw with
    emmc_write_rpmb_data := fun d _ _ _ _ => ⟨EFI_WRITE_PROTECTED, 5, d⟩
    emmc_simulate_write_rpmb_data := fun d _ _ _ => ⟨EFI_WRITE_PROTECTED, 0, d⟩ }

/-- Modelled from the spec: the environment of key derivation, a random source
that reports `rng_status` and, when that is no error, fills the buffer with
`rng_bytes`, and the device serial number. -/
structure KeyEnv where
  rng_status : EFI_STATUS
  rng_bytes : Bytes
  serial : List Nat

/-- Modelled from the spec: a test double of the digest, of output width 32,
over the list of bytes absorbed so far; `init_result` is what `SHA256_Init`
returns. -/
def testKc (init_result : Int) : KeyCollab KeyEnv (List Nat) where
  SHA256_Init := (init_result, [])
  SHA256_Update c data := c ++ data
  SHA256_Final c := (List.range 32).map (fun i => (c.foldl (fun acc x => 31 * acc + x + i) 7) % 256)
  get_serial_number e := e.serial
  generate_random_numbers e buf n :=
    if EFI_ERROR e.rng_status then ⟨e.rng_status, buf, e⟩
    else ⟨e.rng_status, fun i => if i < n then e.rng_bytes i else buf i, e⟩

/-- A working environment: the random source yields the bytes 1, 2, 3, ... and
the serial number is `"AB12"`. -/
def goodEnv : KeyEnv :=
  { rng_status := EFI_SUCCESS, rng_bytes := fun i => (i + 1) % 256, serial := [65, 66, 49, 50] }

/-- An environment whose random source fails with `EFI_DEVICE_ERROR`. -/
def noRngEnv : KeyEnv :=
  { rng_status := EFI_DEVICE_ERROR, rng_bytes := fun _ => 0, serial := [65, 66, 49, 50] }

/-- UEFI header: `#define EFI_WARN_UNKNOWN_GLYPH EFIWARN(1)`, the value 1: a
warning, not an error. -/
def EFI_WARN_UNKNOWN_GLYPH : EFI_STATUS := 1

/-- Modelled from the spec: the collaborator of section 6 with a key programming
that accepts the key and reports a warning status instead of `EFI_SUCCESS`;
everything else is `flatHw`. -/
def warnHw : Collab FlatDev :=
  { flatHw with
    emmc_program_key := fun d _ =>
      ⟨EFI_WARN_UNKNOWN_GLYPH, RPMB_RES_OK, { d with key_programmed := true }⟩
    emmc_simulate_program_rpmb_key := fun d _ =>
      ⟨EFI_WARN_UNKNOWN_GLYPH, RPMB_RES_OK, { d with key_programmed := true }⟩ }

/-! ## Basic facts -/

theorem EFI_ERROR_EFI_NOT_FOUND : EFI_ERROR EFI_NOT_FOUND = true := by decide

theorem EFI_NOT_FOUND_ne_EFI_SUCCESS : EFI_NOT_FOUND ≠ EFI_SUCCESS := by decide

theorem ne_EFI_NOT_FOUND_of_ok {s : EFI_STATUS} (h : EFI_ERROR s = false) : s ≠ EFI_NOT_FOUND := by
  intro e
  rw [e, EFI_ERROR_EFI_NOT_FOUND] at h
  exact Bool.noConfusion h

theorem memcmp_u64_eq_iff (v : Nat) (buf : Bytes) (off : Nat) :
    memcmp_u64_eq v buf off = true ↔ ∀ i, i < 8 → buf (off + i) = u64_byte v i := by
  simp only [memcmp_u64_eq, SIZEOF_UINT64, List.all_eq_true, List.mem_range, beq_iff_eq]
  constructor
  · intro h i hi
    exact (h i hi).symm
  · intro h i hi
    exact (h i hi).symm

theorem u64_load_eq_of_bytes (v : Nat) (hv : v < 2 ^ 64) (buf : Bytes) (off : Nat)
    (h : ∀ i, i < 8 → buf (off + i) = u64_byte v i) : u64_load buf off = v := by
  have h0 := h 0 (by decide)
  have h1 := h 1 (by decide)
  have h2 := h 2 (by decide)
  have h3 := h 3 (by decide)
  have h4 := h 4 (by decide)
  have h5 := h 5 (by decide)
  have h6 := h 6 (by decide)
  have h7 := h 7 (by decide)
  simp only [u64_load, SIZEOF_UINT64, List.range, List.range.loop, List.foldr]
  rw [h0, h1, h2, h3, h4, h5, h6, h7]
  simp only [u64_byte]
  norm_num
  omega

theorem memcpy_u64_at (buf : Bytes) (off v i : Nat) (hi : i < 8) :
    memcpy_u64 buf off v (off + i) = u64_byte v i := by
  simp only [memcpy_u64, SIZEOF_UINT64]
  rw [if_pos ⟨Nat.le_add_right off i, by omega⟩, Nat.add_sub_cancel_left]

theorem memcpy_u64_off (buf : Bytes) (off v j : Nat) (hj : j < off ∨ off + 8 ≤ j) :
    memcpy_u64 buf off v j = buf j := by
  simp only [memcpy_u64, SIZEOF_UINT64]
  rw [if_neg (by omega)]

theorem flatHw_realStore : RealStore flatHw FlatDev.mem := by
  constructor
  · intro d a buf key
    simp only [flatHw]
    split <;> rfl
  · intro d a buf key h i hi
    simp only [flatHw] at h ⊢
    split
    · rename_i he
      simp [he] at h
    · simp only [RPMB_BLOCK_SIZE] at hi ⊢
      rw [if_pos (by omega)]
  · intro d a buf key h x
    simp only [flatHw] at h ⊢
    split
    · rename_i he
      simp [he] at h
    · simp only [RPMB_BLOCK_SIZE, Nat.one_mul]
  · intro d a buf key h a1 buf1 _ buf2
    simp only [flatHw] at h ⊢
    by_cases he : EFI_ERROR d.status = true
    · simp [he] at h
    · simp [he]
  · intro d a buf key h buf2
    simp only [flatHw] at h ⊢
    by_cases he : EFI_ERROR d.status = true
    · simp [he] at h
    · simp [he]
  · intro d a buf key h a1 buf1 _ buf2
    simp only [flatHw] at h ⊢
    by_cases he : EFI_ERROR d.status = true
    · simp [he] at h
    · simp [he]

theorem flatHw_simStore : SimStore flatHw FlatDev.mem := by
  constructor
  · intro d o buf n
    simp only [flatHw]
    split <;> rfl
  · intro d o buf n h i hi
    simp only [flatHw] at h ⊢
    split
    · rename_i he
      simp [he] at h
    · simp only []
      rw [if_pos hi]
  · intro d o buf n h x
    simp only [flatHw] at h ⊢
    split
    · rename_i he
      simp [he] at h
    · rfl
  · intro d o buf n h o1 buf1 n1 _ buf2
    simp only [flatHw] at h ⊢
    by_cases he : EFI_ERROR d.status = true
    · simp [he] at h
    · simp [he]
  · intro d o buf n h buf2
    simp only [flatHw] at h ⊢
    by_cases he : EFI_ERROR d.status = true
    · simp [he] at h
    · simp [he]
  · intro d o buf n h o1 buf1 n1 _ buf2
    simp only [flatHw] at h ⊢
    by_cases he : EFI_ERROR d.status = true
    · simp [he] at h
    · simp [he]

/-! ## Rollback indices: what a call does -/

theorem ne_EFI_SUCCESS_of_error {s : EFI_STATUS} (h : EFI_ERROR s = true) : s ≠ EFI_SUCCESS := by
  intro e
  rw [e] at h
  exact absurd h (by decide)

theorem rollback_blk_offset_eq (index : Nat) : rollback_blk_offset index = index % 32 * 8 := by
  simp only [rollback_blk_offset, RPMB_ROLLBACK_INDEX_COUNT_PER_BLOCK, RPMB_BLOCK_SIZE,
    SIZEOF_UINT64]
  omega

theorem rollback_blk_offset_le (index : Nat) : rollback_blk_offset index + 8 ≤ 256 := by
  rw [rollback_blk_offset_eq]
  omega

theorem u64_load_congr (b1 b2 : Bytes) (o1 o2 : Nat)
    (h : ∀ i, i < 8 → b1 (o1 + i) = b2 (o2 + i)) : u64_load b1 o1 = u64_load b2 o2 := by
  simp only [u64_load, SIZEOF_UINT64, List.range, List.range.loop, List.foldr]
  rw [h 0 (by decide), h 1 (by decide), h 2 (by decide), h 3 (by decide), h 4 (by decide),
    h 5 (by decide), h 6 (by decide), h 7 (by decide)]

theorem write_real_trace {D : Type} (hw : Collab D) (index v : Nat) (st : State D) :
    (write_rpmb_rollback_index_real hw index v st).2.trace =
      st.trace ++ [HwCall.read 1 (rollback_blk_addr index)] ++
      (if EFI_ERROR (hw.emmc_read_rpmb_data st.dev 1 (rollback_blk_addr index)
            st.rpmb_buffer st.rpmb_key).status = false ∧
          memcmp_u64_eq v (hw.emmc_read_rpmb_data st.dev 1 (rollback_blk_addr index)
            st.rpmb_buffer st.rpmb_key).buffer (rollback_blk_offset index) = false
       then [HwCall.write 1 (rollback_blk_addr index)
          (memcpy_u64 (hw.emmc_read_rpmb_data st.dev 1 (rollback_blk_addr index)
            st.rpmb_buffer st.rpmb_key).buffer (rollback_blk_offset index) v)]
       else []) := by
  simp only [write_rpmb_rollback_index_real, call_read, call_write]
  by_cases he : EFI_ERROR (hw.emmc_read_rpmb_data st.dev 1 (rollback_blk_addr index)
      st.rpmb_buffer st.rpmb_key).status = true
  · simp [he]
  · simp only [Bool.not_eq_true] at he
    by_cases hc : memcmp_u64_eq v (hw.emmc_read_rpmb_data st.dev 1
        (rollback_blk_addr index) st.rpmb_buffer st.rpmb_key).buffer
        (rollback_blk_offset index) = true
    · simp [he, hc]
    · simp only [Bool.not_eq_true] at hc
      simp only [he, hc, Bool.false_eq_true, if_false, and_self, if_true]
      split <;> simp

theorem write_real_effect {D : Type} (hw : Collab D) (mem : D → Nat → Nat)
    (hstore : RealStore hw mem) (index v : Nat) (st : State D)
    (hsucc : (write_rpmb_rollback_index_real hw index v st).1 = EFI_SUCCESS) :
    (write_rpmb_rollback_index_real hw index v st).2.rpmb_key = st.rpmb_key ∧
    (∀ x, mem (write_rpmb_rollback_index_real hw index v st).2.dev x =
      if rollback_blk_addr index * 256 + rollback_blk_offset index ≤ x ∧
          x < rollback_blk_addr index * 256 + rollback_blk_offset index + 8
      then u64_byte v
        (x - (rollback_blk_addr index * 256 + rollback_blk_offset index))
      else mem st.dev x) ∧
    (∀ buf2, EFI_ERROR (hw.emmc_read_rpmb_data
      (write_rpmb_rollback_index_real hw index v st).2.dev 1 (rollback_blk_addr index) buf2
      st.rpmb_key).status = false) ∧
    (∀ a buf, EFI_ERROR (hw.emmc_read_rpmb_data st.dev 1 a buf st.rpmb_key).status = false →
      ∀ buf2, EFI_ERROR (hw.emmc_read_rpmb_data
        (write_rpmb_rollback_index_real hw index v st).2.dev 1 a buf2 st.rpmb_key).status
        = false) := by
  have hoff := rollback_blk_offset_le index
  simp only [write_rpmb_rollback_index_real, call_read, call_write] at hsucc ⊢
  by_cases he : EFI_ERROR (hw.emmc_read_rpmb_data st.dev 1 (rollback_blk_addr index)
      st.rpmb_buffer st.rpmb_key).status = true
  · simp only [he, if_true] at hsucc
    exact absurd hsucc (ne_EFI_SUCCESS_of_error he)
  · simp only [Bool.not_eq_true] at he
    have hgive := hstore.read_gives _ _ _ _ he
    have hkeep := hstore.read_keeps st.dev (rollback_blk_addr index) st.rpmb_buffer st.rpmb_key
    simp only [RPMB_BLOCK_SIZE] at hgive
    by_cases hc : memcmp_u64_eq v (hw.emmc_read_rpmb_data st.dev 1
        (rollback_blk_addr index) st.rpmb_buffer st.rpmb_key).buffer
        (rollback_blk_offset index) = true
    · simp only [he, hc, if_true, Bool.false_eq_true, if_false]
      refine ⟨trivial, ?_, ?_, ?_⟩
      · intro x
        rw [hkeep]
        split
        · rename_i hx
          have hb := (memcmp_u64_eq_iff _ _ _).mp hc
            (x - (rollback_blk_addr index * 256 + rollback_blk_offset index)) (by omega)
          rw [← hb, hgive _ (by omega)]
          congr 1
          omega
        · rfl
      · intro buf2
        exact hstore.read_after_read _ _ _ _ he _ _ he buf2
      · intro a buf ha buf2
        exact hstore.read_after_read _ _ _ _ ha _ _ he buf2
    · simp only [Bool.not_eq_true] at hc
      simp only [he, hc, Bool.false_eq_true, if_false] at hsucc ⊢
      by_cases hwe : EFI_ERROR (hw.emmc_write_rpmb_data
          (hw.emmc_read_rpmb_data st.dev 1 (rollback_blk_addr index) st.rpmb_buffer
            st.rpmb_key).dev 1 (rollback_blk_addr index)
          (memcpy_u64 (hw.emmc_read_rpmb_data st.dev 1 (rollback_blk_addr index) st.rpmb_buffer
            st.rpmb_key).buffer (rollback_blk_offset index) v) st.rpmb_key).status
          = true
      · simp only [hwe, if_true] at hsucc
        exact absurd hsucc (ne_EFI_SUCCESS_of_error hwe)
      · simp only [Bool.not_eq_true] at hwe
        simp only [hwe, Bool.false_eq_true, if_false]
        have hput := hstore.write_puts _ _ _ _ hwe
        simp only [RPMB_BLOCK_SIZE] at hput
        refine ⟨trivial, ?_, ?_, ?_⟩
        · intro x
          rw [hput x]
          by_cases hx : rollback_blk_addr index * 256 + rollback_blk_offset index ≤ x ∧
              x < rollback_blk_addr index * 256 + rollback_blk_offset index + 8
          · rw [if_pos (by omega), if_pos hx]
            have hxe : x - rollback_blk_addr index * 256 = rollback_blk_offset index +
                (x - (rollback_blk_addr index * 256 + rollback_blk_offset index)) := by omega
            rw [hxe, memcpy_u64_at _ _ _ _ (by omega)]
          · rw [if_neg hx]
            split
            · rw [memcpy_u64_off _ _ _ _ (by omega), hgive _ (by omega), ]
              congr 1
              omega
            · rw [hkeep]
        · intro buf2
          exact hstore.read_after_write _ _ _ _ hwe buf2
        · intro a buf ha buf2
          exact hstore.read_across_write _ _ _ _
            (hstore.read_after_read _ _ _ _ ha _ _ he buf) _ _ hwe buf2

theorem read_real_value {D : Type} (hw : Collab D) (mem : D → Nat → Nat)
    (hstore : RealStore hw mem) (index : Nat) (st : State D)
    (hok : EFI_ERROR (hw.emmc_read_rpmb_data st.dev 1 (rollback_blk_addr index) st.rpmb_buffer
      st.rpmb_key).status = false) :
    (read_rpmb_rollback_index_real hw index st).1 = EFI_SUCCESS ∧
    (read_rpmb_rollback_index_real hw index st).2.1 =
      some (u64_load (mem st.dev) (rollback_blk_addr index * 256 + rollback_blk_offset index)) := by
  have hoff := rollback_blk_offset_le index
  have hgive := hstore.read_gives _ _ _ _ hok
  simp only [RPMB_BLOCK_SIZE] at hgive
  simp only [read_rpmb_rollback_index_real, call_read, hok, Bool.false_eq_true, if_false,
    true_and, Option.some.injEq]
  apply u64_load_congr
  intro i hi
  rw [hgive _ (by omega), Nat.add_assoc]

theorem write_simulate_trace {D : Type} (hw : Collab D) (index v : Nat) (st : State D) :
    (write_rpmb_rollback_index_simulate hw index v st).2.trace =
      st.trace ++ [HwCall.simulate_read (rollback_byte_offset index) 8] ++
      (if EFI_ERROR (hw.emmc_simulate_read_rpmb_data st.dev (rollback_byte_offset index)
            st.rpmb_buffer 8).status = false ∧
          memcmp_u64_eq v (hw.emmc_simulate_read_rpmb_data st.dev (rollback_byte_offset index)
            st.rpmb_buffer 8).buffer 0 = false
       then [HwCall.simulate_write (rollback_byte_offset index) 8
          (memcpy_u64 (hw.emmc_simulate_read_rpmb_data st.dev (rollback_byte_offset index)
            st.rpmb_buffer 8).buffer 0 v)]
       else []) := by
  simp only [write_rpmb_rollback_index_simulate, call_simulate_read, call_simulate_write,
    SIZEOF_UINT64]
  by_cases he : EFI_ERROR (hw.emmc_simulate_read_rpmb_data st.dev (rollback_byte_offset index)
      st.rpmb_buffer 8).status = true
  · simp [he]
  · simp only [Bool.not_eq_true] at he
    have hnf := ne_EFI_NOT_FOUND_of_ok he
    by_cases hc : memcmp_u64_eq v (hw.emmc_simulate_read_rpmb_data st.dev
        (rollback_byte_offset index) st.rpmb_buffer 8).buffer 0 = true
    · simp [he, hc, hnf]
    · simp only [Bool.not_eq_true] at hc
      simp only [he, hc, hnf, Bool.false_eq_true, if_false, and_self, if_true]
      split <;> simp

theorem write_simulate_effect {D : Type} (hw : Collab D) (mem : D → Nat → Nat)
    (hstore : SimStore hw mem) (index v : Nat) (st : State D)
    (hsucc : (write_rpmb_rollback_index_simulate hw index v st).1 = EFI_SUCCESS) :
    (∀ x, mem (write_rpmb_rollback_index_simulate hw index v st).2.dev x =
      if rollback_byte_offset index ≤ x ∧ x < rollback_byte_offset index + 8
      then u64_byte v (x - rollback_byte_offset index)
      else mem st.dev x) ∧
    (∀ buf2, EFI_ERROR (hw.emmc_simulate_read_rpmb_data
      (write_rpmb_rollback_index_simulate hw index v st).2.dev (rollback_byte_offset index) buf2
      8).status = false) ∧
    (∀ o buf n, EFI_ERROR (hw.emmc_simulate_read_rpmb_data st.dev o buf n).status = false →
      ∀ buf2, EFI_ERROR (hw.emmc_simulate_read_rpmb_data
        (write_rpmb_rollback_index_simulate hw index v st).2.dev o buf2 n).status = false) := by
  simp only [write_rpmb_rollback_index_simulate, call_simulate_read, call_simulate_write,
    SIZEOF_UINT64] at hsucc ⊢
  by_cases he : EFI_ERROR (hw.emmc_simulate_read_rpmb_data st.dev (rollback_byte_offset index)
      st.rpmb_buffer 8).status = true
  · simp only [he, if_true] at hsucc
    exact absurd hsucc (ne_EFI_SUCCESS_of_error he)
  · simp only [Bool.not_eq_true] at he
    have hnf := ne_EFI_NOT_FOUND_of_ok he
    have hgive := hstore.read_gives _ _ _ _ he
    have hkeep := hstore.read_keeps st.dev (rollback_byte_offset index) st.rpmb_buffer 8
    by_cases hc : memcmp_u64_eq v (hw.emmc_simulate_read_rpmb_data st.dev
        (rollback_byte_offset index) st.rpmb_buffer 8).buffer 0 = true
    · simp only [he, hc, hnf, if_true, Bool.false_eq_true, if_false]
      refine ⟨?_, ?_, ?_⟩
      · intro x
        rw [hkeep]
        split
        · rename_i hx
          have hb := (memcmp_u64_eq_iff _ _ _).mp hc (x - rollback_byte_offset index) (by omega)
          rw [← hb, Nat.zero_add, hgive _ (by omega)]
          congr 1
          omega
        · rfl
      · intro buf2
        exact hstore.read_after_read _ _ _ _ he _ _ _ he buf2
      · intro o buf n ha buf2
        exact hstore.read_after_read _ _ _ _ ha _ _ _ he buf2
    · simp only [Bool.not_eq_true] at hc
      simp only [he, hc, hnf, Bool.false_eq_true, if_false] at hsucc ⊢
      by_cases hwe : EFI_ERROR (hw.emmc_simulate_write_rpmb_data
          (hw.emmc_simulate_read_rpmb_data st.dev (rollback_byte_offset index) st.rpmb_buffer
            8).dev (rollback_byte_offset index)
          (memcpy_u64 (hw.emmc_simulate_read_rpmb_data st.dev (rollback_byte_offset index)
            st.rpmb_buffer 8).buffer 0 v) 8).status = true
      · simp only [hwe, if_true] at hsucc
        exact absurd hsucc (ne_EFI_SUCCESS_of_error hwe)
      · simp only [Bool.not_eq_true] at hwe
        simp only [hwe, Bool.false_eq_true, if_false]
        have hput := hstore.write_puts _ _ _ _ hwe
        refine ⟨?_, ?_, ?_⟩
        · intro x
          rw [hput x]
          by_cases hx : rollback_byte_offset index ≤ x ∧ x < rollback_byte_offset index + 8
          · rw [if_pos hx, if_pos hx]
            have h0 := memcpy_u64_at (hw.emmc_simulate_read_rpmb_data st.dev
              (rollback_byte_offset index) st.rpmb_buffer 8).buffer 0 v
              (x - rollback_byte_offset index) (by omega)
            rw [Nat.zero_add] at h0
            exact h0
          · rw [if_neg hx, if_neg hx, hkeep]
        · intro buf2
          exact hstore.read_after_write _ _ _ _ hwe buf2
        · intro o buf n ha buf2
          exact hstore.read_across_write _ _ _ _
            (hstore.read_after_read _ _ _ _ ha _ _ _ he buf) _ _ _ hwe buf2

theorem read_simulate_value {D : Type} (hw : Collab D) (mem : D → Nat → Nat)
    (hstore : SimStore hw mem) (index : Nat) (st : State D)
    (hok : EFI_ERROR (hw.emmc_simulate_read_rpmb_data st.dev (rollback_byte_offset index)
      st.rpmb_buffer 8).status = false) :
    (read_rpmb_rollback_index_simulate hw index st).1 = EFI_SUCCESS ∧
    (read_rpmb_rollback_index_simulate hw index st).2.1 =
      some (u64_load (mem st.dev) (rollback_byte_offset index)) := by
  have hgive := hstore.read_gives _ _ _ _ hok
  have hnf := ne_EFI_NOT_FOUND_of_ok hok
  simp only [read_rpmb_rollback_index_simulate, call_simulate_read, SIZEOF_UINT64, hok, hnf,
    Bool.false_eq_true, if_false, true_and, Option.some.injEq]
  apply u64_load_congr
  intro i hi
  rw [Nat.zero_add, hgive _ hi]

theorem write_count_append_read (t : List HwCall) (n a : Nat) :
    write_count (t ++ [HwCall.read n a]) = write_count t := by
  simp [write_count, List.countP_append, HwCall.is_write]

theorem write_count_append_simulate_read (t : List HwCall) (o n : Nat) :
    write_count (t ++ [HwCall.simulate_read o n]) = write_count t := by
  simp [write_count, List.countP_append, HwCall.is_write]

theorem write_count_append_write (t : List HwCall) (n a : Nat) (data : Bytes) :
    write_count (t ++ [HwCall.write n a data]) = write_count t + 1 := by
  simp [write_count, List.countP_append, HwCall.is_write]

theorem write_count_append_simulate_write (t : List HwCall) (o n : Nat) (data : Bytes) :
    write_count (t ++ [HwCall.simulate_write o n data]) = write_count t + 1 := by
  simp [write_count, List.countP_append, HwCall.is_write]

theorem write_real_skip {D : Type} (hw : Collab D) (mem : D → Nat → Nat)
    (hstore : RealStore hw mem) (index v : Nat) (st : State D)
    (hok : EFI_ERROR (hw.emmc_read_rpmb_data st.dev 1 (rollback_blk_addr index) st.rpmb_buffer
      st.rpmb_key).status = false)
    (hslot : memcmp_u64_eq v (mem st.dev)
      (rollback_blk_addr index * 256 + rollback_blk_offset index) = true) :
    (write_rpmb_rollback_index_real hw index v st).1 = EFI_SUCCESS ∧
    (write_rpmb_rollback_index_real hw index v st).2.trace =
      st.trace ++ [HwCall.read 1 (rollback_blk_addr index)] ∧
    mem (write_rpmb_rollback_index_real hw index v st).2.dev = mem st.dev := by
  have hoff := rollback_blk_offset_le index
  have hgive := hstore.read_gives _ _ _ _ hok
  simp only [RPMB_BLOCK_SIZE] at hgive
  have hc : memcmp_u64_eq v (hw.emmc_read_rpmb_data st.dev 1 (rollback_blk_addr index)
      st.rpmb_buffer st.rpmb_key).buffer (rollback_blk_offset index) = true := by
    rw [memcmp_u64_eq_iff] at hslot ⊢
    intro i hi
    rw [hgive _ (by omega), ← hslot i hi, Nat.add_assoc]
  have hsucc : (write_rpmb_rollback_index_real hw index v st).1 = EFI_SUCCESS := by
    simp only [write_rpmb_rollback_index_real, call_read, hok, hc, Bool.false_eq_true, if_false,
      if_true]
  refine ⟨hsucc, ?_, ?_⟩
  · rw [write_real_trace, if_neg (by simp [hc])]
    simp
  · funext x
    rw [(write_real_effect hw mem hstore index v st hsucc).2.1 x]
    split
    · rename_i hx
      have hb := (memcmp_u64_eq_iff _ _ _).mp hslot
        (x - (rollback_blk_addr index * 256 + rollback_blk_offset index)) (by omega)
      rw [← hb]
      congr 1
      omega
    · rfl

theorem write_simulate_skip {D : Type} (hw : Collab D) (mem : D → Nat → Nat)
    (hstore : SimStore hw mem) (index v : Nat) (st : State D)
    (hok : EFI_ERROR (hw.emmc_simulate_read_rpmb_data st.dev (rollback_byte_offset index)
      st.rpmb_buffer 8).status = false)
    (hslot : memcmp_u64_eq v (mem st.dev) (rollback_byte_offset index) = true) :
    (write_rpmb_rollback_index_simulate hw index v st).1 = EFI_SUCCESS ∧
    (write_rpmb_rollback_index_simulate hw index v st).2.trace =
      st.trace ++ [HwCall.simulate_read (rollback_byte_offset index) 8] ∧
    mem (write_rpmb_rollback_index_simulate hw index v st).2.dev = mem st.dev := by
  have hgive := hstore.read_gives _ _ _ _ hok
  have hnf := ne_EFI_NOT_FOUND_of_ok hok
  have hc : memcmp_u64_eq v (hw.emmc_simulate_read_rpmb_data st.dev (rollback_byte_offset index)
      st.rpmb_buffer 8).buffer 0 = true := by
    rw [memcmp_u64_eq_iff] at hslot ⊢
    intro i hi
    rw [Nat.zero_add, hgive _ hi, ← hslot i hi]
  have hsucc : (write_rpmb_rollback_index_simulate hw index v st).1 = EFI_SUCCESS := by
    simp only [write_rpmb_rollback_index_simulate, call_simulate_read, SIZEOF_UINT64, hok, hc,
      hnf, Bool.false_eq_true, if_false, if_true]
  refine ⟨hsucc, ?_, ?_⟩
  · rw [write_simulate_trace, if_neg (by simp [hc])]
    simp
  · funext x
    rw [(write_simulate_effect hw mem hstore index v st hsucc).1 x]
    split
    · rename_i hx
      have hb := (memcmp_u64_eq_iff _ _ _).mp hslot (x - rollback_byte_offset index) (by omega)
      rw [← hb]
      congr 1
      omega
    · rfl

theorem write_real_slot {D : Type} (hw : Collab D) (mem : D → Nat → Nat)
    (hstore : RealStore hw mem) (index v : Nat) (st : State D)
    (hsucc : (write_rpmb_rollback_index_real hw index v st).1 = EFI_SUCCESS) :
    memcmp_u64_eq v (mem (write_rpmb_rollback_index_real hw index v st).2.dev)
      (rollback_blk_addr index * 256 + rollback_blk_offset index) = true := by
  rw [memcmp_u64_eq_iff]
  intro i hi
  rw [(write_real_effect hw mem hstore index v st hsucc).2.1, if_pos (by omega),
    Nat.add_sub_cancel_left]

theorem write_simulate_slot {D : Type} (hw : Collab D) (mem : D → Nat → Nat)
    (hstore : SimStore hw mem) (index v : Nat) (st : State D)
    (hsucc : (write_rpmb_rollback_index_simulate hw index v st).1 = EFI_SUCCESS) :
    memcmp_u64_eq v (mem (write_rpmb_rollback_index_simulate hw index v st).2.dev)
      (rollback_byte_offset index) = true := by
  rw [memcmp_u64_eq_iff]
  intro i hi
  rw [(write_simulate_effect hw mem hstore index v st hsucc).1, if_pos (by omega),
    Nat.add_sub_cancel_left]

theorem write_real_read_ok {D : Type} (hw : Collab D) (index v : Nat) (st : State D)
    (hsucc : (write_rpmb_rollback_index_real hw index v st).1 = EFI_SUCCESS) :
    EFI_ERROR (hw.emmc_read_rpmb_data st.dev 1 (rollback_blk_addr index) st.rpmb_buffer
      st.rpmb_key).status = false := by
  by_cases he : EFI_ERROR (hw.emmc_read_rpmb_data st.dev 1 (rollback_blk_addr index)
      st.rpmb_buffer st.rpmb_key).status = true
  · simp only [write_rpmb_rollback_index_real, call_read, he, if_true] at hsucc
    exact absurd hsucc (ne_EFI_SUCCESS_of_error he)
  · simpa using he

theorem write_simulate_read_ok {D : Type} (hw : Collab D) (index v : Nat) (st : State D)
    (hsucc : (write_rpmb_rollback_index_simulate hw index v st).1 = EFI_SUCCESS) :
    EFI_ERROR (hw.emmc_simulate_read_rpmb_data st.dev (rollback_byte_offset index)
      st.rpmb_buffer 8).status = false := by
  by_cases he : EFI_ERROR (hw.emmc_simulate_read_rpmb_data st.dev (rollback_byte_offset index)
      st.rpmb_buffer 8).status = true
  · simp only [write_rpmb_rollback_index_simulate, call_simulate_read, SIZEOF_UINT64, he,
      if_true] at hsucc
    exact absurd hsucc (ne_EFI_SUCCESS_of_error he)
  · simpa using he

theorem real_memcmp_mem {D : Type} (hw : Collab D) (mem : D → Nat → Nat)
    (hstore : RealStore hw mem) (index v : Nat) (st : State D)
    (hok : EFI_ERROR (hw.emmc_read_rpmb_data st.dev 1 (rollback_blk_addr index) st.rpmb_buffer
      st.rpmb_key).status = false) :
    memcmp_u64_eq v (hw.emmc_read_rpmb_data st.dev 1 (rollback_blk_addr index) st.rpmb_buffer
      st.rpmb_key).buffer (rollback_blk_offset index) =
    memcmp_u64_eq v (mem st.dev) (rollback_blk_addr index * 256 + rollback_blk_offset index) := by
  have hoff := rollback_blk_offset_le index
  have hgive := hstore.read_gives _ _ _ _ hok
  simp only [RPMB_BLOCK_SIZE] at hgive
  rw [Bool.eq_iff_iff, memcmp_u64_eq_iff, memcmp_u64_eq_iff]
  constructor
  · intro h i hi
    rw [← h i hi, hgive _ (by omega), Nat.add_assoc]
  · intro h i hi
    rw [← h i hi, hgive _ (by omega), Nat.add_assoc]

theorem simulate_memcmp_mem {D : Type} (hw : Collab D) (mem : D → Nat → Nat)
    (hstore : SimStore hw mem) (index v : Nat) (st : State D)
    (hok : EFI_ERROR (hw.emmc_simulate_read_rpmb_data st.dev (rollback_byte_offset index)
      st.rpmb_buffer 8).status = false) :
    memcmp_u64_eq v (hw.emmc_simulate_read_rpmb_data st.dev (rollback_byte_offset index)
      st.rpmb_buffer 8).buffer 0 =
    memcmp_u64_eq v (mem st.dev) (rollback_byte_offset index) := by
  have hgive := hstore.read_gives _ _ _ _ hok
  rw [Bool.eq_iff_iff, memcmp_u64_eq_iff, memcmp_u64_eq_iff]
  constructor
  · intro h i hi
    rw [← h i hi, Nat.zero_add, hgive _ hi]
  · intro h i hi
    rw [← h i hi, Nat.zero_add, hgive _ hi]

theorem write_real_count {D : Type} (hw : Collab D) (mem : D → Nat → Nat)
    (hstore : RealStore hw mem) (index v : Nat) (st : State D)
    (hsucc : (write_rpmb_rollback_index_real hw index v st).1 = EFI_SUCCESS) :
    write_count (write_rpmb_rollback_index_real hw index v st).2.trace =
      write_count st.trace +
        (if memcmp_u64_eq v (mem st.dev)
            (rollback_blk_addr index * 256 + rollback_blk_offset index) = true
         then 0 else 1) := by
  have hok := write_real_read_ok hw index v st hsucc
  rw [write_real_trace, real_memcmp_mem hw mem hstore index v st hok]
  by_cases hc : memcmp_u64_eq v (mem st.dev)
      (rollback_blk_addr index * 256 + rollback_blk_offset index) = true
  · rw [if_pos hc, if_neg (by simp [hc]), List.append_nil, write_count_append_read,
      Nat.add_zero]
  · rw [if_neg hc, if_pos ⟨hok, by simpa using hc⟩, write_count_append_write,
      write_count_append_read]

theorem write_simulate_count {D : Type} (hw : Collab D) (mem : D → Nat → Nat)
    (hstore : SimStore hw mem) (index v : Nat) (st : State D)
    (hsucc : (write_rpmb_rollback_index_simulate hw index v st).1 = EFI_SUCCESS) :
    write_count (write_rpmb_rollback_index_simulate hw index v st).2.trace =
      write_count st.trace +
        (if memcmp_u64_eq v (mem st.dev) (rollback_byte_offset index) = true then 0 else 1) := by
  have hok := write_simulate_read_ok hw index v st hsucc
  rw [write_simulate_trace, simulate_memcmp_mem hw mem hstore index v st hok]
  by_cases hc : memcmp_u64_eq v (mem st.dev) (rollback_byte_offset index) = true
  · rw [if_pos hc, if_neg (by simp [hc]), List.append_nil, write_count_append_simulate_read,
      Nat.add_zero]
  · rw [if_neg hc, if_pos ⟨hok, by simpa using hc⟩, write_count_append_simulate_write,
      write_count_append_simulate_read]

theorem rollback_blk_addr_eq (index : Nat) (h : index < 2097056) :
    rollback_blk_addr index = 3 + index / 32 := by
  simp only [rollback_blk_addr, RPMB_ROLLBACK_INDEX_BLOCK_ADDR,
    RPMB_ROLLBACK_INDEX_COUNT_PER_BLOCK, RPMB_BLOCK_SIZE]
  omega

theorem rollback_slot_eq (index : Nat) (h : index < 256) :
    rollback_blk_addr index * 256 + rollback_blk_offset index = 768 + 8 * index := by
  rw [rollback_blk_addr_eq index (by omega), rollback_blk_offset_eq]
  omega

theorem rollback_byte_offset_eq (index : Nat) (h : index < 256) :
    rollback_byte_offset index = 768 + 8 * index := by
  simp only [rollback_byte_offset, RPMB_ROLLBACK_INDEX_BLOCK_ADDR, RPMB_BLOCK_SIZE,
    SIZEOF_UINT64]
  omega

/-! ## Device state: what a call does -/

theorem write_state_real_status {D : Type} (hw : Collab D) (s : Nat) (st : State D) :
    (write_rpmb_device_state_real hw s st).1 =
      if EFI_ERROR (hw.emmc_read_rpmb_data st.dev 1 2 st.rpmb_buffer st.rpmb_key).status = true
      then (hw.emmc_read_rpmb_data st.dev 1 2 st.rpmb_buffer st.rpmb_key).status
      else if EFI_ERROR (hw.emmc_write_rpmb_data
          (hw.emmc_read_rpmb_data st.dev 1 2 st.rpmb_buffer st.rpmb_key).dev 1 2
          (poke (poke (hw.emmc_read_rpmb_data st.dev 1 2 st.rpmb_buffer st.rpmb_key).buffer
            0 DEVICE_STATE_MAGIC) 1 (s % 256)) st.rpmb_key).status = true
      then (hw.emmc_write_rpmb_data
          (hw.emmc_read_rpmb_data st.dev 1 2 st.rpmb_buffer st.rpmb_key).dev 1 2
          (poke (poke (hw.emmc_read_rpmb_data st.dev 1 2 st.rpmb_buffer st.rpmb_key).buffer
            0 DEVICE_STATE_MAGIC) 1 (s % 256)) st.rpmb_key).status
      else EFI_SUCCESS := by
  simp only [write_rpmb_device_state_real, call_read, call_write, RPMB_DEVICE_STATE_BLOCK_COUNT,
    RPMB_DEVICE_STATE_BLOCK_ADDR]
  split
  · rfl
  · split <;> rfl

theorem write_state_real_trace {D : Type} (hw : Collab D) (s : Nat) (st : State D) :
    (write_rpmb_device_state_real hw s st).2.trace =
      st.trace ++ [HwCall.read 1 2] ++
      (if EFI_ERROR (hw.emmc_read_rpmb_data st.dev 1 2 st.rpmb_buffer st.rpmb_key).status = true
       then []
       else [HwCall.write 1 2
          (poke (poke (hw.emmc_read_rpmb_data st.dev 1 2 st.rpmb_buffer st.rpmb_key).buffer
            0 DEVICE_STATE_MAGIC) 1 (s % 256))]) := by
  simp only [write_rpmb_device_state_real, call_read, call_write, RPMB_DEVICE_STATE_BLOCK_COUNT,
    RPMB_DEVICE_STATE_BLOCK_ADDR]
  split
  · simp
  · split <;> simp

theorem write_state_real_dev {D : Type} (hw : Collab D) (s : Nat) (st : State D) :
    (write_rpmb_device_state_real hw s st).2.dev =
      if EFI_ERROR (hw.emmc_read_rpmb_data st.dev 1 2 st.rpmb_buffer st.rpmb_key).status = true
      then (hw.emmc_read_rpmb_data st.dev 1 2 st.rpmb_buffer st.rpmb_key).dev
      else (hw.emmc_write_rpmb_data
          (hw.emmc_read_rpmb_data st.dev 1 2 st.rpmb_buffer st.rpmb_key).dev 1 2
          (poke (poke (hw.emmc_read_rpmb_data st.dev 1 2 st.rpmb_buffer st.rpmb_key).buffer
            0 DEVICE_STATE_MAGIC) 1 (s % 256)) st.rpmb_key).dev := by
  simp only [write_rpmb_device_state_real, call_read, call_write, RPMB_DEVICE_STATE_BLOCK_COUNT,
    RPMB_DEVICE_STATE_BLOCK_ADDR]
  split
  · rfl
  · split <;> rfl

theorem write_state_real_key {D : Type} (hw : Collab D) (s : Nat) (st : State D) :
    (write_rpmb_device_state_real hw s st).2.rpmb_key = st.rpmb_key := by
  simp only [write_rpmb_device_state_real, call_read, call_write]
  split
  · rfl
  · split <;> rfl

theorem write_state_simulate_status {D : Type} (hw : Collab D) (s : Nat) (st : State D) :
    (write_rpmb_device_state_simulate hw s st).1 =
      if (hw.emmc_simulate_read_rpmb_data st.dev 512 st.rpmb_buffer 256).status = EFI_NOT_FOUND
      then EFI_SUCCESS
      else if EFI_ERROR (hw.emmc_simulate_read_rpmb_data st.dev 512 st.rpmb_buffer 256).status
        = true
      then (hw.emmc_simulate_read_rpmb_data st.dev 512 st.rpmb_buffer 256).status
      else if EFI_ERROR (hw.emmc_simulate_write_rpmb_data
          (hw.emmc_simulate_read_rpmb_data st.dev 512 st.rpmb_buffer 256).dev 512
          (poke (poke (hw.emmc_simulate_read_rpmb_data st.dev 512 st.rpmb_buffer 256).buffer
            0 DEVICE_STATE_MAGIC) 1 (s % 256)) 256).status = true
      then (hw.emmc_simulate_write_rpmb_data
          (hw.emmc_simulate_read_rpmb_data st.dev 512 st.rpmb_buffer 256).dev 512
          (poke (poke (hw.emmc_simulate_read_rpmb_data st.dev 512 st.rpmb_buffer 256).buffer
            0 DEVICE_STATE_MAGIC) 1 (s % 256)) 256).status
      else EFI_SUCCESS := by
  have h512 : device_state_byte_offset = 512 := by decide
  simp only [write_rpmb_device_state_simulate, call_simulate_read, call_simulate_write, h512,
    RPMB_BLOCK_SIZE]
  split
  · rfl
  · split
    · rfl
    · split <;> rfl

theorem write_state_simulate_trace {D : Type} (hw : Collab D) (s : Nat) (st : State D) :
    (write_rpmb_device_state_simulate hw s st).2.trace =
      st.trace ++ [HwCall.simulate_read 512 256] ++
      (if EFI_ERROR (hw.emmc_simulate_read_rpmb_data st.dev 512 st.rpmb_buffer 256).status = true
       then []
       else [HwCall.simulate_write 512 256
          (poke (poke (hw.emmc_simulate_read_rpmb_data st.dev 512 st.rpmb_buffer 256).buffer
            0 DEVICE_STATE_MAGIC) 1 (s % 256))]) := by
  have h512 : device_state_byte_offset = 512 := by decide
  simp only [write_rpmb_device_state_simulate, call_simulate_read, call_simulate_write, h512,
    RPMB_BLOCK_SIZE]
  by_cases hnf : (hw.emmc_simulate_read_rpmb_data st.dev 512 st.rpmb_buffer 256).status
      = EFI_NOT_FOUND
  · simp [hnf, EFI_ERROR_EFI_NOT_FOUND]
  · simp only [hnf, if_false]
    split
    · simp
    · split <;> simp

theorem write_state_simulate_dev {D : Type} (hw : Collab D) (s : Nat) (st : State D) :
    (write_rpmb_device_state_simulate hw s st).2.dev =
      if EFI_ERROR (hw.emmc_simulate_read_rpmb_data st.dev 512 st.rpmb_buffer 256).status = true
      then (hw.emmc_simulate_read_rpmb_data st.dev 512 st.rpmb_buffer 256).dev
      else (hw.emmc_simulate_write_rpmb_data
          (hw.emmc_simulate_read_rpmb_data st.dev 512 st.rpmb_buffer 256).dev 512
          (poke (poke (hw.emmc_simulate_read_rpmb_data st.dev 512 st.rpmb_buffer 256).buffer
            0 DEVICE_STATE_MAGIC) 1 (s % 256)) 256).dev := by
  have h512 : device_state_byte_offset = 512 := by decide
  simp only [write_rpmb_device_state_simulate, call_simulate_read, call_simulate_write, h512,
    RPMB_BLOCK_SIZE]
  by_cases hnf : (hw.emmc_simulate_read_rpmb_data st.dev 512 st.rpmb_buffer 256).status
      = EFI_NOT_FOUND
  · simp [hnf, EFI_ERROR_EFI_NOT_FOUND]
  · simp only [hnf, if_false]
    split
    · rfl
    · split <;> rfl

theorem write_state_simulate_ok {D : Type} (hw : Collab D) (s : Nat) (st : State D)
    (hsucc : (write_rpmb_device_state_simulate hw s st).1 = EFI_SUCCESS)
    (hnf : (hw.emmc_simulate_read_rpmb_data st.dev 512 st.rpmb_buffer 256).status
      ≠ EFI_NOT_FOUND) :
    EFI_ERROR (hw.emmc_simulate_read_rpmb_data st.dev 512 st.rpmb_buffer 256).status = false ∧
    EFI_ERROR (hw.emmc_simulate_write_rpmb_data
      (hw.emmc_simulate_read_rpmb_data st.dev 512 st.rpmb_buffer 256).dev 512
      (poke (poke (hw.emmc_simulate_read_rpmb_data st.dev 512 st.rpmb_buffer 256).buffer
        0 DEVICE_STATE_MAGIC) 1 (s % 256)) 256).status = false := by
  rw [write_state_simulate_status, if_neg hnf] at hsucc
  by_cases he : EFI_ERROR (hw.emmc_simulate_read_rpmb_data st.dev 512 st.rpmb_buffer 256).status
      = true
  · rw [if_pos he] at hsucc
    exact absurd hsucc (ne_EFI_SUCCESS_of_error he)
  · rw [if_neg he] at hsucc
    refine ⟨by simpa using he, ?_⟩
    by_cases hwe : EFI_ERROR (hw.emmc_simulate_write_rpmb_data
        (hw.emmc_simulate_read_rpmb_data st.dev 512 st.rpmb_buffer 256).dev 512
        (poke (poke (hw.emmc_simulate_read_rpmb_data st.dev 512 st.rpmb_buffer 256).buffer
          0 DEVICE_STATE_MAGIC) 1 (s % 256)) 256).status = true
    · rw [if_pos hwe] at hsucc
      exact absurd hsucc (ne_EFI_SUCCESS_of_error hwe)
    · simpa using hwe

theorem write_state_real_ok {D : Type} (hw : Collab D) (s : Nat) (st : State D)
    (hsucc : (write_rpmb_device_state_real hw s st).1 = EFI_SUCCESS) :
    EFI_ERROR (hw.emmc_read_rpmb_data st.dev 1 2 st.rpmb_buffer st.rpmb_key).status = false ∧
    EFI_ERROR (hw.emmc_write_rpmb_data
      (hw.emmc_read_rpmb_data st.dev 1 2 st.rpmb_buffer st.rpmb_key).dev 1 2
      (poke (poke (hw.emmc_read_rpmb_data st.dev 1 2 st.rpmb_buffer st.rpmb_key).buffer
        0 DEVICE_STATE_MAGIC) 1 (s % 256)) st.rpmb_key).status = false := by
  rw [write_state_real_status] at hsucc
  by_cases he : EFI_ERROR (hw.emmc_read_rpmb_data st.dev 1 2 st.rpmb_buffer st.rpmb_key).status
      = true
  · rw [if_pos he] at hsucc
    exact absurd hsucc (ne_EFI_SUCCESS_of_error he)
  · rw [if_neg he] at hsucc
    refine ⟨by simpa using he, ?_⟩
    by_cases hwe : EFI_ERROR (hw.emmc_write_rpmb_data
        (hw.emmc_read_rpmb_data st.dev 1 2 st.rpmb_buffer st.rpmb_key).dev 1 2
        (poke (poke (hw.emmc_read_rpmb_data st.dev 1 2 st.rpmb_buffer st.rpmb_key).buffer
          0 DEVICE_STATE_MAGIC) 1 (s % 256)) st.rpmb_key).status = true
    · rw [if_pos hwe] at hsucc
      exact absurd hsucc (ne_EFI_SUCCESS_of_error hwe)
    · simpa using hwe

theorem read_state_real_value {D : Type} (hw : Collab D) (mem : D → Nat → Nat)
    (hstore : RealStore hw mem) (st : State D)
    (hok : EFI_ERROR (hw.emmc_read_rpmb_data st.dev 1 2 st.rpmb_buffer st.rpmb_key).status
      = false) :
    (read_rpmb_device_state_real hw st).1 =
      (if mem st.dev 512 = DEVICE_STATE_MAGIC then EFI_SUCCESS else EFI_NOT_FOUND) ∧
    (read_rpmb_device_state_real hw st).2.1 =
      (if mem st.dev 512 = DEVICE_STATE_MAGIC then some (mem st.dev 513) else none) := by
  have hgive := hstore.read_gives _ _ _ _ hok
  have hb0 := hgive 0 (by decide)
  have hb1 := hgive 1 (by decide)
  simp only [RPMB_BLOCK_SIZE] at hb0 hb1
  norm_num at hb0 hb1
  simp only [read_rpmb_device_state_real, call_read, RPMB_DEVICE_STATE_BLOCK_COUNT,
    RPMB_DEVICE_STATE_BLOCK_ADDR, hok, hb0, hb1, Bool.false_eq_true, if_false]
  by_cases hm : mem st.dev 512 = DEVICE_STATE_MAGIC
  · simp [hm]
  · simp [hm]

theorem read_state_simulate_value {D : Type} (hw : Collab D) (mem : D → Nat → Nat)
    (hstore : SimStore hw mem) (st : State D)
    (hok : EFI_ERROR (hw.emmc_simulate_read_rpmb_data st.dev 512 st.rpmb_buffer 256).status
      = false) :
    (read_rpmb_device_state_simulate hw st).1 =
      (if mem st.dev 512 = DEVICE_STATE_MAGIC then EFI_SUCCESS else EFI_NOT_FOUND) ∧
    (read_rpmb_device_state_simulate hw st).2.1 =
      (if mem st.dev 512 = DEVICE_STATE_MAGIC then some (mem st.dev 513) else none) := by
  have hgive := hstore.read_gives _ _ _ _ hok
  have hb0 := hgive 0 (by decide)
  have hb1 := hgive 1 (by decide)
  norm_num at hb0 hb1
  have h512 : device_state_byte_offset = 512 := by decide
  simp only [read_rpmb_device_state_simulate, call_simulate_read, h512, RPMB_BLOCK_SIZE, hok,
    hb0, hb1, Bool.false_eq_true, if_false]
  by_cases hm : mem st.dev 512 = DEVICE_STATE_MAGIC
  · simp [hm]
  · simp [hm]

theorem write_real_status {D : Type} (hw : Collab D) (index v : Nat) (st : State D) :
    (write_rpmb_rollback_index_real hw index v st).1 =
      if EFI_ERROR (hw.emmc_read_rpmb_data st.dev 1 (rollback_blk_addr index) st.rpmb_buffer
          st.rpmb_key).status = true
      then (hw.emmc_read_rpmb_data st.dev 1 (rollback_blk_addr index) st.rpmb_buffer
          st.rpmb_key).status
      else if memcmp_u64_eq v (hw.emmc_read_rpmb_data st.dev 1 (rollback_blk_addr index)
          st.rpmb_buffer st.rpmb_key).buffer (rollback_blk_offset index) = true
      then EFI_SUCCESS
      else if EFI_ERROR (hw.emmc_write_rpmb_data
          (hw.emmc_read_rpmb_data st.dev 1 (rollback_blk_addr index) st.rpmb_buffer
            st.rpmb_key).dev 1 (rollback_blk_addr index)
          (memcpy_u64 (hw.emmc_read_rpmb_data st.dev 1 (rollback_blk_addr index) st.rpmb_buffer
            st.rpmb_key).buffer (rollback_blk_offset index) v) st.rpmb_key).status = true
      then (hw.emmc_write_rpmb_data
          (hw.emmc_read_rpmb_data st.dev 1 (rollback_blk_addr index) st.rpmb_buffer
            st.rpmb_key).dev 1 (rollback_blk_addr index)
          (memcpy_u64 (hw.emmc_read_rpmb_data st.dev 1 (rollback_blk_addr index) st.rpmb_buffer
            st.rpmb_key).buffer (rollback_blk_offset index) v) st.rpmb_key).status
      else EFI_SUCCESS := by
  simp only [write_rpmb_rollback_index_real, call_read, call_write]
  split
  · rfl
  · split
    · rfl
    · split <;> rfl

theorem write_real_dev_of_read_error {D : Type} (hw : Collab D) (index v : Nat) (st : State D)
    (he : EFI_ERROR (hw.emmc_read_rpmb_data st.dev 1 (rollback_blk_addr index) st.rpmb_buffer
      st.rpmb_key).status = true) :
    (write_rpmb_rollback_index_real hw index v st).2.dev =
      (hw.emmc_read_rpmb_data st.dev 1 (rollback_blk_addr index) st.rpmb_buffer
        st.rpmb_key).dev := by
  simp only [write_rpmb_rollback_index_real, call_read, he, if_true]

theorem write_simulate_status {D : Type} (hw : Collab D) (index v : Nat) (st : State D) :
    (write_rpmb_rollback_index_simulate hw index v st).1 =
      if EFI_ERROR (hw.emmc_simulate_read_rpmb_data st.dev (rollback_byte_offset index)
          st.rpmb_buffer 8).status = true
      then (hw.emmc_simulate_read_rpmb_data st.dev (rollback_byte_offset index)
          st.rpmb_buffer 8).status
      else if memcmp_u64_eq v (hw.emmc_simulate_read_rpmb_data st.dev
          (rollback_byte_offset index) st.rpmb_buffer 8).buffer 0 = true
      then EFI_SUCCESS
      else if EFI_ERROR (hw.emmc_simulate_write_rpmb_data
          (hw.emmc_simulate_read_rpmb_data st.dev (rollback_byte_offset index) st.rpmb_buffer
            8).dev (rollback_byte_offset index)
          (memcpy_u64 (hw.emmc_simulate_read_rpmb_data st.dev (rollback_byte_offset index)
            st.rpmb_buffer 8).buffer 0 v) 8).status = true
      then (hw.emmc_simulate_write_rpmb_data
          (hw.emmc_simulate_read_rpmb_data st.dev (rollback_byte_offset index) st.rpmb_buffer
            8).dev (rollback_byte_offset index)
          (memcpy_u64 (hw.emmc_simulate_read_rpmb_data st.dev (rollback_byte_offset index)
            st.rpmb_buffer 8).buffer 0 v) 8).status
      else EFI_SUCCESS := by
  simp only [write_rpmb_rollback_index_simulate, call_simulate_read, call_simulate_write,
    SIZEOF_UINT64]
  by_cases he : EFI_ERROR (hw.emmc_simulate_read_rpmb_data st.dev (rollback_byte_offset index)
      st.rpmb_buffer 8).status = true
  · simp only [he, if_true]
  · have hnf := ne_EFI_NOT_FOUND_of_ok (by simpa using he)
    by_cases hc : memcmp_u64_eq v (hw.emmc_simulate_read_rpmb_data st.dev
        (rollback_byte_offset index) st.rpmb_buffer 8).buffer 0 = true
    · simp [he, hnf, hc]
    · by_cases hwe : EFI_ERROR (hw.emmc_simulate_write_rpmb_data
          (hw.emmc_simulate_read_rpmb_data st.dev (rollback_byte_offset index) st.rpmb_buffer
            8).dev (rollback_byte_offset index)
          (memcpy_u64 (hw.emmc_simulate_read_rpmb_data st.dev (rollback_byte_offset index)
            st.rpmb_buffer 8).buffer 0 v) 8).status = true
      · simp [he, hnf, hc, hwe]
      · simp [he, hnf, hc, hwe]

theorem read_real_dev {D : Type} (hw : Collab D) (index : Nat) (st : State D) :
    (read_rpmb_rollback_index_real hw index st).2.2.dev =
      (hw.emmc_read_rpmb_data st.dev 1 (rollback_blk_addr index) st.rpmb_buffer
        st.rpmb_key).dev := by
  simp only [read_rpmb_rollback_index_real, call_read]
  split <;> rfl

theorem read_simulate_dev {D : Type} (hw : Collab D) (index : Nat) (st : State D) :
    (read_rpmb_rollback_index_simulate hw index st).2.2.dev =
      (hw.emmc_simulate_read_rpmb_data st.dev (rollback_byte_offset index) st.rpmb_buffer
        8).dev := by
  simp only [read_rpmb_rollback_index_simulate, call_simulate_read, SIZEOF_UINT64]
  split
  · rfl
  · split <;> rfl

theorem write_state_real_effect {D : Type} (hw : Collab D) (mem : D → Nat → Nat)
    (hstore : RealStore hw mem) (s : Nat) (st : State D)
    (hsucc : (write_rpmb_device_state_real hw s st).1 = EFI_SUCCESS) :
    (∀ x, x < 512 ∨ 768 ≤ x →
      mem (write_rpmb_device_state_real hw s st).2.dev x = mem st.dev x) ∧
    (∀ a buf, EFI_ERROR (hw.emmc_read_rpmb_data st.dev 1 a buf st.rpmb_key).status = false →
      ∀ buf2, EFI_ERROR (hw.emmc_read_rpmb_data (write_rpmb_device_state_real hw s st).2.dev
        1 a buf2 st.rpmb_key).status = false) := by
  obtain ⟨hr, hwr⟩ := write_state_real_ok hw s st hsucc
  have hdev := write_state_real_dev hw s st
  rw [if_neg (by simp [hr])] at hdev
  rw [hdev]
  constructor
  · intro x hx
    rw [hstore.write_puts _ _ _ _ hwr x, if_neg (by simp only [RPMB_BLOCK_SIZE]; omega),
      hstore.read_keeps]
  · intro a buf ha buf2
    exact hstore.read_across_write _ _ _ _ (hstore.read_after_read _ _ _ _ ha _ _ hr buf) _ _
      hwr buf2

theorem write_state_simulate_effect {D : Type} (hw : Collab D) (mem : D → Nat → Nat)
    (hstore : SimStore hw mem) (s : Nat) (st : State D)
    (hsucc : (write_rpmb_device_state_simulate hw s st).1 = EFI_SUCCESS) :
    (∀ x, x < 512 ∨ 768 ≤ x →
      mem (write_rpmb_device_state_simulate hw s st).2.dev x = mem st.dev x) ∧
    (EFI_ERROR (hw.emmc_simulate_read_rpmb_data st.dev 512 st.rpmb_buffer 256).status = false →
      ∀ o buf n, EFI_ERROR (hw.emmc_simulate_read_rpmb_data st.dev o buf n).status = false →
        ∀ buf2, EFI_ERROR (hw.emmc_simulate_read_rpmb_data
          (write_rpmb_device_state_simulate hw s st).2.dev o buf2 n).status = false) := by
  have hdev := write_state_simulate_dev hw s st
  by_cases he : EFI_ERROR (hw.emmc_simulate_read_rpmb_data st.dev 512 st.rpmb_buffer 256).status
      = true
  · rw [if_pos he] at hdev
    rw [hdev]
    constructor
    · intro x _
      rw [hstore.read_keeps]
    · intro hok
      rw [hok] at he
      exact absurd he (by decide)
  · have hr : EFI_ERROR (hw.emmc_simulate_read_rpmb_data st.dev 512 st.rpmb_buffer 256).status
        = false := by simpa using he
    obtain ⟨_, hwr⟩ := write_state_simulate_ok hw s st hsucc (ne_EFI_NOT_FOUND_of_ok hr)
    rw [if_neg he] at hdev
    rw [hdev]
    constructor
    · intro x hx
      rw [hstore.write_puts _ _ _ _ hwr x, if_neg (by omega), hstore.read_keeps]
    · intro _ o buf n ha buf2
      exact hstore.read_across_write _ _ _ _ (hstore.read_after_read _ _ _ _ ha _ _ _ hr buf)
        _ _ _ hwr buf2

/-! ## Device state -/

/-- C1. Real backend, device-state round trip: for every state byte `s` and every
prior state of the module and the device, when the collaborator behaves as a
store and the read and the write of block 2 issued by
`write_rpmb_device_state_real` do not fail, the call returns `EFI_SUCCESS` and
the `read_rpmb_device_state_real` that follows returns `EFI_SUCCESS` and
stores `s` through its output pointer, whatever the scratch buffer and the trace
hold when it is called: the state comes back from the store. -/
theorem device_state_round_trip_real {D : Type} (hw : Collab D) (mem : D → Nat → Nat)
    (hstore : RealStore hw mem) (st : State D) (s : Nat) (hs : s < 256)
    (hread : EFI_ERROR (hw.emmc_read_rpmb_data st.dev 1 2 st.rpmb_buffer st.rpmb_key).status
      = false)
    (hwrite : EFI_ERROR (hw.emmc_write_rpmb_data
      (hw.emmc_read_rpmb_data st.dev 1 2 st.rpmb_buffer st.rpmb_key).dev 1 2
      (poke (poke (hw.emmc_read_rpmb_data st.dev 1 2 st.rpmb_buffer st.rpmb_key).buffer
        0 DEVICE_STATE_MAGIC) 1 s) st.rpmb_key).status = false) :
    (write_rpmb_device_state_real hw s st).1 = EFI_SUCCESS ∧
    ∀ (buf : Bytes) (tr : List HwCall),
      (read_rpmb_device_state_real hw
        { (write_rpmb_device_state_real hw s st).2 with rpmb_buffer := buf, trace := tr }).1
        = EFI_SUCCESS ∧
      (read_rpmb_device_state_real hw
        { (write_rpmb_device_state_real hw s st).2 with rpmb_buffer := buf, trace := tr }).2.1
        = some s := by
  have hmod : s % 256 = s := Nat.mod_eq_of_lt hs
  have hwrite2 := hwrite
  rw [← hmod] at hwrite2
  have hsucc : (write_rpmb_device_state_real hw s st).1 = EFI_SUCCESS := by
    rw [write_state_real_status, if_neg (by simp [hread]), if_neg (by simp [hwrite2])]
  refine ⟨hsucc, ?_⟩
  intro buf tr
  have hdev := write_state_real_dev hw s st
  rw [if_neg (by simp [hread])] at hdev
  have hkey := write_state_real_key hw s st
  have hok := hstore.read_after_write _ _ _ _ hwrite2 buf
  have hput := hstore.write_puts _ _ _ _ hwrite2
  rw [← hdev] at hok hput
  rw [← hkey] at hok
  have hval := read_state_real_value hw mem hstore
    { (write_rpmb_device_state_real hw s st).2 with rpmb_buffer := buf, trace := tr } hok
  have h0 : mem (write_rpmb_device_state_real hw s st).2.dev 512 = DEVICE_STATE_MAGIC := by
    rw [hput]
    simp [poke, RPMB_BLOCK_SIZE]
  have h1 : mem (write_rpmb_device_state_real hw s st).2.dev 513 = s := by
    rw [hput]
    simp [poke, hmod, RPMB_BLOCK_SIZE]
  rw [hval.1, hval.2]
  simp only [h0, h1, if_true, and_self]

/-- Witness of C1 on the zero-filled reference store, writing state 5 and reading
it back with the scratch buffer overwritten by `0xFF` bytes. -/
theorem device_state_round_trip_real_witness :
    (RealStore flatHw FlatDev.mem ∧ (5 : Nat) < 256) ∧
    (write_rpmb_device_state_real flatHw 5 (State.init zeroDev)).1 = EFI_SUCCESS ∧
    (read_rpmb_device_state_real flatHw
      { (write_rpmb_device_state_real flatHw 5 (State.init zeroDev)).2 with
        rpmb_buffer := fun _ => 0xFF, trace := [] }).1 = EFI_SUCCESS ∧
    (read_rpmb_device_state_real flatHw
      { (write_rpmb_device_state_real flatHw 5 (State.init zeroDev)).2 with
        rpmb_buffer := fun _ => 0xFF, trace := [] }).2.1 = some 5 :=
  ⟨⟨flatHw_realStore, by decide⟩,
    (device_state_round_trip_real flatHw FlatDev.mem flatHw_realStore (State.init zeroDev) 5
      (by decide) (by decide) (by decide)).1,
    (device_state_round_trip_real flatHw FlatDev.mem flatHw_realStore (State.init zeroDev) 5
      (by decide) (by decide) (by decide)).2 (fun _ => 0xFF) []⟩

/-- C3. Decoding in `read_rpmb_device_state`: on either backend, whenever the
underlying read of block 2 does not fail, the result is `EFI_NOT_FOUND` exactly
when byte 0 of the block read differs from `DEVICE_STATE_MAGIC` (0xDC), and
nothing is then stored through the output pointer; otherwise the result is
`EFI_SUCCESS` and the state stored is byte 1 of the block. -/
theorem read_device_state_decoding {D : Type} (hw : Collab D) (st : State D) :
    (EFI_ERROR (hw.emmc_read_rpmb_data st.dev 1 2 st.rpmb_buffer st.rpmb_key).status = false →
      ((read_rpmb_device_state_real hw st).1 = EFI_NOT_FOUND ↔
        (hw.emmc_read_rpmb_data st.dev 1 2 st.rpmb_buffer st.rpmb_key).buffer 0
          ≠ DEVICE_STATE_MAGIC) ∧
      ((hw.emmc_read_rpmb_data st.dev 1 2 st.rpmb_buffer st.rpmb_key).buffer 0
          ≠ DEVICE_STATE_MAGIC → (read_rpmb_device_state_real hw st).2.1 = none) ∧
      ((hw.emmc_read_rpmb_data st.dev 1 2 st.rpmb_buffer st.rpmb_key).buffer 0
          = DEVICE_STATE_MAGIC →
        (read_rpmb_device_state_real hw st).1 = EFI_SUCCESS ∧
        (read_rpmb_device_state_real hw st).2.1 =
          some ((hw.emmc_read_rpmb_data st.dev 1 2 st.rpmb_buffer st.rpmb_key).buffer 1))) ∧
    (EFI_ERROR (hw.emmc_simulate_read_rpmb_data st.dev 512 st.rpmb_buffer 256).status = false →
      ((read_rpmb_device_state_simulate hw st).1 = EFI_NOT_FOUND ↔
        (hw.emmc_simulate_read_rpmb_data st.dev 512 st.rpmb_buffer 256).buffer 0
          ≠ DEVICE_STATE_MAGIC) ∧
      ((hw.emmc_simulate_read_rpmb_data st.dev 512 st.rpmb_buffer 256).buffer 0
          ≠ DEVICE_STATE_MAGIC → (read_rpmb_device_state_simulate hw st).2.1 = none) ∧
      ((hw.emmc_simulate_read_rpmb_data st.dev 512 st.rpmb_buffer 256).buffer 0
          = DEVICE_STATE_MAGIC →
        (read_rpmb_device_state_simulate hw st).1 = EFI_SUCCESS ∧
        (read_rpmb_device_state_simulate hw st).2.1 =
          some ((hw.emmc_simulate_read_rpmb_data st.dev 512 st.rpmb_buffer 256).buffer 1))) := by
  constructor
  · intro hok
    simp only [read_rpmb_device_state_real, call_read, RPMB_DEVICE_STATE_BLOCK_COUNT,
      RPMB_DEVICE_STATE_BLOCK_ADDR, hok, Bool.false_eq_true, if_false]
    by_cases hm : (hw.emmc_read_rpmb_data st.dev 1 2 st.rpmb_buffer st.rpmb_key).buffer 0
        = DEVICE_STATE_MAGIC
    · simp [hm, EFI_NOT_FOUND_ne_EFI_SUCCESS.symm]
    · simp [hm]
  · intro hok
    have h512 : device_state_byte_offset = 512 := by decide
    simp only [read_rpmb_device_state_simulate, call_simulate_read, h512, RPMB_BLOCK_SIZE, hok,
      Bool.false_eq_true, if_false]
    by_cases hm : (hw.emmc_simulate_read_rpmb_data st.dev 512 st.rpmb_buffer 256).buffer 0
        = DEVICE_STATE_MAGIC
    · simp [hm, EFI_NOT_FOUND_ne_EFI_SUCCESS.symm]
    · simp [hm]

/-- Witness of C3: on the zero-filled store byte 0 of block 2 is not the marker
and both backends answer `EFI_NOT_FOUND` without a state; on the store filled
with `0xDC` they answer `EFI_SUCCESS` with state `0xDC`. -/
theorem read_device_state_decoding_witness :
    (EFI_ERROR (flatHw.emmc_read_rpmb_data zeroDev 1 2 (fun _ => 0) rpmb_key_init).status = false ∧
      EFI_ERROR (flatHw.emmc_simulate_read_rpmb_data filledDev 512 (fun _ => 0) 256).status
        = false) ∧
    (read_rpmb_device_state_real flatHw (State.init zeroDev)).1 = EFI_NOT_FOUND ∧
    (read_rpmb_device_state_real flatHw (State.init zeroDev)).2.1 = none ∧
    (read_rpmb_device_state_simulate flatHw (State.init filledDev)).1 = EFI_SUCCESS ∧
    (read_rpmb_device_state_simulate flatHw (State.init filledDev)).2.1 = some 0xDC :=
  ⟨⟨by decide, by decide⟩,
    ((read_device_state_decoding flatHw (State.init zeroDev)).1 (by decide)).1.mpr (by decide),
    ((read_device_state_decoding flatHw (State.init zeroDev)).1 (by decide)).2.1 (by decide),
    (((read_device_state_decoding flatHw (State.init filledDev)).2 (by decide)).2.2
      (by decide)).1,
    (((read_device_state_decoding flatHw (State.init filledDev)).2 (by decide)).2.2
      (by decide)).2⟩

/-! ## Rollback indices -/

/-- C2. Rollback-index round trip, with no monotonicity check: on either backend,
over a collaborator that behaves as a store, for every index, every prior state
(so every previously stored value, larger or smaller) and every 64-bit value
`v`, if `write_rpmb_rollback_index(index, v)` returns `EFI_SUCCESS` then the
`read_rpmb_rollback_index(index)` that follows returns `EFI_SUCCESS` and
stores `v` through its output pointer, whatever the scratch buffer and the trace
hold when it is called: the value comes back from the store. -/
theorem rollback_index_round_trip {D : Type} (hw : Collab D) (mem : D → Nat → Nat)
    (index v : Nat) (hv : v < 2 ^ 64) (st : State D) :
    (RealStore hw mem →
      (write_rpmb_rollback_index_real hw index v st).1 = EFI_SUCCESS →
      ∀ (buf : Bytes) (tr : List HwCall),
        (read_rpmb_rollback_index_real hw index
          { (write_rpmb_rollback_index_real hw index v st).2 with
            rpmb_buffer := buf, trace := tr }).1 = EFI_SUCCESS ∧
        (read_rpmb_rollback_index_real hw index
          { (write_rpmb_rollback_index_real hw index v st).2 with
            rpmb_buffer := buf, trace := tr }).2.1 = some v) ∧
    (SimStore hw mem →
      (write_rpmb_rollback_index_simulate hw index v st).1 = EFI_SUCCESS →
      ∀ (buf : Bytes) (tr : List HwCall),
        (read_rpmb_rollback_index_simulate hw index
          { (write_rpmb_rollback_index_simulate hw index v st).2 with
            rpmb_buffer := buf, trace := tr }).1 = EFI_SUCCESS ∧
        (read_rpmb_rollback_index_simulate hw index
          { (write_rpmb_rollback_index_simulate hw index v st).2 with
            rpmb_buffer := buf, trace := tr }).2.1 = some v) := by
  constructor
  · intro hstore hsucc buf tr
    obtain ⟨hkey, _, hok, _⟩ := write_real_effect hw mem hstore index v st hsucc
    have hslot := write_real_slot hw mem hstore index v st hsucc
    have hokb := hok buf
    rw [← hkey] at hokb
    have hrd := read_real_value hw mem hstore index
      { (write_rpmb_rollback_index_real hw index v st).2 with rpmb_buffer := buf, trace := tr }
      hokb
    refine ⟨hrd.1, ?_⟩
    rw [hrd.2]
    exact congrArg some
      (u64_load_eq_of_bytes v hv _ _ ((memcmp_u64_eq_iff _ _ _).mp hslot))
  · intro hstore hsucc buf tr
    obtain ⟨_, hok, _⟩ := write_simulate_effect hw mem hstore index v st hsucc
    have hslot := write_simulate_slot hw mem hstore index v st hsucc
    have hrd := read_simulate_value hw mem hstore index
      { (write_rpmb_rollback_index_simulate hw index v st).2 with
        rpmb_buffer := buf, trace := tr } (hok buf)
    refine ⟨hrd.1, ?_⟩
    rw [hrd.2]
    exact congrArg some
      (u64_load_eq_of_bytes v hv _ _ ((memcmp_u64_eq_iff _ _ _).mp hslot))

/-- Witness of C2: slot 5 of the reference store holds 42, and 7 is written over
it, a smaller value; both backends report success and read 7 back with the
scratch buffer overwritten by `0xFF` bytes. -/
theorem rollback_index_round_trip_witness :
    (7 < 2 ^ 64 ∧ RealStore flatHw FlatDev.mem ∧ SimStore flatHw FlatDev.mem) ∧
    (write_rpmb_rollback_index_real flatHw 5 42 (State.init zeroDev)).1 = EFI_SUCCESS ∧
    (write_rpmb_rollback_index_real flatHw 5 7
      (write_rpmb_rollback_index_real flatHw 5 42 (State.init zeroDev)).2).1 = EFI_SUCCESS ∧
    (write_rpmb_rollback_index_simulate flatHw 5 7
      (write_rpmb_rollback_index_real flatHw 5 42 (State.init zeroDev)).2).1 = EFI_SUCCESS ∧
    (read_rpmb_rollback_index_real flatHw 5
      { (write_rpmb_rollback_index_real flatHw 5 7
          (write_rpmb_rollback_index_real flatHw 5 42 (State.init zeroDev)).2).2 with
        rpmb_buffer := fun _ => 0xFF, trace := [] }).2.1 = some 7 ∧
    (read_rpmb_rollback_index_simulate flatHw 5
      { (write_rpmb_rollback_index_simulate flatHw 5 7
          (write_rpmb_rollback_index_real flatHw 5 42 (State.init zeroDev)).2).2 with
        rpmb_buffer := fun _ => 0xFF, trace := [] }).2.1 = some 7 :=
  ⟨⟨by decide, flatHw_realStore, flatHw_simStore⟩, by decide, by decide, by decide,
    ((rollback_index_round_trip flatHw FlatDev.mem 5 7 (by decide)
      (write_rpmb_rollback_index_real flatHw 5 42 (State.init zeroDev)).2).1
        flatHw_realStore (by decide) (fun _ => 0xFF) []).2,
    ((rollback_index_round_trip flatHw FlatDev.mem 5 7 (by decide)
      (write_rpmb_rollback_index_real flatHw 5 42 (State.init zeroDev)).2).2
        flatHw_simStore (by decide) (fun _ => 0xFF) []).2⟩

/-- C4. Write-skip: on either backend, over a collaborator that behaves as a
store, when the underlying read does not fail and the 8 bytes stored at the slot
of `index` are those of `v`, `write_rpmb_rollback_index(index, v)` returns
`EFI_SUCCESS`, its only collaborator call is that read (no write is issued) and
the byte image of the store is unchanged.  In particular, after a successful
`write_rpmb_rollback_index(index, v)` a second call with the same arguments
succeeds, issues no write and leaves the store unchanged. -/
theorem write_skip {D : Type} (hw : Collab D) (mem : D → Nat → Nat) (index v : Nat)
    (st : State D) :
    (RealStore hw mem →
      EFI_ERROR (hw.emmc_read_rpmb_data st.dev 1 (rollback_blk_addr index) st.rpmb_buffer
        st.rpmb_key).status = false →
      (∀ i, i < 8 → mem st.dev (rollback_blk_addr index * 256 + rollback_blk_offset index + i)
        = u64_byte v i) →
      (write_rpmb_rollback_index_real hw index v st).1 = EFI_SUCCESS ∧
      (write_rpmb_rollback_index_real hw index v st).2.trace =
        st.trace ++ [HwCall.read 1 (rollback_blk_addr index)] ∧
      write_count (write_rpmb_rollback_index_real hw index v st).2.trace = write_count st.trace ∧
      mem (write_rpmb_rollback_index_real hw index v st).2.dev = mem st.dev) ∧
    (SimStore hw mem →
      EFI_ERROR (hw.emmc_simulate_read_rpmb_data st.dev (rollback_byte_offset index)
        st.rpmb_buffer 8).status = false →
      (∀ i, i < 8 → mem st.dev (rollback_byte_offset index + i) = u64_byte v i) →
      (write_rpmb_rollback_index_simulate hw index v st).1 = EFI_SUCCESS ∧
      (write_rpmb_rollback_index_simulate hw index v st).2.trace =
        st.trace ++ [HwCall.simulate_read (rollback_byte_offset index) 8] ∧
      write_count (write_rpmb_rollback_index_simulate hw index v st).2.trace
        = write_count st.trace ∧
      mem (write_rpmb_rollback_index_simulate hw index v st).2.dev = mem st.dev) ∧
    (RealStore hw mem →
      (write_rpmb_rollback_index_real hw index v st).1 = EFI_SUCCESS →
      (write_rpmb_rollback_index_real hw index v
        (write_rpmb_rollback_index_real hw index v st).2).1 = EFI_SUCCESS ∧
      write_count (write_rpmb_rollback_index_real hw index v
        (write_rpmb_rollback_index_real hw index v st).2).2.trace =
        write_count (write_rpmb_rollback_index_real hw index v st).2.trace ∧
      mem (write_rpmb_rollback_index_real hw index v
        (write_rpmb_rollback_index_real hw index v st).2).2.dev =
        mem (write_rpmb_rollback_index_real hw index v st).2.dev) ∧
    (SimStore hw mem →
      (write_rpmb_rollback_index_simulate hw index v st).1 = EFI_SUCCESS →
      (write_rpmb_rollback_index_simulate hw index v
        (write_rpmb_rollback_index_simulate hw index v st).2).1 = EFI_SUCCESS ∧
      write_count (write_rpmb_rollback_index_simulate hw index v
        (write_rpmb_rollback_index_simulate hw index v st).2).2.trace =
        write_count (write_rpmb_rollback_index_simulate hw index v st).2.trace ∧
      mem (write_rpmb_rollback_index_simulate hw index v
        (write_rpmb_rollback_index_simulate hw index v st).2).2.dev =
        mem (write_rpmb_rollback_index_simulate hw index v st).2.dev) := by
  refine ⟨?_, ?_, ?_, ?_⟩
  · intro hstore hok hslot
    obtain ⟨h1, h2, h3⟩ := write_real_skip hw mem hstore index v st hok
      ((memcmp_u64_eq_iff _ _ _).mpr hslot)
    exact ⟨h1, h2, by rw [h2, write_count_append_read], h3⟩
  · intro hstore hok hslot
    obtain ⟨h1, h2, h3⟩ := write_simulate_skip hw mem hstore index v st hok
      ((memcmp_u64_eq_iff _ _ _).mpr hslot)
    exact ⟨h1, h2, by rw [h2, write_count_append_simulate_read], h3⟩
  · intro hstore hsucc
    obtain ⟨hkey, _, hok, _⟩ := write_real_effect hw mem hstore index v st hsucc
    obtain ⟨h1, h2, h3⟩ := write_real_skip hw mem hstore index v
      (write_rpmb_rollback_index_real hw index v st).2 (by rw [hkey]; exact hok _)
      (write_real_slot hw mem hstore index v st hsucc)
    exact ⟨h1, by rw [h2, write_count_append_read], h3⟩
  · intro hstore hsucc
    obtain ⟨_, hok, _⟩ := write_simulate_effect hw mem hstore index v st hsucc
    obtain ⟨h1, h2, h3⟩ := write_simulate_skip hw mem hstore index v
      (write_rpmb_rollback_index_simulate hw index v st).2 (hok _)
      (write_simulate_slot hw mem hstore index v st hsucc)
    exact ⟨h1, by rw [h2, write_count_append_simulate_read], h3⟩

/-- Witness of C4: writing 0 to slot 5 of the zero-filled reference store is
skipped on both backends, and after 42 was written to slot 5 a second write of
42 issues no further write. -/
theorem write_skip_witness :
    (RealStore flatHw FlatDev.mem ∧ SimStore flatHw FlatDev.mem ∧
      (∀ i, i < 8 → zeroDev.mem (rollback_blk_addr 5 * 256 + rollback_blk_offset 5 + i)
        = u64_byte 0 i) ∧
      (write_rpmb_rollback_index_simulate flatHw 5 42 (State.init zeroDev)).1 = EFI_SUCCESS) ∧
    write_count (write_rpmb_rollback_index_real flatHw 5 0 (State.init zeroDev)).2.trace = 0 ∧
    write_count (write_rpmb_rollback_index_simulate flatHw 5 42 (State.init zeroDev)).2.trace
      = 1 ∧
    write_count (write_rpmb_rollback_index_simulate flatHw 5 42
      (write_rpmb_rollback_index_simulate flatHw 5 42 (State.init zeroDev)).2).2.trace = 1 :=
  ⟨⟨flatHw_realStore, flatHw_simStore, fun i _ => by simp [zeroDev, u64_byte], by decide⟩,
    ((write_skip flatHw FlatDev.mem 5 0 (State.init zeroDev)).1 flatHw_realStore (by decide)
      (fun i _ => by simp [State.init, zeroDev, u64_byte])).2.2.1,
    by decide,
    (((write_skip flatHw FlatDev.mem 5 42 (State.init zeroDev)).2.2.2 flatHw_simStore
      (by decide)).2.1).trans (by decide)⟩

/-- C5, counterexample.  Slot 0 of the zero-filled reference store already holds
0: two calls `write_rpmb_rollback_index(0, 0)` in a row both succeed, on either
backend, and issue no write at all, not one. -/
theorem write_twice_count_counterexample :
    (write_rpmb_rollback_index_real flatHw 0 0 (State.init zeroDev)).1 = EFI_SUCCESS ∧
    (write_rpmb_rollback_index_real flatHw 0 0
      (write_rpmb_rollback_index_real flatHw 0 0 (State.init zeroDev)).2).1 = EFI_SUCCESS ∧
    write_count (write_rpmb_rollback_index_real flatHw 0 0
      (write_rpmb_rollback_index_real flatHw 0 0 (State.init zeroDev)).2).2.trace = 0 ∧
    (write_rpmb_rollback_index_simulate flatHw 0 0 (State.init zeroDev)).1 = EFI_SUCCESS ∧
    (write_rpmb_rollback_index_simulate flatHw 0 0
      (write_rpmb_rollback_index_simulate flatHw 0 0 (State.init zeroDev)).2).1 = EFI_SUCCESS ∧
    write_count (write_rpmb_rollback_index_simulate flatHw 0 0
      (write_rpmb_rollback_index_simulate flatHw 0 0 (State.init zeroDev)).2).2.trace ≠ 1 := by
  decide

/-- C5, amended.  On either backend, over a collaborator that behaves as a
store, when `write_rpmb_rollback_index(index, v)` succeeds and is called a
second time with the same arguments, the second call succeeds too and the two
calls together issue exactly one write when the slot did not hold the bytes of
`v` before the first call, and no write when it did. -/
theorem write_twice_count {D : Type} (hw : Collab D) (mem : D → Nat → Nat) (index v : Nat)
    (st : State D) :
    (RealStore hw mem →
      (write_rpmb_rollback_index_real hw index v st).1 = EFI_SUCCESS →
      (write_rpmb_rollback_index_real hw index v
        (write_rpmb_rollback_index_real hw index v st).2).1 = EFI_SUCCESS ∧
      write_count (write_rpmb_rollback_index_real hw index v
        (write_rpmb_rollback_index_real hw index v st).2).2.trace =
        write_count st.trace +
          (if memcmp_u64_eq v (mem st.dev)
              (rollback_blk_addr index * 256 + rollback_blk_offset index) = true
           then 0 else 1)) ∧
    (SimStore hw mem →
      (write_rpmb_rollback_index_simulate hw index v st).1 = EFI_SUCCESS →
      (write_rpmb_rollback_index_simulate hw index v
        (write_rpmb_rollback_index_simulate hw index v st).2).1 = EFI_SUCCESS ∧
      write_count (write_rpmb_rollback_index_simulate hw index v
        (write_rpmb_rollback_index_simulate hw index v st).2).2.trace =
        write_count st.trace +
          (if memcmp_u64_eq v (mem st.dev) (rollback_byte_offset index) = true
           then 0 else 1)) := by
  constructor
  · intro hstore hsucc
    obtain ⟨hkey, _, hok, _⟩ := write_real_effect hw mem hstore index v st hsucc
    obtain ⟨h1, h2, _⟩ := write_real_skip hw mem hstore index v
      (write_rpmb_rollback_index_real hw index v st).2 (by rw [hkey]; exact hok _)
      (write_real_slot hw mem hstore index v st hsucc)
    exact ⟨h1, by rw [h2, write_count_append_read, write_real_count hw mem hstore index v st hsucc]⟩
  · intro hstore hsucc
    obtain ⟨_, hok, _⟩ := write_simulate_effect hw mem hstore index v st hsucc
    obtain ⟨h1, h2, _⟩ := write_simulate_skip hw mem hstore index v
      (write_rpmb_rollback_index_simulate hw index v st).2 (hok _)
      (write_simulate_slot hw mem hstore index v st hsucc)
    exact ⟨h1, by rw [h2, write_count_append_simulate_read,
      write_simulate_count hw mem hstore index v st hsucc]⟩

/-- Witness of C5 as amended: on the zero-filled reference store, writing 42 to
slot 5 twice issues one write in total, on either backend. -/
theorem write_twice_count_witness :
    (RealStore flatHw FlatDev.mem ∧ SimStore flatHw FlatDev.mem ∧
      (write_rpmb_rollback_index_real flatHw 5 42 (State.init zeroDev)).1 = EFI_SUCCESS ∧
      (write_rpmb_rollback_index_simulate flatHw 5 42 (State.init zeroDev)).1 = EFI_SUCCESS) ∧
    write_count (write_rpmb_rollback_index_real flatHw 5 42
      (write_rpmb_rollback_index_real flatHw 5 42 (State.init zeroDev)).2).2.trace = 1 ∧
    write_count (write_rpmb_rollback_index_simulate flatHw 5 42
      (write_rpmb_rollback_index_simulate flatHw 5 42 (State.init zeroDev)).2).2.trace = 1 :=
  ⟨⟨flatHw_realStore, flatHw_simStore, by decide, by decide⟩,
    (((write_twice_count flatHw FlatDev.mem 5 42 (State.init zeroDev)).1 flatHw_realStore
      (by decide)).2).trans (by decide),
    (((write_twice_count flatHw FlatDev.mem 5 42 (State.init zeroDev)).2 flatHw_simStore
      (by decide)).2).trans (by decide)⟩

/-- C6. Slots do not alias: for distinct indices `i` and `j` below 256 the
(block, byte offset) pairs of the real backend differ and the 8-byte ranges of
the simulated backend are disjoint (31 and 32 lie in different blocks; 0 and 32
have different pairs).  Hence, on either backend over a collaborator that
behaves as a store, if `read_rpmb_rollback_index(j)` could read its slot before
a successful `write_rpmb_rollback_index(i, v)`, it returns the same status and
the same value after it, also when `j` lies in the block of `i`. -/
theorem rollback_slots_do_not_alias {D : Type} (hw : Collab D) (mem : D → Nat → Nat)
    (i j v : Nat) (hi : i < 256) (hj : j < 256) (hij : i ≠ j) (st : State D) :
    (rollback_blk_addr i, rollback_blk_offset i) ≠ (rollback_blk_addr j, rollback_blk_offset j) ∧
    (rollback_byte_offset i + 8 ≤ rollback_byte_offset j ∨
      rollback_byte_offset j + 8 ≤ rollback_byte_offset i) ∧
    rollback_blk_addr 31 ≠ rollback_blk_addr 32 ∧
    (rollback_blk_addr 0, rollback_blk_offset 0) ≠ (rollback_blk_addr 32, rollback_blk_offset 32) ∧
    rollback_byte_offset 0 ≠ rollback_byte_offset 32 ∧
    (RealStore hw mem →
      EFI_ERROR (hw.emmc_read_rpmb_data st.dev 1 (rollback_blk_addr j) st.rpmb_buffer
        st.rpmb_key).status = false →
      (write_rpmb_rollback_index_real hw i v st).1 = EFI_SUCCESS →
      (read_rpmb_rollback_index_real hw j (write_rpmb_rollback_index_real hw i v st).2).1 =
        (read_rpmb_rollback_index_real hw j st).1 ∧
      (read_rpmb_rollback_index_real hw j (write_rpmb_rollback_index_real hw i v st).2).2.1 =
        (read_rpmb_rollback_index_real hw j st).2.1) ∧
    (SimStore hw mem →
      EFI_ERROR (hw.emmc_simulate_read_rpmb_data st.dev (rollback_byte_offset j) st.rpmb_buffer
        8).status = false →
      (write_rpmb_rollback_index_simulate hw i v st).1 = EFI_SUCCESS →
      (read_rpmb_rollback_index_simulate hw j
        (write_rpmb_rollback_index_simulate hw i v st).2).1 =
        (read_rpmb_rollback_index_simulate hw j st).1 ∧
      (read_rpmb_rollback_index_simulate hw j
        (write_rpmb_rollback_index_simulate hw i v st).2).2.1 =
        (read_rpmb_rollback_index_simulate hw j st).2.1) := by
  have hsi := rollback_slot_eq i hi
  have hsj := rollback_slot_eq j hj
  have hbi := rollback_byte_offset_eq i hi
  have hbj := rollback_byte_offset_eq j hj
  have hoi := rollback_blk_offset_le i
  have hoj := rollback_blk_offset_le j
  refine ⟨?_, ?_, by decide, by decide, by decide, ?_, ?_⟩
  · intro h
    rw [Prod.mk.injEq] at h
    rw [h.1, h.2] at hsi
    omega
  · omega
  · intro hstore hokj hsucc
    obtain ⟨hkey, hmem, _, hav⟩ := write_real_effect hw mem hstore i v st hsucc
    have hbefore := read_real_value hw mem hstore j st hokj
    have hafter := read_real_value hw mem hstore j (write_rpmb_rollback_index_real hw i v st).2
      (by rw [hkey]; exact hav _ _ hokj _)
    rw [hafter.1, hafter.2, hbefore.1, hbefore.2]
    refine ⟨rfl, congrArg some ?_⟩
    apply u64_load_congr
    intro k hk
    rw [hmem, if_neg (by omega)]
  · intro hstore hokj hsucc
    obtain ⟨hmem, _, hav⟩ := write_simulate_effect hw mem hstore i v st hsucc
    have hbefore := read_simulate_value hw mem hstore j st hokj
    have hafter := read_simulate_value hw mem hstore j
      (write_rpmb_rollback_index_simulate hw i v st).2 (hav _ _ _ hokj _)
    rw [hafter.1, hafter.2, hbefore.1, hbefore.2]
    refine ⟨rfl, congrArg some ?_⟩
    apply u64_load_congr
    intro k hk
    rw [hmem, if_neg (by omega)]

/-- Witness of C6: slots 5 and 6 share block 3.  With 42 stored in slot 6 of the
reference store, writing 7 to slot 5 leaves the value read from slot 6 at 42, on
either backend. -/
theorem rollback_slots_do_not_alias_witness :
    ((5 : Nat) < 256 ∧ (6 : Nat) < 256 ∧ (5 : Nat) ≠ 6 ∧
      RealStore flatHw FlatDev.mem ∧ SimStore flatHw FlatDev.mem ∧
      rollback_blk_addr 5 = rollback_blk_addr 6 ∧
      (write_rpmb_rollback_index_real flatHw 5 7
        (write_rpmb_rollback_index_real flatHw 6 42 (State.init zeroDev)).2).1 = EFI_SUCCESS) ∧
    (read_rpmb_rollback_index_real flatHw 6
      (write_rpmb_rollback_index_real flatHw 5 7
        (write_rpmb_rollback_index_real flatHw 6 42 (State.init zeroDev)).2).2).2.1 = some 42 ∧
    (read_rpmb_rollback_index_simulate flatHw 6
      (write_rpmb_rollback_index_simulate flatHw 5 7
        (write_rpmb_rollback_index_real flatHw 6 42 (State.init zeroDev)).2).2).2.1 = some 42 :=
  ⟨⟨by decide, by decide, by decide, flatHw_realStore, flatHw_simStore, by decide, by decide⟩,
    (((rollback_slots_do_not_alias flatHw FlatDev.mem 5 6 7 (by decide) (by decide) (by decide)
      (write_rpmb_rollback_index_real flatHw 6 42 (State.init zeroDev)).2).2.2.2.2.2.1
        flatHw_realStore (by decide) (by decide)).2).trans (by decide),
    (((rollback_slots_do_not_alias flatHw FlatDev.mem 5 6 7 (by decide) (by decide) (by decide)
      (write_rpmb_rollback_index_real flatHw 6 42 (State.init zeroDev)).2).2.2.2.2.2.2
        flatHw_simStore (by decide) (by decide)).2).trans (by decide)⟩

/-- C7, counterexample.  `blk_addr` is a `UINT16`: for the index 2097152, which
is at least 256, `3 + index / 32` is 65539, yet the write and the read of the
real backend address block 3, inside the reserved span 3..10, and the value
written is then read back as rollback index 0. -/
theorem rollback_address_counterexample :
    256 ≤ 2097152 ∧ 3 + 2097152 / 32 = 65539 ∧
    (write_rpmb_rollback_index_real flatHw 2097152 1 (State.init zeroDev)).2.trace.filterMap
      HwCall.block = [3, 3] ∧
    (read_rpmb_rollback_index_real flatHw 2097152 (State.init zeroDev)).2.2.trace.filterMap
      HwCall.block = [3] ∧
    (read_rpmb_rollback_index_real flatHw 0
      (write_rpmb_rollback_index_real flatHw 2097152 1 (State.init zeroDev)).2).2.1 = some 1 := by
  decide

/-- C7, amended.  For every index, `write_rpmb_rollback_index_real` and
`read_rpmb_rollback_index_real` read the block numbered `(3 + index / 32) mod
2^16`, compare, copy and extract the 8 bytes at byte offset `(index mod 32) * 8`
of it, and a write goes to that same block.  The block number is `3 + index / 32`
itself for every index below 2097056, so every index from 256 up to 2097055
addresses a block beyond the reserved span 3..10. -/
theorem rollback_address_real {D : Type} (hw : Collab D) (index v : Nat) (st : State D) :
    (write_rpmb_rollback_index_real hw index v st).2.trace =
      st.trace ++ [HwCall.read 1 ((3 + index / 32) % 65536)] ++
      (if EFI_ERROR (hw.emmc_read_rpmb_data st.dev 1 ((3 + index / 32) % 65536)
            st.rpmb_buffer st.rpmb_key).status = false ∧
          memcmp_u64_eq v (hw.emmc_read_rpmb_data st.dev 1 ((3 + index / 32) % 65536)
            st.rpmb_buffer st.rpmb_key).buffer (index % 32 * 8) = false
       then [HwCall.write 1 ((3 + index / 32) % 65536)
          (memcpy_u64 (hw.emmc_read_rpmb_data st.dev 1 ((3 + index / 32) % 65536)
            st.rpmb_buffer st.rpmb_key).buffer (index % 32 * 8) v)]
       else []) ∧
    (read_rpmb_rollback_index_real hw index st).2.2.trace =
      st.trace ++ [HwCall.read 1 ((3 + index / 32) % 65536)] ∧
    (EFI_ERROR (hw.emmc_read_rpmb_data st.dev 1 ((3 + index / 32) % 65536)
        st.rpmb_buffer st.rpmb_key).status = false →
      (read_rpmb_rollback_index_real hw index st).2.1 =
        some (u64_load (hw.emmc_read_rpmb_data st.dev 1 ((3 + index / 32) % 65536)
          st.rpmb_buffer st.rpmb_key).buffer (index % 32 * 8))) ∧
    (index < 2097056 → (3 + index / 32) % 65536 = 3 + index / 32) ∧
    (256 ≤ index → index < 2097056 → 10 < (3 + index / 32) % 65536) := by
  have hb : rollback_blk_addr index = (3 + index / 32) % 65536 := by
    simp only [rollback_blk_addr, RPMB_ROLLBACK_INDEX_BLOCK_ADDR,
      RPMB_ROLLBACK_INDEX_COUNT_PER_BLOCK, RPMB_BLOCK_SIZE]
    norm_num
  have ho := rollback_blk_offset_eq index
  refine ⟨?_, ?_, ?_, ?_, ?_⟩
  · rw [write_real_trace, hb, ho]
  · simp only [read_rpmb_rollback_index_real, call_read, hb]
    split <;> rfl
  · intro hok
    simp only [read_rpmb_rollback_index_real, call_read, hb, ho, hok, Bool.false_eq_true,
      if_false]
  · intro h
    omega
  · intro h1 h2
    omega

/-- Witness of C7 as amended: index 300 on the reference store lands in block
12, beyond the reserved span. -/
theorem rollback_address_real_witness :
    (EFI_ERROR (flatHw.emmc_read_rpmb_data zeroDev 1 ((3 + 300 / 32) % 65536) (fun _ => 0)
        rpmb_key_init).status = false ∧ 300 < 2097056 ∧ 256 ≤ 300) ∧
    (read_rpmb_rollback_index_real flatHw 300 (State.init zeroDev)).2.1 = some 0 ∧
    (3 + 300 / 32) % 65536 = 12 ∧
    10 < (3 + 300 / 32) % 65536 :=
  ⟨⟨by decide, by decide, by decide⟩,
    ((rollback_address_real flatHw 300 0 (State.init zeroDev)).2.2.1 (by decide)).trans
      (by decide),
    ((rollback_address_real flatHw 300 0 (State.init zeroDev)).2.2.2.1 (by decide)).trans
      (by decide),
    (rollback_address_real flatHw 300 0 (State.init zeroDev)).2.2.2.2 (by decide) (by decide)⟩

/-- C8. Layout bounds: for every index below 256 the block address of the real
backend lies in 3..10 (the 8 blocks from `RPMB_ROLLBACK_INDEX_BLOCK_ADDR`), the
byte offset is a multiple of 8 with offset + 8 at most 256, so the 8-byte copy
changes no byte outside the 256-byte scratch block, and the byte offset of the
simulated backend lies in [768, 2816) with offset + 8 at most 2816. -/
theorem rollback_layout_bounds (index : Nat) (h : index < 256) :
    3 ≤ rollback_blk_addr index ∧ rollback_blk_addr index ≤ 10 ∧
    rollback_blk_addr index <
      RPMB_ROLLBACK_INDEX_BLOCK_ADDR + RPMB_ROLLBACK_INDEX_BLOCK_TOTAL_COUNT ∧
    rollback_blk_offset index % 8 = 0 ∧
    rollback_blk_offset index + SIZEOF_UINT64 ≤ RPMB_BLOCK_SIZE ∧
    (∀ (buf : Bytes) (v j : Nat), RPMB_BLOCK_SIZE ≤ j →
      memcpy_u64 buf (rollback_blk_offset index) v j = buf j) ∧
    768 ≤ rollback_byte_offset index ∧ rollback_byte_offset index < 2816 ∧
    rollback_byte_offset index + SIZEOF_UINT64 ≤ 2816 := by
  have ha := rollback_blk_addr_eq index (by omega)
  have ho := rollback_blk_offset_eq index
  have hb := rollback_byte_offset_eq index h
  simp only [RPMB_ROLLBACK_INDEX_BLOCK_ADDR, RPMB_ROLLBACK_INDEX_BLOCK_TOTAL_COUNT,
    SIZEOF_UINT64, RPMB_BLOCK_SIZE]
  refine ⟨by omega, by omega, by omega, by omega, by omega, ?_, by omega, by omega, by omega⟩
  intro buf v j hj
  exact memcpy_u64_off buf _ v j (Or.inr (by omega))

/-- Witness of C8 at the last slot, index 255: block 10, offset 248, byte offset
2808. -/
theorem rollback_layout_bounds_witness :
    (255 : Nat) < 256 ∧ rollback_blk_addr 255 = 10 ∧ rollback_blk_offset 255 = 248 ∧
    rollback_byte_offset 255 = 2808 ∧
    rollback_blk_addr 255 ≤ 10 ∧ rollback_byte_offset 255 + SIZEOF_UINT64 ≤ 2816 :=
  ⟨by decide, by decide, by decide, by decide,
    (rollback_layout_bounds 255 (by decide)).2.1,
    (rollback_layout_bounds 255 (by decide)).2.2.2.2.2.2.2.2⟩

/-! ## The simulated store before it is provisioned -/

/-- C9, as the code behaves.  When the simulated read reports `EFI_NOT_FOUND`,
`write_rpmb_rollback_index_simulate` returns `EFI_NOT_FOUND`, an error status,
not `EFI_SUCCESS`: the test of `EFI_ERROR` at line 334 returns before the test
for `EFI_NOT_FOUND` at line 340 is reached. -/
theorem write_simulate_not_found {D : Type} (hw : Collab D) (index v : Nat) (st : State D)
    (h : (hw.emmc_simulate_read_rpmb_data st.dev (rollback_byte_offset index) st.rpmb_buffer
      8).status = EFI_NOT_FOUND) :
    (write_rpmb_rollback_index_simulate hw index v st).1 = EFI_NOT_FOUND ∧
    EFI_ERROR (write_rpmb_rollback_index_simulate hw index v st).1 = true ∧
    (write_rpmb_rollback_index_simulate hw index v st).1 ≠ EFI_SUCCESS := by
  have h1 : (write_rpmb_rollback_index_simulate hw index v st).1 = EFI_NOT_FOUND := by
    simp only [write_rpmb_rollback_index_simulate, call_simulate_read, SIZEOF_UINT64, h,
      EFI_ERROR_EFI_NOT_FOUND, if_true]
  rw [h1]
  exact ⟨rfl, EFI_ERROR_EFI_NOT_FOUND, EFI_NOT_FOUND_ne_EFI_SUCCESS⟩

/-- C9 evaluated on the never-provisioned reference store: writing 42 to slot 5
returns `EFI_NOT_FOUND`, whereas the two sibling paths that test for
`EFI_NOT_FOUND` first, `write_rpmb_device_state_simulate` and
`read_rpmb_rollback_index_simulate`, return `EFI_SUCCESS` on the same store. -/
theorem write_simulate_not_found_witness :
    (flatHw.emmc_simulate_read_rpmb_data freshDev (rollback_byte_offset 5) (fun _ => 0)
      8).status = EFI_NOT_FOUND ∧
    (write_rpmb_rollback_index_simulate flatHw 5 42 (State.init freshDev)).1 = EFI_NOT_FOUND ∧
    (write_rpmb_rollback_index_simulate flatHw 5 42 (State.init freshDev)).1 ≠ EFI_SUCCESS ∧
    (write_rpmb_device_state_simulate flatHw 1 (State.init freshDev)).1 = EFI_SUCCESS ∧
    (read_rpmb_rollback_index_simulate flatHw 5 (State.init freshDev)).1 = EFI_SUCCESS :=
  ⟨by decide,
    (write_simulate_not_found flatHw 5 42 (State.init freshDev) (by decide)).1,
    (write_simulate_not_found flatHw 5 42 (State.init freshDev) (by decide)).2.2,
    by decide, by decide⟩

/-- C10. First read on a fresh simulated store: when the simulated read reports
`EFI_NOT_FOUND`, `read_rpmb_rollback_index_simulate` returns `EFI_SUCCESS` with
value 0, for every index, and `read_rpmb_device_state_simulate` returns
`EFI_NOT_FOUND` without storing a state. -/
theorem first_read_fresh_simulate {D : Type} (hw : Collab D) (index : Nat) (st : State D) :
    ((hw.emmc_simulate_read_rpmb_data st.dev (rollback_byte_offset index) st.rpmb_buffer
        8).status = EFI_NOT_FOUND →
      (read_rpmb_rollback_index_simulate hw index st).1 = EFI_SUCCESS ∧
      (read_rpmb_rollback_index_simulate hw index st).2.1 = some 0) ∧
    ((hw.emmc_simulate_read_rpmb_data st.dev 512 st.rpmb_buffer 256).status = EFI_NOT_FOUND →
      (read_rpmb_device_state_simulate hw st).1 = EFI_NOT_FOUND ∧
      (read_rpmb_device_state_simulate hw st).2.1 = none) := by
  constructor
  · intro h
    simp only [read_rpmb_rollback_index_simulate, call_simulate_read, SIZEOF_UINT64, h, if_true,
      and_self]
  · intro h
    have h512 : device_state_byte_offset = 512 := by decide
    simp only [read_rpmb_device_state_simulate, call_simulate_read, h512, RPMB_BLOCK_SIZE, h,
      EFI_ERROR_EFI_NOT_FOUND, if_true, and_self]

/-- Witness of C10 on the never-provisioned reference store, at index 200. -/
theorem first_read_fresh_simulate_witness :
    ((flatHw.emmc_simulate_read_rpmb_data freshDev (rollback_byte_offset 200) (fun _ => 0)
        8).status = EFI_NOT_FOUND ∧
      (flatHw.emmc_simulate_read_rpmb_data freshDev 512 (fun _ => 0) 256).status
        = EFI_NOT_FOUND) ∧
    (read_rpmb_rollback_index_simulate flatHw 200 (State.init freshDev)).2.1 = some 0 ∧
    (read_rpmb_device_state_simulate flatHw (State.init freshDev)).1 = EFI_NOT_FOUND :=
  ⟨⟨by decide, by decide⟩,
    ((first_read_fresh_simulate flatHw 200 (State.init freshDev)).1 (by decide)).2,
    ((first_read_fresh_simulate flatHw 200 (State.init freshDev)).2 (by decide)).1⟩

/-! ## Device state on the simulated backend, and what a write issues -/

/-- C11, counterexample.  On the never-provisioned reference store the simulated
`write_rpmb_device_state(5)` returns `EFI_SUCCESS`, and the
`read_rpmb_device_state` that follows returns `EFI_NOT_FOUND` and stores no
state. -/
theorem device_state_round_trip_simulate_counterexample :
    (write_rpmb_device_state_simulate flatHw 5 (State.init freshDev)).1 = EFI_SUCCESS ∧
    (read_rpmb_device_state_simulate flatHw
      (write_rpmb_device_state_simulate flatHw 5 (State.init freshDev)).2).1 = EFI_NOT_FOUND ∧
    (read_rpmb_device_state_simulate flatHw
      (write_rpmb_device_state_simulate flatHw 5 (State.init freshDev)).2).1 ≠ EFI_SUCCESS ∧
    (read_rpmb_device_state_simulate flatHw
      (write_rpmb_device_state_simulate flatHw 5 (State.init freshDev)).2).2.1 = none := by
  decide

/-- C11, amended.  Simulated backend, device-state round trip, over a
collaborator that behaves as a store and for every state byte `s`.  In every
condition of the store whose read of block 2 does not report `EFI_NOT_FOUND`,
if `write_rpmb_device_state_simulate` returns `EFI_SUCCESS` then the
`read_rpmb_device_state_simulate` that follows returns `EFI_SUCCESS` and
stores `s`, whatever the scratch buffer and the trace hold when it is called.
When the read reports `EFI_NOT_FOUND`, `write_rpmb_device_state_simulate`
returns `EFI_SUCCESS` without writing anything: its only collaborator call is
the read and the byte image is unchanged. -/
theorem device_state_round_trip_simulate {D : Type} (hw : Collab D) (mem : D → Nat → Nat)
    (hstore : SimStore hw mem) (st : State D) (s : Nat) (hs : s < 256) :
    ((hw.emmc_simulate_read_rpmb_data st.dev 512 st.rpmb_buffer 256).status ≠ EFI_NOT_FOUND →
      (write_rpmb_device_state_simulate hw s st).1 = EFI_SUCCESS →
      ∀ (buf : Bytes) (tr : List HwCall),
        (read_rpmb_device_state_simulate hw
          { (write_rpmb_device_state_simulate hw s st).2 with
            rpmb_buffer := buf, trace := tr }).1 = EFI_SUCCESS ∧
        (read_rpmb_device_state_simulate hw
          { (write_rpmb_device_state_simulate hw s st).2 with
            rpmb_buffer := buf, trace := tr }).2.1 = some s) ∧
    ((hw.emmc_simulate_read_rpmb_data st.dev 512 st.rpmb_buffer 256).status = EFI_NOT_FOUND →
      (write_rpmb_device_state_simulate hw s st).1 = EFI_SUCCESS ∧
      (write_rpmb_device_state_simulate hw s st).2.trace =
        st.trace ++ [HwCall.simulate_read 512 256] ∧
      write_count (write_rpmb_device_state_simulate hw s st).2.trace = write_count st.trace ∧
      mem (write_rpmb_device_state_simulate hw s st).2.dev = mem st.dev) := by
  have hmod : s % 256 = s := Nat.mod_eq_of_lt hs
  constructor
  · intro hnf hsucc buf tr
    obtain ⟨hr, hwr⟩ := write_state_simulate_ok hw s st hsucc hnf
    have hdev := write_state_simulate_dev hw s st
    rw [if_neg (by simp [hr])] at hdev
    have hok := hstore.read_after_write _ _ _ _ hwr buf
    have hput := hstore.write_puts _ _ _ _ hwr
    rw [← hdev] at hok hput
    have hval := read_state_simulate_value hw mem hstore
      { (write_rpmb_device_state_simulate hw s st).2 with rpmb_buffer := buf, trace := tr } hok
    have h0 : mem (write_rpmb_device_state_simulate hw s st).2.dev 512 = DEVICE_STATE_MAGIC := by
      rw [hput]
      simp [poke]
    have h1 : mem (write_rpmb_device_state_simulate hw s st).2.dev 513 = s := by
      rw [hput]
      simp [poke, hmod]
    rw [hval.1, hval.2]
    simp only [h0, h1, if_true, and_self]
  · intro hnf
    have he : EFI_ERROR (hw.emmc_simulate_read_rpmb_data st.dev 512 st.rpmb_buffer 256).status
        = true := by
      rw [hnf]
      exact EFI_ERROR_EFI_NOT_FOUND
    have ht : (write_rpmb_device_state_simulate hw s st).2.trace =
        st.trace ++ [HwCall.simulate_read 512 256] := by
      rw [write_state_simulate_trace, if_pos he, List.append_nil]
    refine ⟨by rw [write_state_simulate_status, if_pos hnf], ht,
      by rw [ht, write_count_append_simulate_read], ?_⟩
    rw [write_state_simulate_dev, if_pos he]
    exact hstore.read_keeps _ _ _ _

/-- Witness of C11 as amended: on the zero-filled reference store state 5 is
read back with the scratch buffer overwritten by `0xFF` bytes; on the
never-provisioned store the write succeeds and issues no write. -/
theorem device_state_round_trip_simulate_witness :
    (SimStore flatHw FlatDev.mem ∧ (5 : Nat) < 256 ∧
      (flatHw.emmc_simulate_read_rpmb_data zeroDev 512 (fun _ => 0) 256).status ≠ EFI_NOT_FOUND ∧
      (write_rpmb_device_state_simulate flatHw 5 (State.init zeroDev)).1 = EFI_SUCCESS ∧
      (flatHw.emmc_simulate_read_rpmb_data freshDev 512 (fun _ => 0) 256).status
        = EFI_NOT_FOUND) ∧
    (read_rpmb_device_state_simulate flatHw
      { (write_rpmb_device_state_simulate flatHw 5 (State.init zeroDev)).2 with
        rpmb_buffer := fun _ => 0xFF, trace := [] }).1 = EFI_SUCCESS ∧
    (read_rpmb_device_state_simulate flatHw
      { (write_rpmb_device_state_simulate flatHw 5 (State.init zeroDev)).2 with
        rpmb_buffer := fun _ => 0xFF, trace := [] }).2.1 = some 5 ∧
    (write_rpmb_device_state_simulate flatHw 5 (State.init freshDev)).1 = EFI_SUCCESS ∧
    write_count (write_rpmb_device_state_simulate flatHw 5 (State.init freshDev)).2.trace = 0 :=
  ⟨⟨flatHw_simStore, by decide, by decide, by decide, by decide⟩,
    ((device_state_round_trip_simulate flatHw FlatDev.mem flatHw_simStore (State.init zeroDev) 5
      (by decide)).1 (by decide) (by decide) (fun _ => 0xFF) []).1,
    ((device_state_round_trip_simulate flatHw FlatDev.mem flatHw_simStore (State.init zeroDev) 5
      (by decide)).1 (by decide) (by decide) (fun _ => 0xFF) []).2,
    ((device_state_round_trip_simulate flatHw FlatDev.mem flatHw_simStore (State.init freshDev) 5
      (by decide)).2 (by decide)).1,
    ((device_state_round_trip_simulate flatHw FlatDev.mem flatHw_simStore (State.init freshDev) 5
      (by decide)).2 (by decide)).2.2.1⟩

/-- C12, counterexample.  On the never-provisioned reference store the simulated
`write_rpmb_device_state(5)` returns `EFI_SUCCESS` after a single collaborator
call, the read: it has issued no write, not one. -/
theorem device_state_write_count_counterexample :
    (write_rpmb_device_state_simulate flatHw 5 (State.init freshDev)).1 = EFI_SUCCESS ∧
    write_count (write_rpmb_device_state_simulate flatHw 5 (State.init freshDev)).2.trace = 0 ∧
    write_count (write_rpmb_device_state_simulate flatHw 5 (State.init freshDev)).2.trace ≠ 1 ∧
    (write_rpmb_device_state_simulate flatHw 5 (State.init freshDev)).2.trace.length = 1 := by
  decide

/-- C12, amended.  No write-skip for device state: every call of
`write_rpmb_device_state` that returns `EFI_SUCCESS` has issued exactly one
underlying write, of block 2, whatever the block held before, on the real
backend and, when the read did not report `EFI_NOT_FOUND`, on the simulated
backend; a simulated call whose read reports `EFI_NOT_FOUND` returns
`EFI_SUCCESS` and issues no write. -/
theorem device_state_write_count {D : Type} (hw : Collab D) (s : Nat) (st : State D) :
    ((write_rpmb_device_state_real hw s st).1 = EFI_SUCCESS →
      write_count (write_rpmb_device_state_real hw s st).2.trace = write_count st.trace + 1 ∧
      (write_rpmb_device_state_real hw s st).2.trace.filterMap HwCall.block =
        st.trace.filterMap HwCall.block ++ [2, 2]) ∧
    ((write_rpmb_device_state_simulate hw s st).1 = EFI_SUCCESS →
      (hw.emmc_simulate_read_rpmb_data st.dev 512 st.rpmb_buffer 256).status ≠ EFI_NOT_FOUND →
      write_count (write_rpmb_device_state_simulate hw s st).2.trace = write_count st.trace + 1 ∧
      (write_rpmb_device_state_simulate hw s st).2.trace.filterMap HwCall.byte_offset =
        st.trace.filterMap HwCall.byte_offset ++ [512, 512]) ∧
    ((hw.emmc_simulate_read_rpmb_data st.dev 512 st.rpmb_buffer 256).status = EFI_NOT_FOUND →
      (write_rpmb_device_state_simulate hw s st).1 = EFI_SUCCESS ∧
      write_count (write_rpmb_device_state_simulate hw s st).2.trace = write_count st.trace) := by
  refine ⟨?_, ?_, ?_⟩
  · intro hsucc
    obtain ⟨hr, _⟩ := write_state_real_ok hw s st hsucc
    rw [write_state_real_trace, if_neg (by simp [hr]), write_count_append_write,
      write_count_append_read]
    simp [HwCall.block]
  · intro hsucc hnf
    obtain ⟨hr, _⟩ := write_state_simulate_ok hw s st hsucc hnf
    rw [write_state_simulate_trace, if_neg (by simp [hr]), write_count_append_simulate_write,
      write_count_append_simulate_read]
    simp [HwCall.byte_offset]
  · intro hnf
    rw [write_state_simulate_status, if_pos hnf, write_state_simulate_trace,
      if_pos (by rw [hnf]; exact EFI_ERROR_EFI_NOT_FOUND), List.append_nil,
      write_count_append_simulate_read]
    exact ⟨rfl, rfl⟩

/-- Witness of C12 as amended: on the reference store, writing state 5 twice
issues two writes on either backend, the second although block 2 already holds
the marker and 5; on the never-provisioned store the simulated call issues
none. -/
theorem device_state_write_count_witness :
    ((write_rpmb_device_state_real flatHw 5
        (write_rpmb_device_state_real flatHw 5 (State.init zeroDev)).2).1 = EFI_SUCCESS ∧
      (write_rpmb_device_state_simulate flatHw 5
        (write_rpmb_device_state_simulate flatHw 5 (State.init zeroDev)).2).1 = EFI_SUCCESS ∧
      (flatHw.emmc_simulate_read_rpmb_data
        (write_rpmb_device_state_simulate flatHw 5 (State.init zeroDev)).2.dev 512
        (write_rpmb_device_state_simulate flatHw 5 (State.init zeroDev)).2.rpmb_buffer
        256).status ≠ EFI_NOT_FOUND ∧
      (flatHw.emmc_simulate_read_rpmb_data freshDev 512 (fun _ => 0) 256).status
        = EFI_NOT_FOUND) ∧
    write_count (write_rpmb_device_state_real flatHw 5
      (write_rpmb_device_state_real flatHw 5 (State.init zeroDev)).2).2.trace = 2 ∧
    write_count (write_rpmb_device_state_simulate flatHw 5
      (write_rpmb_device_state_simulate flatHw 5 (State.init zeroDev)).2).2.trace = 2 ∧
    (write_rpmb_device_state_simulate flatHw 7 (State.init freshDev)).1 = EFI_SUCCESS :=
  ⟨⟨by decide, by decide, by decide, by decide⟩,
    (((device_state_write_count flatHw 5
      (write_rpmb_device_state_real flatHw 5 (State.init zeroDev)).2).1 (by decide)).1).trans
      (by decide),
    (((device_state_write_count flatHw 5
      (write_rpmb_device_state_simulate flatHw 5 (State.init zeroDev)).2).2.1 (by decide)
      (by decide)).1).trans (by decide),
    ((device_state_write_count flatHw 7 (State.init freshDev)).2.2 (by decide)).1⟩

/-- C13, counterexample.  On the never-provisioned reference store the simulated
`write_rpmb_device_state(5)` returns `EFI_SUCCESS` and writes no block back: its
trace holds no write, and bytes 0 and 1 of block 2 are still 0, not `0xDC`
and 5. -/
theorem device_state_write_frame_counterexample :
    (write_rpmb_device_state_simulate flatHw 5 (State.init freshDev)).1 = EFI_SUCCESS ∧
    (write_rpmb_device_state_simulate flatHw 5 (State.init freshDev)).2.trace.all
      (fun c => !c.is_write) = true ∧
    (write_rpmb_device_state_simulate flatHw 5 (State.init freshDev)).2.dev.mem 512
      ≠ DEVICE_STATE_MAGIC ∧
    (write_rpmb_device_state_simulate flatHw 5 (State.init freshDev)).2.dev.mem 513 ≠ 5 := by
  decide

/-- C13, amended.  Frame of `write_rpmb_device_state`: for every state byte `s`
and every prior content of block 2, a successful call whose read of block 2 did
not report `EFI_NOT_FOUND` (on the real backend, every successful call) makes
exactly two collaborator calls, the read of block 2 and one write of block 2,
and the block written has byte 0 equal to `0xDC`, byte 1 equal to `s` and every
other byte equal to the byte read beforehand; no other block is written.  A
simulated call whose read reports `EFI_NOT_FOUND` returns `EFI_SUCCESS` and
writes no block at all: its only collaborator call is the read. -/
theorem device_state_write_frame {D : Type} (hw : Collab D) (s : Nat) (hs : s < 256)
    (st : State D) :
    ((write_rpmb_device_state_real hw s st).1 = EFI_SUCCESS →
      ∃ data : Bytes,
        (write_rpmb_device_state_real hw s st).2.trace =
          st.trace ++ [HwCall.read 1 2, HwCall.write 1 2 data] ∧
        data 0 = DEVICE_STATE_MAGIC ∧ data 1 = s ∧
        ∀ i, 2 ≤ i → data i =
          (hw.emmc_read_rpmb_data st.dev 1 2 st.rpmb_buffer st.rpmb_key).buffer i) ∧
    ((write_rpmb_device_state_simulate hw s st).1 = EFI_SUCCESS →
      (hw.emmc_simulate_read_rpmb_data st.dev 512 st.rpmb_buffer 256).status ≠ EFI_NOT_FOUND →
      ∃ data : Bytes,
        (write_rpmb_device_state_simulate hw s st).2.trace =
          st.trace ++ [HwCall.simulate_read 512 256, HwCall.simulate_write 512 256 data] ∧
        data 0 = DEVICE_STATE_MAGIC ∧ data 1 = s ∧
        ∀ i, 2 ≤ i → data i =
          (hw.emmc_simulate_read_rpmb_data st.dev 512 st.rpmb_buffer 256).buffer i) ∧
    ((hw.emmc_simulate_read_rpmb_data st.dev 512 st.rpmb_buffer 256).status = EFI_NOT_FOUND →
      (write_rpmb_device_state_simulate hw s st).1 = EFI_SUCCESS ∧
      (write_rpmb_device_state_simulate hw s st).2.trace =
        st.trace ++ [HwCall.simulate_read 512 256] ∧
      (write_rpmb_device_state_simulate hw s st).2.dev =
        (hw.emmc_simulate_read_rpmb_data st.dev 512 st.rpmb_buffer 256).dev ∧
      ∀ c, c ∈ (write_rpmb_device_state_simulate hw s st).2.trace →
        c ∈ st.trace ∨ c.is_write = false) := by
  have hmod : s % 256 = s := Nat.mod_eq_of_lt hs
  refine ⟨?_, ?_, ?_⟩
  · intro hsucc
    obtain ⟨hr, _⟩ := write_state_real_ok hw s st hsucc
    refine ⟨poke (poke (hw.emmc_read_rpmb_data st.dev 1 2 st.rpmb_buffer st.rpmb_key).buffer
      0 DEVICE_STATE_MAGIC) 1 (s % 256), ?_, ?_, ?_, ?_⟩
    · rw [write_state_real_trace, if_neg (by simp [hr]), List.append_assoc]
      rfl
    · simp [poke]
    · simp [poke, hmod]
    · intro i hi
      simp only [poke]
      rw [if_neg (by omega), if_neg (by omega)]
  · intro hsucc hnf
    obtain ⟨hr, _⟩ := write_state_simulate_ok hw s st hsucc hnf
    refine ⟨poke (poke (hw.emmc_simulate_read_rpmb_data st.dev 512 st.rpmb_buffer 256).buffer
      0 DEVICE_STATE_MAGIC) 1 (s % 256), ?_, ?_, ?_, ?_⟩
    · rw [write_state_simulate_trace, if_neg (by simp [hr]), List.append_assoc]
      rfl
    · simp [poke]
    · simp [poke, hmod]
    · intro i hi
      simp only [poke]
      rw [if_neg (by omega), if_neg (by omega)]
  · intro hnf
    have he : EFI_ERROR (hw.emmc_simulate_read_rpmb_data st.dev 512 st.rpmb_buffer 256).status
        = true := by
      rw [hnf]
      exact EFI_ERROR_EFI_NOT_FOUND
    have ht : (write_rpmb_device_state_simulate hw s st).2.trace =
        st.trace ++ [HwCall.simulate_read 512 256] := by
      rw [write_state_simulate_trace, if_pos he, List.append_nil]
    refine ⟨by rw [write_state_simulate_status, if_pos hnf], ht,
      by rw [write_state_simulate_dev, if_pos he], ?_⟩
    intro c hc
    rw [ht, List.mem_append, List.mem_singleton] at hc
    rcases hc with hc | hc
    · exact Or.inl hc
    · rw [hc]
      exact Or.inr rfl

/-- Witness of C13 as amended: on the reference store filled with `0xDC`,
writing state 5 through either backend leaves bytes 0 and 2 of block 2 at
`0xDC` and sets byte 1 to 5; on the never-provisioned store the simulated call
succeeds with the read as its only call. -/
theorem device_state_write_frame_witness :
    ((5 : Nat) < 256 ∧
      (write_rpmb_device_state_real flatHw 5 (State.init filledDev)).1 = EFI_SUCCESS ∧
      (write_rpmb_device_state_simulate flatHw 5 (State.init filledDev)).1 = EFI_SUCCESS ∧
      (flatHw.emmc_simulate_read_rpmb_data filledDev 512 (fun _ => 0) 256).status
        ≠ EFI_NOT_FOUND ∧
      (flatHw.emmc_simulate_read_rpmb_data freshDev 512 (fun _ => 0) 256).status
        = EFI_NOT_FOUND) ∧
    (∃ data : Bytes,
      (write_rpmb_device_state_real flatHw 5 (State.init filledDev)).2.trace =
        [HwCall.read 1 2, HwCall.write 1 2 data] ∧
      data 0 = DEVICE_STATE_MAGIC ∧ data 1 = 5 ∧
      ∀ i, 2 ≤ i → data i =
        (flatHw.emmc_read_rpmb_data filledDev 1 2 (fun _ => 0) rpmb_key_init).buffer i) ∧
    (∃ data : Bytes,
      (write_rpmb_device_state_simulate flatHw 5 (State.init filledDev)).2.trace =
        [HwCall.simulate_read 512 256, HwCall.simulate_write 512 256 data] ∧
      data 0 = DEVICE_STATE_MAGIC ∧ data 1 = 5 ∧
      ∀ i, 2 ≤ i → data i =
        (flatHw.emmc_simulate_read_rpmb_data filledDev 512 (fun _ => 0) 256).buffer i) ∧
    (write_rpmb_device_state_simulate flatHw 7 (State.init freshDev)).2.trace =
      [HwCall.simulate_read 512 256] ∧
    (write_rpmb_device_state_real flatHw 5 (State.init filledDev)).2.dev.mem 513 = 5 ∧
    (write_rpmb_device_state_real flatHw 5 (State.init filledDev)).2.dev.mem 514 = 0xDC :=
  ⟨⟨by decide, by decide, by decide, by decide, by decide⟩,
    (device_state_write_frame flatHw 5 (by decide) (State.init filledDev)).1 (by decide),
    (device_state_write_frame flatHw 5 (by decide) (State.init filledDev)).2.1 (by decide)
      (by decide),
    ((device_state_write_frame flatHw 7 (by decide) (State.init freshDev)).2.2
      (by decide)).2.1,
    by decide, by decide⟩

/-! ## The authentication key -/

/-- C14. Fail-open `is_rpmb_programed`: on either backend the result is `FALSE`
exactly when the write-counter query returns an error status and its response
result is `RPMB_RES_NO_AUTH_KEY_PROGRAM`; for every other outcome (no error, or
an error with any other response result) the result is `TRUE`. -/
theorem is_rpmb_programed_fail_open {D : Type} (hw : Collab D) (st : State D) :
    ((is_rpmb_programed_real hw st).1 = false ↔
      (EFI_ERROR (hw.emmc_get_counter st.dev st.rpmb_key).status = true ∧
        (hw.emmc_get_counter st.dev st.rpmb_key).rpmb_result = RPMB_RES_NO_AUTH_KEY_PROGRAM)) ∧
    ((is_rpmb_programed_real hw st).1 = true ↔
      (EFI_ERROR (hw.emmc_get_counter st.dev st.rpmb_key).status = false ∨
        (hw.emmc_get_counter st.dev st.rpmb_key).rpmb_result ≠ RPMB_RES_NO_AUTH_KEY_PROGRAM)) ∧
    ((is_rpmb_programed_simulate hw st).1 = false ↔
      (EFI_ERROR (hw.emmc_simulate_get_counter st.dev st.rpmb_key).status = true ∧
        (hw.emmc_simulate_get_counter st.dev st.rpmb_key).rpmb_result
          = RPMB_RES_NO_AUTH_KEY_PROGRAM)) ∧
    ((is_rpmb_programed_simulate hw st).1 = true ↔
      (EFI_ERROR (hw.emmc_simulate_get_counter st.dev st.rpmb_key).status = false ∨
        (hw.emmc_simulate_get_counter st.dev st.rpmb_key).rpmb_result
          ≠ RPMB_RES_NO_AUTH_KEY_PROGRAM)) := by
  refine ⟨?_, ?_, ?_, ?_⟩
  · simp only [is_rpmb_programed_real]
    by_cases he : EFI_ERROR (hw.emmc_get_counter st.dev st.rpmb_key).status = true <;>
      by_cases hr : (hw.emmc_get_counter st.dev st.rpmb_key).rpmb_result
        = RPMB_RES_NO_AUTH_KEY_PROGRAM <;> simp [he, hr]
  · simp only [is_rpmb_programed_real]
    by_cases he : EFI_ERROR (hw.emmc_get_counter st.dev st.rpmb_key).status = true <;>
      by_cases hr : (hw.emmc_get_counter st.dev st.rpmb_key).rpmb_result
        = RPMB_RES_NO_AUTH_KEY_PROGRAM <;> simp [he, hr]
  · simp only [is_rpmb_programed_simulate]
    by_cases he : EFI_ERROR (hw.emmc_simulate_get_counter st.dev st.rpmb_key).status = true <;>
      by_cases hr : (hw.emmc_simulate_get_counter st.dev st.rpmb_key).rpmb_result
        = RPMB_RES_NO_AUTH_KEY_PROGRAM <;> simp [he, hr]
  · simp only [is_rpmb_programed_simulate]
    by_cases he : EFI_ERROR (hw.emmc_simulate_get_counter st.dev st.rpmb_key).status = true <;>
      by_cases hr : (hw.emmc_simulate_get_counter st.dev st.rpmb_key).rpmb_result
        = RPMB_RES_NO_AUTH_KEY_PROGRAM <;> simp [he, hr]

/-- Witness of C14: on the reference store without a programmed key the query
fails with `RPMB_RES_NO_AUTH_KEY_PROGRAM` and the result is `FALSE`; with a
programmed key the result is `TRUE`. -/
theorem is_rpmb_programed_fail_open_witness :
    (is_rpmb_programed_real flatHw (State.init freshDev)).1 = false ∧
    (is_rpmb_programed_simulate flatHw (State.init zeroDev)).1 = true :=
  ⟨(is_rpmb_programed_fail_open flatHw (State.init freshDev)).1.mpr ⟨by decide, by decide⟩,
    (is_rpmb_programed_fail_open flatHw (State.init zeroDev)).2.2.2.mpr (Or.inl (by decide))⟩

/-- C15, counterexample.  When the collaborator accepts the key with the warning
status `EFI_WARN_UNKNOWN_GLYPH` (1, not an error), `program_rpmb_key` returns
`EFI_SUCCESS` (0) on either backend, which is not the collaborator's status. -/
theorem program_rpmb_key_update_counterexample :
    (warnHw.emmc_program_key zeroDev (fun _ => 9)).status = EFI_WARN_UNKNOWN_GLYPH ∧
    EFI_ERROR (warnHw.emmc_program_key zeroDev (fun _ => 9)).status = false ∧
    (program_rpmb_key_real warnHw (fun _ => 9) (State.init zeroDev)).1 = EFI_SUCCESS ∧
    (program_rpmb_key_real warnHw (fun _ => 9) (State.init zeroDev)).1 ≠
      (warnHw.emmc_program_key zeroDev (fun _ => 9)).status ∧
    (program_rpmb_key_simulate warnHw (fun _ => 9) (State.init zeroDev)).1 ≠
      (warnHw.emmc_simulate_program_rpmb_key zeroDev (fun _ => 9)).status := by
  decide

/-- C15, amended.  Key update in `program_rpmb_key`: on either backend, for every
previous in-memory key and every new key `K`, after the call the first 32 bytes
of `rpmb_key` are those of `K` (and the byte after them is untouched), whatever
the collaborator answers; the status returned is the collaborator's own status
when that is an error, and `EFI_SUCCESS` whenever the collaborator reports no
error, so it is the collaborator's status on rejection and on `EFI_SUCCESS`,
and `EFI_SUCCESS` for any other status that is no error. -/
theorem program_rpmb_key_update {D : Type} (hw : Collab D) (key : Bytes) (st : State D) :
    ((∀ i, i < 32 → (program_rpmb_key_real hw key st).2.rpmb_key i = key i) ∧
      (∀ i, 32 ≤ i → (program_rpmb_key_real hw key st).2.rpmb_key i = st.rpmb_key i) ∧
      (EFI_ERROR (hw.emmc_program_key st.dev key).status = true →
        (program_rpmb_key_real hw key st).1 = (hw.emmc_program_key st.dev key).status) ∧
      ((hw.emmc_program_key st.dev key).status = EFI_SUCCESS →
        (program_rpmb_key_real hw key st).1 = (hw.emmc_program_key st.dev key).status) ∧
      (EFI_ERROR (hw.emmc_program_key st.dev key).status = false →
        (program_rpmb_key_real hw key st).1 = EFI_SUCCESS)) ∧
    ((∀ i, i < 32 → (program_rpmb_key_simulate hw key st).2.rpmb_key i = key i) ∧
      (∀ i, 32 ≤ i → (program_rpmb_key_simulate hw key st).2.rpmb_key i = st.rpmb_key i) ∧
      (EFI_ERROR (hw.emmc_simulate_program_rpmb_key st.dev key).status = true →
        (program_rpmb_key_simulate hw key st).1 =
          (hw.emmc_simulate_program_rpmb_key st.dev key).status) ∧
      ((hw.emmc_simulate_program_rpmb_key st.dev key).status = EFI_SUCCESS →
        (program_rpmb_key_simulate hw key st).1 =
          (hw.emmc_simulate_program_rpmb_key st.dev key).status) ∧
      (EFI_ERROR (hw.emmc_simulate_program_rpmb_key st.dev key).status = false →
        (program_rpmb_key_simulate hw key st).1 = EFI_SUCCESS)) := by
  have hz : EFI_ERROR EFI_SUCCESS = false := by decide
  constructor
  · refine ⟨?_, ?_, ?_, ?_, ?_⟩
    · intro i hi
      simp only [program_rpmb_key_real, RPMB_KEY_SIZE]
      split <;> simp [memcpy, hi]
    · intro i hi
      simp only [program_rpmb_key_real, RPMB_KEY_SIZE]
      split <;> simp [memcpy, Nat.not_lt.mpr hi]
    · intro he
      simp only [program_rpmb_key_real, he, if_true]
    · intro he
      simp only [program_rpmb_key_real, he, hz, Bool.false_eq_true, if_false]
    · intro he
      simp only [program_rpmb_key_real, he, Bool.false_eq_true, if_false]
  · refine ⟨?_, ?_, ?_, ?_, ?_⟩
    · intro i hi
      simp only [program_rpmb_key_simulate, RPMB_KEY_SIZE]
      split <;> simp [memcpy, hi]
    · intro i hi
      simp only [program_rpmb_key_simulate, RPMB_KEY_SIZE]
      split <;> simp [memcpy, Nat.not_lt.mpr hi]
    · intro he
      simp only [program_rpmb_key_simulate, he, if_true]
    · intro he
      simp only [program_rpmb_key_simulate, he, hz, Bool.false_eq_true, if_false]
    · intro he
      simp only [program_rpmb_key_simulate, he, Bool.false_eq_true, if_false]

/-- Witness of C15 as amended: the reference collaborator rejects a key when one is already
programmed, with `EFI_DEVICE_ERROR`, and accepts it otherwise; in both cases
byte 0 of `rpmb_key` becomes byte 0 of the new key. -/
theorem program_rpmb_key_update_witness :
    (EFI_ERROR (flatHw.emmc_program_key zeroDev (fun _ => 9)).status = true ∧
      (flatHw.emmc_simulate_program_rpmb_key freshDev (fun _ => 9)).status = EFI_SUCCESS ∧
      rpmb_key_init 0 = 49) ∧
    (program_rpmb_key_real flatHw (fun _ => 9) (State.init zeroDev)).1 = EFI_DEVICE_ERROR ∧
    (program_rpmb_key_real flatHw (fun _ => 9) (State.init zeroDev)).2.rpmb_key 0 = 9 ∧
    (program_rpmb_key_simulate flatHw (fun _ => 9) (State.init freshDev)).1 = EFI_SUCCESS ∧
    (program_rpmb_key_simulate flatHw (fun _ => 9) (State.init freshDev)).2.rpmb_key 31 = 9 :=
  ⟨⟨by decide, by decide, by decide⟩,
    ((program_rpmb_key_update flatHw (fun _ => 9) (State.init zeroDev)).1.2.2.1
      (by decide)).trans (by decide),
    (program_rpmb_key_update flatHw (fun _ => 9) (State.init zeroDev)).1.1 0 (by decide),
    ((program_rpmb_key_update flatHw (fun _ => 9) (State.init freshDev)).2.2.2.2.1
      (by decide)).trans (by decide),
    (program_rpmb_key_update flatHw (fun _ => 9) (State.init freshDev)).2.1 31 (by decide)⟩

/-- C16. `clear_rpmb_key` zeroes the key and is idempotent: for every prior
in-memory key, after the call the 32 key bytes are zero, nothing else of the
module state changes, and calling it twice leaves the same state as calling it
once. -/
theorem clear_rpmb_key_zero_idempotent {D : Type} (st : State D) :
    (∀ i, i < 32 → (clear_rpmb_key st).rpmb_key i = 0) ∧
    (∀ i, 32 ≤ i → (clear_rpmb_key st).rpmb_key i = st.rpmb_key i) ∧
    (clear_rpmb_key st).rpmb_buffer = st.rpmb_buffer ∧
    (clear_rpmb_key st).rpmb_ops = st.rpmb_ops ∧
    (clear_rpmb_key st).dev = st.dev ∧
    (clear_rpmb_key st).trace = st.trace ∧
    clear_rpmb_key (clear_rpmb_key st) = clear_rpmb_key st := by
  refine ⟨?_, ?_, rfl, rfl, rfl, rfl, ?_⟩
  · intro i hi
    simp [clear_rpmb_key, memset, RPMB_KEY_SIZE, hi]
  · intro i hi
    simp [clear_rpmb_key, memset, RPMB_KEY_SIZE, Nat.not_lt.mpr hi]
  · simp only [clear_rpmb_key]
    congr 1
    funext j
    simp only [memset]
    split <;> rfl

/-- Witness of C16 on the three kinds of key: the placeholder of the initial
state, a key stored by `set_rpmb_key`, and a key stored by
`program_rpmb_key_real`; byte 0 is zero after `clear_rpmb_key` each time. -/
theorem clear_rpmb_key_zero_idempotent_witness :
    (State.init zeroDev).rpmb_key 0 = 49 ∧
    (clear_rpmb_key (State.init zeroDev)).rpmb_key 0 = 0 ∧
    (set_rpmb_key (fun _ => 9) (State.init zeroDev)).rpmb_key 0 = 9 ∧
    (clear_rpmb_key (set_rpmb_key (fun _ => 9) (State.init zeroDev))).rpmb_key 0 = 0 ∧
    (clear_rpmb_key (program_rpmb_key_real flatHw (fun _ => 9)
      (State.init freshDev)).2).rpmb_key 31 = 0 :=
  ⟨by decide,
    (clear_rpmb_key_zero_idempotent (State.init zeroDev)).1 0 (by decide),
    by decide,
    (clear_rpmb_key_zero_idempotent (set_rpmb_key (fun _ => 9) (State.init zeroDev))).1 0
      (by decide),
    (clear_rpmb_key_zero_idempotent (program_rpmb_key_real flatHw (fun _ => 9)
      (State.init freshDev)).2).1 31 (by decide)⟩

/-! ## Failures, and the two backends side by side -/

/-- C17. The first failure surfaces, with no partial effect: on the real backend,
for `write_rpmb_device_state` and `write_rpmb_rollback_index`, if the initial
block read fails with error `e` the operation returns exactly `e`, its only
collaborator call is that read (no write is issued) and, the collaborator
behaving as a store, the byte image is unchanged; and if the read does not fail
but the write that is issued fails with error `e'`, the operation returns
exactly `e'`. -/
theorem first_failure_surfaces {D : Type} (hw : Collab D) (mem : D → Nat → Nat)
    (s index v : Nat) (st : State D) :
    (EFI_ERROR (hw.emmc_read_rpmb_data st.dev 1 2 st.rpmb_buffer st.rpmb_key).status = true →
      (write_rpmb_device_state_real hw s st).1 =
        (hw.emmc_read_rpmb_data st.dev 1 2 st.rpmb_buffer st.rpmb_key).status ∧
      (write_rpmb_device_state_real hw s st).2.trace = st.trace ++ [HwCall.read 1 2] ∧
      write_count (write_rpmb_device_state_real hw s st).2.trace = write_count st.trace ∧
      (RealStore hw mem → mem (write_rpmb_device_state_real hw s st).2.dev = mem st.dev)) ∧
    (EFI_ERROR (hw.emmc_read_rpmb_data st.dev 1 2 st.rpmb_buffer st.rpmb_key).status = false →
      EFI_ERROR (hw.emmc_write_rpmb_data
        (hw.emmc_read_rpmb_data st.dev 1 2 st.rpmb_buffer st.rpmb_key).dev 1 2
        (poke (poke (hw.emmc_read_rpmb_data st.dev 1 2 st.rpmb_buffer st.rpmb_key).buffer
          0 DEVICE_STATE_MAGIC) 1 (s % 256)) st.rpmb_key).status = true →
      (write_rpmb_device_state_real hw s st).1 =
        (hw.emmc_write_rpmb_data
          (hw.emmc_read_rpmb_data st.dev 1 2 st.rpmb_buffer st.rpmb_key).dev 1 2
          (poke (poke (hw.emmc_read_rpmb_data st.dev 1 2 st.rpmb_buffer st.rpmb_key).buffer
            0 DEVICE_STATE_MAGIC) 1 (s % 256)) st.rpmb_key).status) ∧
    (EFI_ERROR (hw.emmc_read_rpmb_data st.dev 1 (rollback_blk_addr index) st.rpmb_buffer
        st.rpmb_key).status = true →
      (write_rpmb_rollback_index_real hw index v st).1 =
        (hw.emmc_read_rpmb_data st.dev 1 (rollback_blk_addr index) st.rpmb_buffer
          st.rpmb_key).status ∧
      (write_rpmb_rollback_index_real hw index v st).2.trace =
        st.trace ++ [HwCall.read 1 (rollback_blk_addr index)] ∧
      write_count (write_rpmb_rollback_index_real hw index v st).2.trace
        = write_count st.trace ∧
      (RealStore hw mem →
        mem (write_rpmb_rollback_index_real hw index v st).2.dev = mem st.dev)) ∧
    (EFI_ERROR (hw.emmc_read_rpmb_data st.dev 1 (rollback_blk_addr index) st.rpmb_buffer
        st.rpmb_key).status = false →
      memcmp_u64_eq v (hw.emmc_read_rpmb_data st.dev 1 (rollback_blk_addr index)
        st.rpmb_buffer st.rpmb_key).buffer (rollback_blk_offset index) = false →
      EFI_ERROR (hw.emmc_write_rpmb_data
        (hw.emmc_read_rpmb_data st.dev 1 (rollback_blk_addr index) st.rpmb_buffer
          st.rpmb_key).dev 1 (rollback_blk_addr index)
        (memcpy_u64 (hw.emmc_read_rpmb_data st.dev 1 (rollback_blk_addr index) st.rpmb_buffer
          st.rpmb_key).buffer (rollback_blk_offset index) v) st.rpmb_key).status = true →
      (write_rpmb_rollback_index_real hw index v st).1 =
        (hw.emmc_write_rpmb_data
          (hw.emmc_read_rpmb_data st.dev 1 (rollback_blk_addr index) st.rpmb_buffer
            st.rpmb_key).dev 1 (rollback_blk_addr index)
          (memcpy_u64 (hw.emmc_read_rpmb_data st.dev 1 (rollback_blk_addr index) st.rpmb_buffer
            st.rpmb_key).buffer (rollback_blk_offset index) v) st.rpmb_key).status) := by
  refine ⟨?_, ?_, ?_, ?_⟩
  · intro he
    have ht : (write_rpmb_device_state_real hw s st).2.trace = st.trace ++ [HwCall.read 1 2] := by
      rw [write_state_real_trace, if_pos he, List.append_nil]
    refine ⟨by rw [write_state_real_status, if_pos he], ht,
      by rw [ht, write_count_append_read], ?_⟩
    intro hstore
    rw [write_state_real_dev, if_pos he]
    exact hstore.read_keeps _ _ _ _
  · intro hr hwe
    rw [write_state_real_status, if_neg (by simp [hr]), if_pos hwe]
  · intro he
    have ht : (write_rpmb_rollback_index_real hw index v st).2.trace =
        st.trace ++ [HwCall.read 1 (rollback_blk_addr index)] := by
      rw [write_real_trace, if_neg (by simp [he]), List.append_nil]
    refine ⟨by rw [write_real_status, if_pos he], ht, by rw [ht, write_count_append_read], ?_⟩
    intro hstore
    rw [write_real_dev_of_read_error hw index v st he]
    exact hstore.read_keeps _ _ _ _
  · intro hr hc hwe
    rw [write_real_status, if_neg (by simp [hr]), if_neg (by simp [hc]), if_pos hwe]

/-- Witness of C17: on the reference store whose accesses report
`EFI_NOT_FOUND` both operations return that error without a write; on the store
that cannot be written both return `EFI_WRITE_PROTECTED`. -/
theorem first_failure_surfaces_witness :
    (EFI_ERROR (flatHw.emmc_read_rpmb_data freshDev 1 2 (fun _ => 0) rpmb_key_init).status
        = true ∧
      EFI_ERROR (readOnlyHw.emmc_read_rpmb_data zeroDev 1 2 (fun _ => 0)
        rpmb_key_init).status = false ∧
      RealStore flatHw FlatDev.mem) ∧
    (write_rpmb_device_state_real flatHw 5 (State.init freshDev)).1 = EFI_NOT_FOUND ∧
    write_count (write_rpmb_device_state_real flatHw 5 (State.init freshDev)).2.trace = 0 ∧
    (write_rpmb_rollback_index_real flatHw 5 42 (State.init freshDev)).1 = EFI_NOT_FOUND ∧
    (write_rpmb_rollback_index_real flatHw 5 42 (State.init freshDev)).2.dev.mem
      = freshDev.mem ∧
    (write_rpmb_device_state_real readOnlyHw 5 (State.init zeroDev)).1 = EFI_WRITE_PROTECTED ∧
    (write_rpmb_rollback_index_real readOnlyHw 5 42 (State.init zeroDev)).1
      = EFI_WRITE_PROTECTED :=
  ⟨⟨by decide, by decide, flatHw_realStore⟩,
    ((first_failure_surfaces flatHw FlatDev.mem 5 5 42 (State.init freshDev)).1
      (by decide)).1.trans (by decide),
    ((first_failure_surfaces flatHw FlatDev.mem 5 5 42 (State.init freshDev)).1
      (by decide)).2.2.1,
    ((first_failure_surfaces flatHw FlatDev.mem 5 5 42 (State.init freshDev)).2.2.1
      (by decide)).1.trans (by decide),
    ((first_failure_surfaces flatHw FlatDev.mem 5 5 42 (State.init freshDev)).2.2.1
      (by decide)).2.2.2 flatHw_realStore,
    ((first_failure_surfaces readOnlyHw FlatDev.mem 5 5 42 (State.init zeroDev)).2.1
      (by decide) (by decide)).trans (by decide),
    ((first_failure_surfaces readOnlyHw FlatDev.mem 5 5 42 (State.init zeroDev)).2.2.2
      (by decide) (by decide) (by decide)).trans (by decide)⟩

/-- C18. Real and simulated addressing agree: for every index below 256 the flat
byte offset `3 * 256 + index * 8` of the simulated backend equals `block * 256 +
offset` for the address `(3 + index / 32, (index mod 32) * 8)` of the real
backend.  Consequently, when the real and the simulated collaborator are stores
over the same byte image and the reads and writes of the slot succeed,
`write_rpmb_rollback_index` returns the same status and leaves the same byte
image on the two backends, and `read_rpmb_rollback_index` returns the same
status and value and leaves the same byte image. -/
theorem real_simulate_agree {D : Type} (hw : Collab D) (mem : D → Nat → Nat) (index v : Nat)
    (hindex : index < 256) (st : State D) :
    rollback_byte_offset index = 3 * 256 + index * 8 ∧
    rollback_blk_addr index = 3 + index / 32 ∧
    rollback_blk_offset index = index % 32 * 8 ∧
    rollback_byte_offset index = rollback_blk_addr index * 256 + rollback_blk_offset index ∧
    (RealStore hw mem → SimStore hw mem →
      EFI_ERROR (hw.emmc_read_rpmb_data st.dev 1 (rollback_blk_addr index) st.rpmb_buffer
        st.rpmb_key).status = false →
      EFI_ERROR (hw.emmc_write_rpmb_data
        (hw.emmc_read_rpmb_data st.dev 1 (rollback_blk_addr index) st.rpmb_buffer
          st.rpmb_key).dev 1 (rollback_blk_addr index)
        (memcpy_u64 (hw.emmc_read_rpmb_data st.dev 1 (rollback_blk_addr index) st.rpmb_buffer
          st.rpmb_key).buffer (rollback_blk_offset index) v) st.rpmb_key).status = false →
      EFI_ERROR (hw.emmc_simulate_read_rpmb_data st.dev (rollback_byte_offset index)
        st.rpmb_buffer 8).status = false →
      EFI_ERROR (hw.emmc_simulate_write_rpmb_data
        (hw.emmc_simulate_read_rpmb_data st.dev (rollback_byte_offset index) st.rpmb_buffer
          8).dev (rollback_byte_offset index)
        (memcpy_u64 (hw.emmc_simulate_read_rpmb_data st.dev (rollback_byte_offset index)
          st.rpmb_buffer 8).buffer 0 v) 8).status = false →
      ((write_rpmb_rollback_index_real hw index v st).1 = EFI_SUCCESS ∧
        (write_rpmb_rollback_index_simulate hw index v st).1 = EFI_SUCCESS ∧
        mem (write_rpmb_rollback_index_real hw index v st).2.dev =
          mem (write_rpmb_rollback_index_simulate hw index v st).2.dev) ∧
      ((read_rpmb_rollback_index_real hw index st).1 =
          (read_rpmb_rollback_index_simulate hw index st).1 ∧
        (read_rpmb_rollback_index_real hw index st).2.1 =
          (read_rpmb_rollback_index_simulate hw index st).2.1 ∧
        mem (read_rpmb_rollback_index_real hw index st).2.2.dev =
          mem (read_rpmb_rollback_index_simulate hw index st).2.2.dev)) := by
  have hslot := rollback_slot_eq index hindex
  have hbyte := rollback_byte_offset_eq index hindex
  refine ⟨by omega, rollback_blk_addr_eq index (by omega), rollback_blk_offset_eq index,
    by omega, ?_⟩
  intro hreal hsim hr hwr hsr hsw
  have h1 : (write_rpmb_rollback_index_real hw index v st).1 = EFI_SUCCESS := by
    rw [write_real_status, if_neg (by simp [hr])]
    split
    · rfl
    · rw [if_neg (by simp [hwr])]
  have h2 : (write_rpmb_rollback_index_simulate hw index v st).1 = EFI_SUCCESS := by
    rw [write_simulate_status, if_neg (by simp [hsr])]
    split
    · rfl
    · rw [if_neg (by simp [hsw])]
  refine ⟨⟨h1, h2, ?_⟩, ?_, ?_, ?_⟩
  · funext x
    rw [(write_real_effect hw mem hreal index v st h1).2.1 x,
      (write_simulate_effect hw mem hsim index v st h2).1 x, hslot, hbyte]
  · rw [(read_real_value hw mem hreal index st hr).1,
      (read_simulate_value hw mem hsim index st hsr).1]
  · rw [(read_real_value hw mem hreal index st hr).2,
      (read_simulate_value hw mem hsim index st hsr).2, hslot, hbyte]
  · rw [read_real_dev, read_simulate_dev, hreal.read_keeps, hsim.read_keeps]

/-- Witness of C18 on the working reference store: slot 37, the sixth slot of
block 4, is byte offset 1064 on both backends; writing 42 there through either
backend leaves the same byte image, and with 42 stored both backends read 42. -/
theorem real_simulate_agree_witness :
    ((37 : Nat) < 256 ∧ RealStore flatHw FlatDev.mem ∧ SimStore flatHw FlatDev.mem) ∧
    rollback_byte_offset 37 = 1064 ∧ rollback_blk_addr 37 = 4 ∧ rollback_blk_offset 37 = 40 ∧
    (write_rpmb_rollback_index_real flatHw 37 42 (State.init zeroDev)).2.dev.mem =
      (write_rpmb_rollback_index_simulate flatHw 37 42 (State.init zeroDev)).2.dev.mem ∧
    (read_rpmb_rollback_index_simulate flatHw 37
      (write_rpmb_rollback_index_real flatHw 37 42 (State.init zeroDev)).2).2.1 = some 42 ∧
    (read_rpmb_rollback_index_real flatHw 37
      (write_rpmb_rollback_index_real flatHw 37 42 (State.init zeroDev)).2).2.1 =
      (read_rpmb_rollback_index_simulate flatHw 37
        (write_rpmb_rollback_index_real flatHw 37 42 (State.init zeroDev)).2).2.1 :=
  ⟨⟨by decide, flatHw_realStore, flatHw_simStore⟩, by decide, by decide, by decide,
    ((real_simulate_agree flatHw FlatDev.mem 37 42 (by decide) (State.init zeroDev)).2.2.2.2
      flatHw_realStore flatHw_simStore (by decide) (by decide) (by decide) (by decide)).1.2.2,
    by decide,
    ((real_simulate_agree flatHw FlatDev.mem 37 42 (by decide)
      (write_rpmb_rollback_index_real flatHw 37 42 (State.init zeroDev)).2).2.2.2.2
      flatHw_realStore flatHw_simStore (by decide) (by decide) (by decide) (by decide)).2.2.1⟩

/-! ## Key derivation -/

/-- C19, counterexample.  With a `SHA256_Init` that does not return 1,
`derive_rpmb_key` returns `EFI_INVALID_PARAMETER` and writes no key although
the random source delivers its 32 bytes; and when the random source would fail
with `EFI_DEVICE_ERROR` it still returns `EFI_INVALID_PARAMETER`, not that
error. -/
theorem derive_rpmb_key_counterexample :
    EFI_ERROR (((testKc 0).generate_random_numbers goodEnv (fun _ => 0) 32).status) = false ∧
    (derive_rpmb_key (testKc 0) goodEnv (State.init zeroDev)).1 = EFI_INVALID_PARAMETER ∧
    (derive_rpmb_key (testKc 0) goodEnv (State.init zeroDev)).1 ≠ EFI_SUCCESS ∧
    (derive_rpmb_key (testKc 0) goodEnv (State.init zeroDev)).2.1 = none ∧
    ((testKc 0).generate_random_numbers noRngEnv (fun _ => 0) 32).status = EFI_DEVICE_ERROR ∧
    (derive_rpmb_key (testKc 0) noRngEnv (State.init zeroDev)).1 ≠ EFI_DEVICE_ERROR := by
  decide

/-- C19, amended.  `derive_rpmb_key` never modifies the module state, so not the
stored key.  When `SHA256_Init` does not return 1 it returns
`EFI_INVALID_PARAMETER`, writes no key and does not consult the random source.
When `SHA256_Init` returns 1: if the random source fails with error `e` it
returns `e` and writes no key; otherwise it returns `EFI_SUCCESS` and writes the
digest of the 32 random bytes followed by the bytes of the serial number, so for
a fixed output of the random source and a fixed serial number it writes the same
key on every call. -/
theorem derive_rpmb_key_function {D E C : Type} (kc : KeyCollab E C) (env : E) (st : State D) :
    (derive_rpmb_key kc env st).2.2.2 = st ∧
    (kc.SHA256_Init.1 ≠ 1 →
      (derive_rpmb_key kc env st).1 = EFI_INVALID_PARAMETER ∧
      (derive_rpmb_key kc env st).2.1 = none ∧
      (derive_rpmb_key kc env st).2.2.1 = env) ∧
    (kc.SHA256_Init.1 = 1 →
      EFI_ERROR (kc.generate_random_numbers env (fun _ => 0) 32).status = true →
      (derive_rpmb_key kc env st).1 = (kc.generate_random_numbers env (fun _ => 0) 32).status ∧
      (derive_rpmb_key kc env st).2.1 = none) ∧
    (kc.SHA256_Init.1 = 1 →
      EFI_ERROR (kc.generate_random_numbers env (fun _ => 0) 32).status = false →
      (derive_rpmb_key kc env st).1 = EFI_SUCCESS ∧
      (derive_rpmb_key kc env st).2.1 =
        some (kc.SHA256_Final (kc.SHA256_Update (kc.SHA256_Update kc.SHA256_Init.2
          ((List.range 32).map (kc.generate_random_numbers env (fun _ => 0) 32).buffer))
          (kc.get_serial_number env))) ∧
      ((∀ c a b, kc.SHA256_Update (kc.SHA256_Update c a) b = kc.SHA256_Update c (a ++ b)) →
        (derive_rpmb_key kc env st).2.1 =
          some (kc.SHA256_Final (kc.SHA256_Update kc.SHA256_Init.2
            ((List.range 32).map (kc.generate_random_numbers env (fun _ => 0) 32).buffer ++
              kc.get_serial_number env))))) ∧
    (∀ (env2 : E) (st2 : State D), kc.SHA256_Init.1 = 1 →
      EFI_ERROR (kc.generate_random_numbers env (fun _ => 0) 32).status = false →
      EFI_ERROR (kc.generate_random_numbers env2 (fun _ => 0) 32).status = false →
      (∀ i, i < 32 → (kc.generate_random_numbers env (fun _ => 0) 32).buffer i =
        (kc.generate_random_numbers env2 (fun _ => 0) 32).buffer i) →
      kc.get_serial_number env = kc.get_serial_number env2 →
      (derive_rpmb_key kc env st).1 = (derive_rpmb_key kc env2 st2).1 ∧
      (derive_rpmb_key kc env st).2.1 = (derive_rpmb_key kc env2 st2).2.1) := by
  have hval : ∀ (e : E) (s : State D), kc.SHA256_Init.1 = 1 →
      EFI_ERROR (kc.generate_random_numbers e (fun _ => 0) 32).status = false →
      (derive_rpmb_key kc e s).1 = EFI_SUCCESS ∧
      (derive_rpmb_key kc e s).2.1 =
        some (kc.SHA256_Final (kc.SHA256_Update (kc.SHA256_Update kc.SHA256_Init.2
          ((List.range 32).map (kc.generate_random_numbers e (fun _ => 0) 32).buffer))
          (kc.get_serial_number e))) := by
    intro e s hinit hok
    simp only [derive_rpmb_key, RPMB_KEY_SIZE, hinit, hok, ne_eq, not_true_eq_false, if_false,
      Bool.false_eq_true, and_self]
  refine ⟨?_, ?_, ?_, ?_, ?_⟩
  · simp only [derive_rpmb_key]
    split
    · rfl
    · split <;> rfl
  · intro hinit
    have h1 : (1 : Int) ≠ kc.SHA256_Init.1 := fun h => hinit h.symm
    simp only [derive_rpmb_key, h1, ne_eq, not_false_eq_true, if_true, and_self]
  · intro hinit he
    simp only [derive_rpmb_key, RPMB_KEY_SIZE, hinit, he, ne_eq, not_true_eq_false, if_false,
      if_true, and_self]
  · intro hinit hok
    refine ⟨(hval env st hinit hok).1, (hval env st hinit hok).2, ?_⟩
    intro happ
    rw [(hval env st hinit hok).2, happ]
  · intro env2 st2 hinit hok hok2 hbytes hserial
    rw [(hval env st hinit hok).1, (hval env st hinit hok).2, (hval env2 st2 hinit hok2).1,
      (hval env2 st2 hinit hok2).2, hserial]
    have hl : (List.range 32).map (kc.generate_random_numbers env (fun _ => 0) 32).buffer =
        (List.range 32).map (kc.generate_random_numbers env2 (fun _ => 0) 32).buffer := by
      apply List.map_congr_left
      intro i hi
      exact hbytes i (List.mem_range.mp hi)
    rw [hl]
    exact ⟨rfl, rfl⟩

/-- Witness of C19 as amended, with the test digest: in the working environment
the derivation succeeds and leaves the placeholder key in place, two calls give
the same key, and with a failing random source the error of the source is
returned. -/
theorem derive_rpmb_key_function_witness :
    ((testKc 1).SHA256_Init.1 = 1 ∧
      EFI_ERROR (((testKc 1).generate_random_numbers goodEnv (fun _ => 0) 32).status) = false ∧
      EFI_ERROR (((testKc 1).generate_random_numbers noRngEnv (fun _ => 0) 32).status) = true ∧
      (∀ c a b : List Nat, (testKc 1).SHA256_Update ((testKc 1).SHA256_Update c a) b =
        (testKc 1).SHA256_Update c (a ++ b))) ∧
    (derive_rpmb_key (testKc 1) goodEnv (State.init zeroDev)).1 = EFI_SUCCESS ∧
    (derive_rpmb_key (testKc 1) goodEnv (State.init zeroDev)).2.2.2.rpmb_key 0 = 49 ∧
    (derive_rpmb_key (testKc 1) goodEnv (State.init zeroDev)).2.1 =
      (derive_rpmb_key (testKc 1) goodEnv (State.init filledDev)).2.1 ∧
    (derive_rpmb_key (testKc 1) noRngEnv (State.init zeroDev)).1 = EFI_DEVICE_ERROR :=
  ⟨⟨rfl, by decide, by decide, fun c a b => List.append_assoc c a b⟩,
    ((derive_rpmb_key_function (testKc 1) goodEnv (State.init zeroDev)).2.2.2.1 rfl
      (by decide)).1,
    congrArg (fun s => s.rpmb_key 0)
      (derive_rpmb_key_function (testKc 1) goodEnv (State.init zeroDev)).1,
    ((derive_rpmb_key_function (testKc 1) goodEnv (State.init zeroDev)).2.2.2.2 goodEnv
      (State.init filledDev) rfl (by decide) (by decide) (fun _ _ => rfl) rfl).2,
    ((derive_rpmb_key_function (testKc 1) noRngEnv (State.init zeroDev)).2.2.1 rfl
      (by decide)).1.trans (by decide)⟩

/-! ## Device state and rollback indices do not meet -/

/-- C20. Device state and rollback indices are isolated.  For every index below
256 and every value, each collaborator call made by `write_rpmb_rollback_index`
addresses, on the real backend, the block of the index, which is not block 2,
and, on the simulated backend, the 8 bytes at the byte offset of the index,
which lie after the bytes 512..767 of block 2.  Hence, over a collaborator that
behaves as a store, a successful `write_rpmb_rollback_index` leaves status and
state returned by `read_rpmb_device_state` as they were when block 2 could be
read before.  And for every state `s`, a successful `write_rpmb_device_state(s)`
leaves every byte outside 512..767 as it was, so that status and value returned
by `read_rpmb_rollback_index(j)` are unchanged for every `j` below 256 whose
slot could be read before (on the simulated backend, when the read of block 2
did not fail). -/
theorem state_and_indices_isolated {D : Type} (hw : Collab D) (mem : D → Nat → Nat)
    (index j v s : Nat) (hindex : index < 256) (hj : j < 256) (st : State D) :
    ((∃ tail, (write_rpmb_rollback_index_real hw index v st).2.trace = st.trace ++ tail ∧
        ∀ c, c ∈ tail → c.block = some (rollback_blk_addr index)) ∧
      rollback_blk_addr index ≠ RPMB_DEVICE_STATE_BLOCK_ADDR) ∧
    ((∃ tail, (write_rpmb_rollback_index_simulate hw index v st).2.trace = st.trace ++ tail ∧
        ∀ c, c ∈ tail → c = HwCall.simulate_read (rollback_byte_offset index) 8 ∨
          ∃ data, c = HwCall.simulate_write (rollback_byte_offset index) 8 data) ∧
      768 ≤ rollback_byte_offset index) ∧
    (RealStore hw mem →
      EFI_ERROR (hw.emmc_read_rpmb_data st.dev 1 2 st.rpmb_buffer st.rpmb_key).status = false →
      (write_rpmb_rollback_index_real hw index v st).1 = EFI_SUCCESS →
      (read_rpmb_device_state_real hw (write_rpmb_rollback_index_real hw index v st).2).1 =
        (read_rpmb_device_state_real hw st).1 ∧
      (read_rpmb_device_state_real hw (write_rpmb_rollback_index_real hw index v st).2).2.1 =
        (read_rpmb_device_state_real hw st).2.1) ∧
    (SimStore hw mem →
      EFI_ERROR (hw.emmc_simulate_read_rpmb_data st.dev 512 st.rpmb_buffer 256).status = false →
      (write_rpmb_rollback_index_simulate hw index v st).1 = EFI_SUCCESS →
      (read_rpmb_device_state_simulate hw
          (write_rpmb_rollback_index_simulate hw index v st).2).1 =
        (read_rpmb_device_state_simulate hw st).1 ∧
      (read_rpmb_device_state_simulate hw
          (write_rpmb_rollback_index_simulate hw index v st).2).2.1 =
        (read_rpmb_device_state_simulate hw st).2.1) ∧
    (RealStore hw mem →
      (write_rpmb_device_state_real hw s st).1 = EFI_SUCCESS →
      (∀ x, x < 512 ∨ 768 ≤ x →
        mem (write_rpmb_device_state_real hw s st).2.dev x = mem st.dev x) ∧
      (EFI_ERROR (hw.emmc_read_rpmb_data st.dev 1 (rollback_blk_addr j) st.rpmb_buffer
          st.rpmb_key).status = false →
        (read_rpmb_rollback_index_real hw j (write_rpmb_device_state_real hw s st).2).1 =
          (read_rpmb_rollback_index_real hw j st).1 ∧
        (read_rpmb_rollback_index_real hw j (write_rpmb_device_state_real hw s st).2).2.1 =
          (read_rpmb_rollback_index_real hw j st).2.1)) ∧
    (SimStore hw mem →
      (write_rpmb_device_state_simulate hw s st).1 = EFI_SUCCESS →
      (∀ x, x < 512 ∨ 768 ≤ x →
        mem (write_rpmb_device_state_simulate hw s st).2.dev x = mem st.dev x) ∧
      (EFI_ERROR (hw.emmc_simulate_read_rpmb_data st.dev 512 st.rpmb_buffer 256).status
          = false →
        EFI_ERROR (hw.emmc_simulate_read_rpmb_data st.dev (rollback_byte_offset j)
          st.rpmb_buffer 8).status = false →
        (read_rpmb_rollback_index_simulate hw j
            (write_rpmb_device_state_simulate hw s st).2).1 =
          (read_rpmb_rollback_index_simulate hw j st).1 ∧
        (read_rpmb_rollback_index_simulate hw j
            (write_rpmb_device_state_simulate hw s st).2).2.1 =
          (read_rpmb_rollback_index_simulate hw j st).2.1)) := by
  have hsi := rollback_slot_eq index hindex
  have hbi := rollback_byte_offset_eq index hindex
  have hsj := rollback_slot_eq j hj
  have hbj := rollback_byte_offset_eq j hj
  have hai := rollback_blk_addr_eq index (by omega)
  refine ⟨⟨⟨_, write_real_trace hw index v st |>.trans (List.append_assoc _ _ _), ?_⟩, ?_⟩,
    ⟨⟨_, write_simulate_trace hw index v st |>.trans (List.append_assoc _ _ _), ?_⟩, ?_⟩,
    ?_, ?_, ?_, ?_⟩
  · intro c hc
    simp only [List.mem_append, List.mem_singleton] at hc
    rcases hc with hc | hc
    · rw [hc]
      rfl
    · split at hc
      · rw [List.mem_singleton] at hc
        rw [hc]
        rfl
      · exact absurd hc (List.not_mem_nil c)
  · simp only [RPMB_DEVICE_STATE_BLOCK_ADDR]
    omega
  · intro c hc
    simp only [List.mem_append, List.mem_singleton] at hc
    rcases hc with hc | hc
    · exact Or.inl hc
    · split at hc
      · rw [List.mem_singleton] at hc
        exact Or.inr ⟨_, hc⟩
      · exact absurd hc (List.not_mem_nil c)
  · omega
  · intro hstore hok hsucc
    obtain ⟨hkey, hmem, _, hav⟩ := write_real_effect hw mem hstore index v st hsucc
    have hbefore := read_state_real_value hw mem hstore st hok
    have hafter := read_state_real_value hw mem hstore
      (write_rpmb_rollback_index_real hw index v st).2 (by rw [hkey]; exact hav _ _ hok _)
    have h512 : mem (write_rpmb_rollback_index_real hw index v st).2.dev 512 = mem st.dev 512 := by
      rw [hmem 512, if_neg (by omega)]
    have h513 : mem (write_rpmb_rollback_index_real hw index v st).2.dev 513 = mem st.dev 513 := by
      rw [hmem 513, if_neg (by omega)]
    rw [hafter.1, hafter.2, hbefore.1, hbefore.2, h512, h513]
    exact ⟨rfl, rfl⟩
  · intro hstore hok hsucc
    obtain ⟨hmem, _, hav⟩ := write_simulate_effect hw mem hstore index v st hsucc
    have hbefore := read_state_simulate_value hw mem hstore st hok
    have hafter := read_state_simulate_value hw mem hstore
      (write_rpmb_rollback_index_simulate hw index v st).2 (hav _ _ _ hok _)
    have h512 : mem (write_rpmb_rollback_index_simulate hw index v st).2.dev 512
        = mem st.dev 512 := by
      rw [hmem 512, if_neg (by omega)]
    have h513 : mem (write_rpmb_rollback_index_simulate hw index v st).2.dev 513
        = mem st.dev 513 := by
      rw [hmem 513, if_neg (by omega)]
    rw [hafter.1, hafter.2, hbefore.1, hbefore.2, h512, h513]
    exact ⟨rfl, rfl⟩
  · intro hstore hsucc
    obtain ⟨hmem, hav⟩ := write_state_real_effect hw mem hstore s st hsucc
    refine ⟨hmem, ?_⟩
    intro hokj
    have hoj := rollback_blk_offset_le j
    have hbefore := read_real_value hw mem hstore j st hokj
    have hafter := read_real_value hw mem hstore j (write_rpmb_device_state_real hw s st).2
      (by rw [write_state_real_key]; exact hav _ _ hokj _)
    rw [hafter.1, hafter.2, hbefore.1, hbefore.2]
    refine ⟨rfl, congrArg some ?_⟩
    apply u64_load_congr
    intro k hk
    exact hmem _ (Or.inr (by omega))
  · intro hstore hsucc
    obtain ⟨hmem, hav⟩ := write_state_simulate_effect hw mem hstore s st hsucc
    refine ⟨hmem, ?_⟩
    intro hok2 hokj
    have hbefore := read_simulate_value hw mem hstore j st hokj
    have hafter := read_simulate_value hw mem hstore j
      (write_rpmb_device_state_simulate hw s st).2 (hav hok2 _ _ _ hokj _)
    rw [hafter.1, hafter.2, hbefore.1, hbefore.2]
    refine ⟨rfl, congrArg some ?_⟩
    apply u64_load_congr
    intro k hk
    exact hmem _ (Or.inr (by omega))

/-- Witness of C20 on the reference store holding state 5 and the value 42 in
slot 6: writing 7 to slot 9 leaves the state read back at 5, and writing state 3
leaves the value read from slot 6 at 42, on either backend. -/
theorem state_and_indices_isolated_witness :
    ((9 : Nat) < 256 ∧ (6 : Nat) < 256 ∧
      RealStore flatHw FlatDev.mem ∧ SimStore flatHw FlatDev.mem ∧
      (write_rpmb_rollback_index_real flatHw 9 7 (write_rpmb_device_state_real flatHw 5
        (write_rpmb_rollback_index_real flatHw 6 42 (State.init zeroDev)).2).2).1
        = EFI_SUCCESS ∧
      (write_rpmb_device_state_simulate flatHw 3 (write_rpmb_device_state_real flatHw 5
        (write_rpmb_rollback_index_real flatHw 6 42 (State.init zeroDev)).2).2).1
        = EFI_SUCCESS) ∧
    (read_rpmb_device_state_real flatHw
      (write_rpmb_rollback_index_real flatHw 9 7 (write_rpmb_device_state_real flatHw 5
        (write_rpmb_rollback_index_real flatHw 6 42 (State.init zeroDev)).2).2).2).2.1
      = some 5 ∧
    (read_rpmb_rollback_index_simulate flatHw 6
      (write_rpmb_device_state_simulate flatHw 3 (write_rpmb_device_state_real flatHw 5
        (write_rpmb_rollback_index_real flatHw 6 42 (State.init zeroDev)).2).2).2).2.1
      = some 42 :=
  ⟨⟨by decide, by decide, flatHw_realStore, flatHw_simStore, by decide, by decide⟩,
    (((state_and_indices_isolated flatHw FlatDev.mem 9 6 7 3 (by decide) (by decide)
      (write_rpmb_device_state_real flatHw 5
        (write_rpmb_rollback_index_real flatHw 6 42 (State.init zeroDev)).2).2).2.2.1
      flatHw_realStore (by decide) (by decide)).2).trans (by decide),
    ((((state_and_indices_isolated flatHw FlatDev.mem 9 6 7 3 (by decide) (by decide)
      (write_rpmb_device_state_real flatHw 5
        (write_rpmb_rollback_index_real flatHw 6 42 (State.init zeroDev)).2).2).2.2.2.2.2
      flatHw_simStore (by decide)).2 (by decide) (by decide)).2).trans (by decide)⟩

end RpmbStorage
